import Mathlib

/-!
# gaudi-verbs-dmabuf: connection establishment and memory binding

A shallow embedding of `include/hpuverbs.hpp` and `src/hpuverbs.cpp`.

* Machine integers are natural numbers (unsigned) or integers (signed `int`,
  `ssize_t`); pointers are natural numbers with `0` for `nullptr`.
* Every call into the operating system, `hlthunk` or `libibverbs` takes its
  outcome from an environment record and is appended to a trace kept in the
  object state, so that the order and the arguments of the calls can be stated.
* A C++ `throw std::runtime_error(msg)` is the result `Except.error msg`,
  returned together with the object state at the point of the throw.
-/

namespace GaudiVerbs

/-! ## Byte order -/

/-- The `n` low-order bytes of `v`, least significant first. -/
def leBytes : Nat → Nat → List Nat
  | 0, _ => []
  | n + 1, v => v % 256 :: leBytes n (v / 256)

/-- The number whose bytes, least significant first, are `bs`. -/
def ofLeBytes : List Nat → Nat
  | [] => 0
  | b :: bs => b + 256 * ofLeBytes bs

/-- The object representation of a `w`-byte unsigned integer in the memory of
the host: least significant byte first on a little-endian host, most
significant byte first on a big-endian one. -/
def toMem (littleEndian : Bool) (w v : Nat) : List Nat :=
  if littleEndian then leBytes w v else (leBytes w v).reverse

/-- The unsigned integer whose object representation on the host is `bs`. -/
def ofMem (littleEndian : Bool) (bs : List Nat) : Nat :=
  if littleEndian then ofLeBytes bs else ofLeBytes bs.reverse

/-- Byte swap of a `w`-byte unsigned integer (`bswap_16/32/64`). -/
def bswap (w v : Nat) : Nat := ofLeBytes (leBytes w v).reverse

/-- The libc `htobe64`: a byte swap on a little-endian host, the identity on a
big-endian host. -/
def htobe64 (littleEndian : Bool) (v : Nat) : Nat :=
  if littleEndian then bswap 8 v else v

/-- The libc `be64toh`. -/
def be64toh (littleEndian : Bool) (v : Nat) : Nat :=
  if littleEndian then bswap 8 v else v

/-- The libc `htonl`. -/
def htonl (littleEndian : Bool) (v : Nat) : Nat :=
  if littleEndian then bswap 4 v else v

/-- The libc `ntohl`. -/
def ntohl (littleEndian : Bool) (v : Nat) : Nat :=
  if littleEndian then bswap 4 v else v

/-- The libc `htons`. -/
def htons (littleEndian : Bool) (v : Nat) : Nat :=
  if littleEndian then bswap 2 v else v

/-- The libc `ntohs`. -/
def ntohs (littleEndian : Bool) (v : Nat) : Nat :=
  if littleEndian then bswap 2 v else v

/-- `inline uint64_t htonll(uint64_t val) { return htobe64(val); }` -/
def htonll (littleEndian : Bool) (val : Nat) : Nat := htobe64 littleEndian val

/-- `inline uint64_t ntohll(uint64_t val) { return be64toh(val); }` -/
def ntohll (littleEndian : Bool) (val : Nat) : Nat := be64toh littleEndian val

/-- Byte `i` (counted from the most significant one) of the `w`-byte big-endian
encoding of `v`: the reference the wire layout is compared with. -/
def beByte (w v i : Nat) : Nat := v / 256 ^ (w - 1 - i) % 256

/-- The `w`-byte big-endian (network order) encoding of `v`. -/
def beBytes (w v : Nat) : List Nat := (List.range w).map (beByte w v)

/-! ## Constants and the connection record -/

/-- `constexpr size_t MSG_SIZE = 1024;` -/
def MSG_SIZE : Nat := 1024

/-- `constexpr size_t RDMA_BUFFER_SIZE = 4 * 1024 * 1024;` -/
def RDMA_BUFFER_SIZE : Nat := 4 * 1024 * 1024

/-- `struct CmConData { uint64_t addr; uint32_t rkey; uint32_t qp_num;
uint16_t lid; uint8_t gid[16]; } __attribute__((packed));` -/
structure CmConData where
  addr : Nat
  rkey : Nat
  qp_num : Nat
  lid : Nat
  gid : List Nat
  deriving DecidableEq, Repr

namespace CmConData

/-- The value-initialised record `CmConData x = {}`. -/
def zero : CmConData :=
  { addr := 0, rkey := 0, qp_num := 0, lid := 0, gid := List.replicate 16 0 }

/-- The fields hold values of their C types. -/
def wf (d : CmConData) : Prop :=
  d.addr < 2 ^ 64 ∧ d.rkey < 2 ^ 32 ∧ d.qp_num < 2 ^ 32 ∧ d.lid < 2 ^ 16 ∧
    d.gid.length = 16 ∧ ∀ b ∈ d.gid, b < 256

instance (d : CmConData) : Decidable d.wf := by
  unfold wf; infer_instance

/-- The widths in bytes of the fields, in declaration order. -/
def fieldWidths : List Nat := [8, 4, 4, 2, 16]

/-- `sizeof(CmConData)`: the structure is packed, so there is no padding and the
size is the sum of the field widths. -/
def sizeof : Nat := fieldWidths.sum

/-- The object representation of the record in host memory: the fields in
declaration order, each in host byte order, without padding. -/
def toMemBytes (littleEndian : Bool) (d : CmConData) : List Nat :=
  toMem littleEndian 8 d.addr ++ toMem littleEndian 4 d.rkey ++
    toMem littleEndian 4 d.qp_num ++ toMem littleEndian 2 d.lid ++ d.gid

/-- The record whose object representation in host memory is `bs`. -/
def ofMemBytes (littleEndian : Bool) (bs : List Nat) : CmConData :=
  { addr := ofMem littleEndian (bs.take 8)
    rkey := ofMem littleEndian ((bs.drop 8).take 4)
    qp_num := ofMem littleEndian ((bs.drop 12).take 4)
    lid := ofMem littleEndian ((bs.drop 16).take 2)
    gid := (bs.drop 18).take 16 }

/-- The conversions `exchangeConnectionData` applies to the local values before
the write: `htonll` on `addr`, `htonl` on `rkey` and `qp_num`, `htons` on `lid`,
`memcpy` of the 16 `gid` bytes. -/
def hton (littleEndian : Bool) (d : CmConData) : CmConData :=
  { addr := htonll littleEndian d.addr
    rkey := htonl littleEndian d.rkey
    qp_num := htonl littleEndian d.qp_num
    lid := htons littleEndian d.lid
    gid := d.gid }

/-- The conversions `exchangeConnectionData` applies to `remote_props_` after
the read: `ntohll`, `ntohl`, `ntohl`, `ntohs`; `gid` is not touched. -/
def ntoh (littleEndian : Bool) (d : CmConData) : CmConData :=
  { d with
    addr := ntohll littleEndian d.addr
    rkey := ntohl littleEndian d.rkey
    qp_num := ntohl littleEndian d.qp_num
    lid := ntohs littleEndian d.lid }

end CmConData

/-! ## HpuManager -/

/-- The device variants `tryOpenGaudiDevice` asks `hlthunk_open` for. -/
inductive DeviceName where
  | HLTHUNK_DEVICE_GAUDI3
  | HLTHUNK_DEVICE_GAUDI2
  | HLTHUNK_DEVICE_GAUDI
  | HLTHUNK_DEVICE_DONT_CARE
  deriving DecidableEq, Repr

/-- `MAP_FAILED`, that is `(void *) -1`, as a 64-bit address. -/
def MAP_FAILED : Nat := 2 ^ 64 - 1

/-- The calls `HpuManager` makes into `hlthunk`, libc and the kernel, with their
arguments. -/
inductive HpuCall where
  | hlthunk_open (device : DeviceName)
  | hlthunk_get_hw_ip_info (fd : Int)
  | hlthunk_device_memory_alloc (fd : Int) (size : Nat)
  | hlthunk_device_memory_map (fd : Int) (handle : Nat)
  | hlthunk_export_dmabuf_fd (fd : Int) (va size : Nat)
  | aligned_alloc (alignment size : Nat)
  | memset (ptr size : Nat)
  | mmap (size : Nat) (fd : Int)
  | hlthunk_host_memory_map (fd : Int) (ptr size : Nat)
  | close (fd : Int)
  | hlthunk_memory_unmap (fd : Int) (va : Nat)
  | free (ptr : Nat)
  | munmap (ptr size : Nat)
  | hlthunk_device_memory_free (fd : Int) (handle : Nat)
  | hlthunk_close (fd : Int)
  deriving DecidableEq, Repr

/-- The calls that give a resource back: `close`, `hlthunk_memory_unmap`,
`free`, `munmap`, `hlthunk_device_memory_free` and `hlthunk_close`. -/
def HpuCall.isRelease : HpuCall → Bool
  | .close _ => true
  | .hlthunk_memory_unmap _ _ => true
  | .free _ => true
  | .munmap _ _ => true
  | .hlthunk_device_memory_free _ _ => true
  | .hlthunk_close _ => true
  | _ => false

/-- The calls that attempt the page-aligned host allocation. -/
def HpuCall.isHostAlloc : HpuCall → Bool
  | .aligned_alloc _ _ => true
  | _ => false

/-- The calls that attempt the export of a shareable descriptor. -/
def HpuCall.isExport : HpuCall → Bool
  | .hlthunk_export_dmabuf_fd _ _ _ => true
  | _ => false

/-- The calls that attempt to map device memory into the device address space. -/
def HpuCall.isDeviceMap : HpuCall → Bool
  | .hlthunk_device_memory_map _ _ => true
  | _ => false

/-- The calls that give the CPU-visible buffer back: `free` and `munmap`. -/
def HpuCall.isBufferRelease : HpuCall → Bool
  | .free _ => true
  | .munmap _ _ => true
  | _ => false

/-- The `munmap` calls. -/
def HpuCall.isMunmap : HpuCall → Bool
  | .munmap _ _ => true
  | _ => false

/-- The `free` calls. -/
def HpuCall.isFree : HpuCall → Bool
  | .free _ => true
  | _ => false

/-- The `mmap` calls. -/
def HpuCall.isMmap : HpuCall → Bool
  | .mmap _ _ => true
  | _ => false

/-- Whether a sequence of calls passes to `free` an address that came from
`mmap`, which is undefined: `free` takes only what the allocator returned.
`buffer_` is assigned from `mmap` and from `aligned_alloc` only, and `free` is
called on a non-null `buffer_` only, so the address freed comes from `mmap`
exactly when the last of these two calls before the `free` is the `mmap`;
`mapped` says whether that is so at the start of the sequence. -/
def HpuCall.freesMapping : Bool → List HpuCall → Bool
  | _, [] => false
  | _, .mmap _ _ :: t => freesMapping true t
  | _, .aligned_alloc _ _ :: t => freesMapping false t
  | mapped, .free _ :: t => mapped || freesMapping false t
  | mapped, .hlthunk_open _ :: t => freesMapping mapped t
  | mapped, .hlthunk_get_hw_ip_info _ :: t => freesMapping mapped t
  | mapped, .hlthunk_device_memory_alloc _ _ :: t => freesMapping mapped t
  | mapped, .hlthunk_device_memory_map _ _ :: t => freesMapping mapped t
  | mapped, .hlthunk_export_dmabuf_fd _ _ _ :: t => freesMapping mapped t
  | mapped, .memset _ _ :: t => freesMapping mapped t
  | mapped, .hlthunk_host_memory_map _ _ _ :: t => freesMapping mapped t
  | mapped, .close _ :: t => freesMapping mapped t
  | mapped, .hlthunk_memory_unmap _ _ :: t => freesMapping mapped t
  | mapped, .munmap _ _ :: t => freesMapping mapped t
  | mapped, .hlthunk_device_memory_free _ _ :: t => freesMapping mapped t
  | mapped, .hlthunk_close _ :: t => freesMapping mapped t

/-- The calls that try to open a device. -/
def HpuCall.isOpen : HpuCall → Bool
  | .hlthunk_open _ => true
  | _ => false

/-- The outcomes of the external calls made by `HpuManager`. -/
structure HpuEnv where
  /-- The descriptor `hlthunk_open` returns for a device variant (negative: failure). -/
  hlthunk_open : DeviceName → Int
  /-- The return code of `hlthunk_get_hw_ip_info` (non-zero: failure). -/
  hlthunk_get_hw_ip_info : Int
  /-- The handle `hlthunk_device_memory_alloc` returns (0: failure). -/
  hlthunk_device_memory_alloc : Nat
  /-- The device VA `hlthunk_device_memory_map` returns (0: failure). -/
  hlthunk_device_memory_map : Nat
  /-- The descriptor the dmabuf export returns (negative: failure). -/
  hlthunk_export_dmabuf_fd : Int
  /-- The pointer `aligned_alloc` returns (0: failure). -/
  aligned_alloc : Nat
  /-- The address `mmap` returns (`MAP_FAILED`: failure). -/
  mmap : Nat
  /-- The device VA `hlthunk_host_memory_map` returns (0: failure). -/
  hlthunk_host_memory_map : Nat

/-- The data members of `class HpuManager`, and the trace of the external calls
made so far. -/
structure HpuManager where
  gaudi_fd : Int
  dmabuf_fd : Int
  gaudi_handle : Nat
  device_va : Nat
  host_device_va : Nat
  buffer : Nat
  buffer_size : Nat
  trace : List HpuCall
  deriving DecidableEq, Repr

namespace HpuManager

/-- The default member initialisers: `gaudi_fd_{-1}`, `dmabuf_fd_{-1}`,
`gaudi_handle_{0}`, `device_va_{0}`, `host_device_va_{0}`, `buffer_{nullptr}`,
`buffer_size_{0}`. -/
def fresh : HpuManager :=
  { gaudi_fd := -1, dmabuf_fd := -1, gaudi_handle := 0, device_va := 0,
    host_device_va := 0, buffer := 0, buffer_size := 0, trace := [] }

def getBuffer (h : HpuManager) : Nat := h.buffer
def getDmabufFd (h : HpuManager) : Int := h.dmabuf_fd
def getDeviceVa (h : HpuManager) : Nat := h.device_va
def getBufferSize (h : HpuManager) : Nat := h.buffer_size

/-- Record an external call. -/
def call (h : HpuManager) (c : HpuCall) : HpuManager :=
  { h with trace := h.trace ++ [c] }

/-- The loop of `tryOpenGaudiDevice` over the remaining device variants:
`gaudi_fd_ = hlthunk_open(device, nullptr); if (gaudi_fd_ >= 0) return true;`. -/
def tryOpenLoop (env : HpuEnv) : List DeviceName → HpuManager → HpuManager × Bool
  | [], h => (h, false)
  | device :: rest, h =>
    let h : HpuManager :=
      { h.call (.hlthunk_open device) with gaudi_fd := env.hlthunk_open device }
    if h.gaudi_fd ≥ 0 then (h, true) else tryOpenLoop env rest h

def tryOpenGaudiDevice (env : HpuEnv) (h : HpuManager) : HpuManager × Bool :=
  tryOpenLoop env
    [.HLTHUNK_DEVICE_GAUDI3, .HLTHUNK_DEVICE_GAUDI2, .HLTHUNK_DEVICE_GAUDI,
      .HLTHUNK_DEVICE_DONT_CARE] h

def allocateDeviceMemory (env : HpuEnv) (size : Nat) (h : HpuManager) : HpuManager × Bool :=
  let h : HpuManager := { h.call (.hlthunk_device_memory_alloc h.gaudi_fd size) with
    gaudi_handle := env.hlthunk_device_memory_alloc }
  (h, h.gaudi_handle != 0)

def mapDeviceMemory (env : HpuEnv) (h : HpuManager) : HpuManager × Bool :=
  let h : HpuManager := { h.call (.hlthunk_device_memory_map h.gaudi_fd h.gaudi_handle) with
    device_va := env.hlthunk_device_memory_map }
  (h, h.device_va != 0)

def exportDmabuf (env : HpuEnv) (h : HpuManager) : HpuManager × Bool :=
  let h : HpuManager := { h.call (.hlthunk_export_dmabuf_fd h.gaudi_fd h.device_va h.buffer_size) with
    dmabuf_fd := env.hlthunk_export_dmabuf_fd }
  (h, decide (h.dmabuf_fd ≥ 0))

def allocateHostMemory (env : HpuEnv) (size : Nat) (h : HpuManager) : HpuManager × Bool :=
  let h : HpuManager := { h.call (.aligned_alloc 4096 size) with buffer := env.aligned_alloc }
  if h.buffer = 0 then (h, false)
  else (h.call (.memset h.buffer size), true)

def mapHostMemoryToGaudi (env : HpuEnv) (h : HpuManager) : HpuManager × Bool :=
  let h : HpuManager := { h.call (.hlthunk_host_memory_map h.gaudi_fd h.buffer h.buffer_size) with
    host_device_va := env.hlthunk_host_memory_map }
  (h, h.host_device_va != 0)

/-- `HpuManager::cleanup`. -/
def cleanup (h : HpuManager) : HpuManager :=
  -- if (dmabuf_fd_ >= 0) { close(dmabuf_fd_); dmabuf_fd_ = -1; }
  let h : HpuManager :=
    if h.dmabuf_fd ≥ 0 then { h.call (.close h.dmabuf_fd) with dmabuf_fd := -1 } else h
  -- if (buffer_ && dmabuf_fd_ < 0) { ... free(buffer_); } else if (buffer_) { munmap(...); }
  let h : HpuManager :=
    if h.buffer ≠ 0 ∧ h.dmabuf_fd < 0 then
      let h : HpuManager :=
        if h.host_device_va ≠ 0 ∧ h.gaudi_fd ≥ 0 then
          h.call (.hlthunk_memory_unmap h.gaudi_fd h.host_device_va)
        else h
      h.call (.free h.buffer)
    else if h.buffer ≠ 0 then h.call (.munmap h.buffer h.buffer_size)
    else h
  -- buffer_ = nullptr;
  let h : HpuManager := { h with buffer := 0 }
  -- if (gaudi_handle_) { if (device_va_) unmap; free; gaudi_handle_ = 0; device_va_ = 0; }
  let h : HpuManager :=
    if h.gaudi_handle ≠ 0 then
      let h : HpuManager :=
        if h.device_va ≠ 0 then h.call (.hlthunk_memory_unmap h.gaudi_fd h.device_va) else h
      let h : HpuManager := h.call (.hlthunk_device_memory_free h.gaudi_fd h.gaudi_handle)
      { h with gaudi_handle := 0, device_va := 0 }
    else h
  -- if (gaudi_fd_ >= 0) { hlthunk_close(gaudi_fd_); gaudi_fd_ = -1; }
  if h.gaudi_fd ≥ 0 then { h.call (.hlthunk_close h.gaudi_fd) with gaudi_fd := -1 } else h

/-- The calls a `cleanup` started in state `h` makes, read off the state: the
close of the descriptor, the release of the buffer (with the unmap of its
device mapping), the release of the device memory (with the unmap of its
device VA) and the close of the device. That `cleanup` makes exactly these
calls is the theorem `hpu_cleanup_eq`. -/
def cleanupCalls (h : HpuManager) : List HpuCall :=
  (if h.dmabuf_fd ≥ 0 then [HpuCall.close h.dmabuf_fd] else []) ++
    (if h.buffer ≠ 0 then
      (if h.host_device_va ≠ 0 ∧ h.gaudi_fd ≥ 0 then
        [HpuCall.hlthunk_memory_unmap h.gaudi_fd h.host_device_va] else []) ++
        [HpuCall.free h.buffer]
    else []) ++
    (if h.gaudi_handle ≠ 0 then
      (if h.device_va ≠ 0 then [HpuCall.hlthunk_memory_unmap h.gaudi_fd h.device_va] else []) ++
        [HpuCall.hlthunk_device_memory_free h.gaudi_fd h.gaudi_handle]
    else []) ++
    (if h.gaudi_fd ≥ 0 then [HpuCall.hlthunk_close h.gaudi_fd] else [])

/-- `HpuManager::initialize(size_t size)`. -/
def initializeHpu (env : HpuEnv) (size : Nat) (h : HpuManager) :
    HpuManager × Except String Unit :=
  let h : HpuManager := { h with buffer_size := size }
  let (h, opened) := tryOpenGaudiDevice env h
  if !opened then
    let (h, ok) := allocateHostMemory env size h
    if !ok then (h, .error "Failed to allocate host memory") else (h, .ok ())
  else
  let h : HpuManager := h.call (.hlthunk_get_hw_ip_info h.gaudi_fd)
  if env.hlthunk_get_hw_ip_info ≠ 0 then
    let h : HpuManager := { h.call (.hlthunk_close h.gaudi_fd) with gaudi_fd := -1 }
    (h, .error "Failed to get Gaudi hardware info")
  else
  let (h, ok) := allocateDeviceMemory env size h
  if !ok then
    let h : HpuManager := cleanup h
    let (h, ok) := allocateHostMemory env size h
    if !ok then (h, .error "Failed to allocate host memory") else (h, .ok ())
  else
  let (h, ok) := mapDeviceMemory env h
  if !ok then
    let h : HpuManager := cleanup h
    (h, .error "Failed to map device memory")
  else
  let (h, ok) := exportDmabuf env h
  if !ok then
    let (h, ok) := allocateHostMemory env size h
    if !ok then
      let h : HpuManager := cleanup h
      (h, .error "Failed to allocate host memory")
    else
      let (h, _) := mapHostMemoryToGaudi env h
      (h, .ok ())
  else
    -- buffer_ = mmap(nullptr, size, PROT_READ | PROT_WRITE, MAP_SHARED, dmabuf_fd_, 0);
    let h : HpuManager := { h.call (.mmap size h.dmabuf_fd) with buffer := env.mmap }
    if h.buffer = MAP_FAILED then ({ h with buffer := 0 }, .ok ())
    else (h, .ok ())

end HpuManager

/-! ## libibverbs data -/

/-- The `enum ibv_access_flags` members the program uses; a value built with
`|` is the list of its members. -/
inductive AccessFlag where
  | IBV_ACCESS_LOCAL_WRITE
  | IBV_ACCESS_REMOTE_WRITE
  | IBV_ACCESS_REMOTE_READ
  | IBV_ACCESS_REMOTE_ATOMIC
  deriving DecidableEq, Repr

/-- The `enum ibv_qp_attr_mask` members the program uses. -/
inductive QpAttrMask where
  | IBV_QP_STATE
  | IBV_QP_ACCESS_FLAGS
  | IBV_QP_PKEY_INDEX
  | IBV_QP_PORT
  | IBV_QP_AV
  | IBV_QP_PATH_MTU
  | IBV_QP_TIMEOUT
  | IBV_QP_RETRY_CNT
  | IBV_QP_RNR_RETRY
  | IBV_QP_RQ_PSN
  | IBV_QP_MAX_QP_RD_ATOMIC
  | IBV_QP_MIN_RNR_TIMER
  | IBV_QP_SQ_PSN
  | IBV_QP_MAX_DEST_RD_ATOMIC
  | IBV_QP_DEST_QPN
  deriving DecidableEq, Repr

/-- The `enum ibv_qp_state` members the program uses; `IBV_QPS_RESET` is the
zero value. -/
inductive QpState where
  | IBV_QPS_RESET
  | IBV_QPS_INIT
  | IBV_QPS_RTR
  | IBV_QPS_RTS
  deriving DecidableEq, Repr

/-- `IBV_MTU_4096` of `enum ibv_mtu`. -/
def IBV_MTU_4096 : Nat := 5

/-- `IBV_LINK_LAYER_ETHERNET`. -/
def IBV_LINK_LAYER_ETHERNET : Nat := 2

/-- `IBV_WC_SUCCESS` of `enum ibv_wc_status`. -/
def IBV_WC_SUCCESS : Nat := 0

/-- `IBV_WR_RDMA_WRITE` of `enum ibv_wr_opcode`. -/
def IBV_WR_RDMA_WRITE : Int := 0

/-- `IBV_WR_SEND` of `enum ibv_wr_opcode`. -/
def IBV_WR_SEND : Int := 2

/-- `IBV_WR_RDMA_READ` of `enum ibv_wr_opcode`. -/
def IBV_WR_RDMA_READ : Int := 4

/-- `IBV_SEND_SIGNALED` of `enum ibv_send_flags`. -/
def IBV_SEND_SIGNALED : Nat := 2

/-- The members of `struct ibv_mr` the program reads, and the identity of the
object. -/
structure IbvMr where
  handle : Nat
  lkey : Nat
  rkey : Nat
  deriving DecidableEq, Repr

/-- The member of `struct ibv_qp` the program reads, and the identity of the
object. -/
structure IbvQp where
  handle : Nat
  qp_num : Nat
  deriving DecidableEq, Repr

/-- The members of `struct ibv_port_attr` the program reads. -/
structure PortAttr where
  lid : Nat
  link_layer : Nat
  deriving DecidableEq, Repr

/-- `struct ibv_global_route`, as far as the program sets it. -/
structure GlobalRoute where
  dgid : List Nat
  sgid_index : Nat
  hop_limit : Nat
  deriving DecidableEq, Repr

/-- `struct ibv_ah_attr`, as far as the program sets it. -/
structure AhAttr where
  grh : GlobalRoute
  dlid : Nat
  sl : Nat
  src_path_bits : Nat
  is_global : Nat
  port_num : Nat
  deriving DecidableEq, Repr

/-- `struct ibv_qp_attr`, as far as the program sets it. -/
structure QpAttr where
  qp_state : QpState
  path_mtu : Nat
  rq_psn : Nat
  sq_psn : Nat
  dest_qp_num : Nat
  qp_access_flags : List AccessFlag
  ah_attr : AhAttr
  pkey_index : Nat
  max_rd_atomic : Nat
  max_dest_rd_atomic : Nat
  min_rnr_timer : Nat
  port_num : Nat
  timeout : Nat
  retry_cnt : Nat
  rnr_retry : Nat
  deriving DecidableEq, Repr

/-- The value-initialised `struct ibv_qp_attr attr = {};`. -/
def QpAttr.zero : QpAttr :=
  { qp_state := .IBV_QPS_RESET, path_mtu := 0, rq_psn := 0, sq_psn := 0, dest_qp_num := 0,
    qp_access_flags := [],
    ah_attr :=
      { grh := { dgid := List.replicate 16 0, sgid_index := 0, hop_limit := 0 },
        dlid := 0, sl := 0, src_path_bits := 0, is_global := 0, port_num := 0 },
    pkey_index := 0, max_rd_atomic := 0, max_dest_rd_atomic := 0, min_rnr_timer := 0,
    port_num := 0, timeout := 0, retry_cnt := 0, rnr_retry := 0 }

/-- `struct ibv_sge`. -/
structure Sge where
  addr : Nat
  length : Nat
  lkey : Nat
  deriving DecidableEq, Repr

/-- `struct ibv_send_wr`, as far as the program sets it; `sg_list` points to the
single element `sge`. -/
structure SendWr where
  wr_id : Nat
  sg_list : Sge
  num_sge : Nat
  opcode : Int
  send_flags : Nat
  remote_addr : Nat
  rkey : Nat
  deriving DecidableEq, Repr

/-- `struct ibv_recv_wr`, as far as the program sets it. -/
structure RecvWr where
  wr_id : Nat
  sg_list : Sge
  num_sge : Nat
  deriving DecidableEq, Repr

/-- The calls `RdmaVerbs` makes into `libibverbs`, libc and the kernel, with the
arguments that matter. -/
inductive VerbsCall where
  | ibv_get_device_list
  | ibv_free_device_list
  | ibv_open_device (name : String)
  | ibv_query_port (port : Nat)
  | ibv_alloc_pd
  | ibv_create_cq (cqe : Nat)
  | ibv_reg_dmabuf_mr (offset length iova : Nat) (fd : Int) (access : List AccessFlag)
  | ibv_reg_mr (addr length : Nat) (access : List AccessFlag)
  | ibv_create_qp (max_send_wr max_recv_wr max_send_sge max_recv_sge sq_sig_all : Nat)
  | getaddrinfo (node : Option String) (service : String)
  | freeaddrinfo
  | socket
  | connect (fd : Int)
  | setsockopt (fd : Int)
  | bind (fd : Int)
  | listen (fd : Int) (backlog : Nat)
  | accept (fd : Int)
  | close (fd : Int)
  | ibv_query_gid (port index : Nat)
  | write (fd : Int) (data : List Nat) (count : Nat)
  | read (fd : Int) (count : Nat)
  | ibv_modify_qp (attr : QpAttr) (mask : List QpAttrMask)
  | ibv_post_send (wr : SendWr)
  | ibv_post_recv (wr : RecvWr)
  | ibv_destroy_qp (qp : Nat)
  | ibv_dereg_mr (mr : Nat)
  | ibv_destroy_cq (cq : Nat)
  | ibv_dealloc_pd (pd : Nat)
  | ibv_close_device (ctx : Nat)
  deriving DecidableEq, Repr

/-- The byte count a `write` or `read` call asks for. -/
def VerbsCall.count? : VerbsCall → Option Nat
  | .write _ _ count => some count
  | .read _ count => some count
  | _ => none

/-- The base address a registration call registers the region under: the
`iova` argument of `ibv_reg_dmabuf_mr`, the `addr` argument of `ibv_reg_mr`. -/
def VerbsCall.registeredBase? : VerbsCall → Option Nat
  | .ibv_reg_dmabuf_mr _ _ iova _ _ => some iova
  | .ibv_reg_mr addr _ _ => some addr
  | _ => none

/-- The host and the outcomes of the external calls made by `RdmaVerbs` while it
is set up and connected. A pointer result is `none` for `NULL`. -/
structure VerbsEnv where
  /-- The byte order of the host. -/
  littleEndian : Bool
  /-- The names of the devices `ibv_get_device_list` returns (`none`: `NULL`). -/
  ibv_get_device_list : Option (List String)
  ibv_open_device : Option Nat
  /-- The return code of `ibv_query_port` and the attributes it stores. -/
  ibv_query_port : Int
  port_attr : PortAttr
  ibv_alloc_pd : Option Nat
  ibv_create_cq : Option Nat
  ibv_reg_dmabuf_mr : Option IbvMr
  ibv_reg_mr : Option IbvMr
  ibv_create_qp : Option IbvQp
  getaddrinfo : Int
  socket : Int
  connect : Int
  bind : Int
  listen : Int
  accept : Int
  /-- The 16 bytes `ibv_query_gid` leaves in `my_gid`. -/
  ibv_query_gid : List Nat
  /-- The return value of the write of the local record. -/
  write_record : Int
  /-- The return value of the read of the remote record, and the bytes it
  stored at the start of `remote_props_`. -/
  read_record : Int
  read_record_data : List Nat
  /-- The return value of the write of the sync byte. -/
  write_sync : Int
  /-- The return value of the read of the sync byte. -/
  read_sync : Int
  /-- The return codes of the three `ibv_modify_qp` calls. -/
  modify_qp_init : Int
  modify_qp_rtr : Int
  modify_qp_rts : Int
  ibv_post_send : Int
  ibv_post_recv : Int

/-- The data members of `class RdmaVerbs` (without `hpu_`, which the functions
that read through it take as an argument), and the trace of the external calls
made so far. -/
structure RdmaVerbs where
  ib_ctx : Option Nat
  pd : Option Nat
  mr : Option IbvMr
  cq : Option Nat
  qp : Option IbvQp
  port_attr : PortAttr
  remote_props : CmConData
  sock : Int
  trace : List VerbsCall
  deriving DecidableEq, Repr

namespace RdmaVerbs

/-- The default member initialisers: all pointers `nullptr`, `port_attr_{}`,
`remote_props_{}`, `sock_{-1}`. -/
def fresh : RdmaVerbs :=
  { ib_ctx := none, pd := none, mr := none, cq := none, qp := none,
    port_attr := { lid := 0, link_layer := 0 }, remote_props := CmConData.zero,
    sock := -1, trace := [] }

def getSock (s : RdmaVerbs) : Int := s.sock

/-- Record an external call. -/
def call (s : RdmaVerbs) (c : VerbsCall) : RdmaVerbs :=
  { s with trace := s.trace ++ [c] }

/-- The access rights `mr_flags` of `setupResources`:
`IBV_ACCESS_LOCAL_WRITE | IBV_ACCESS_REMOTE_READ | IBV_ACCESS_REMOTE_WRITE |
IBV_ACCESS_REMOTE_ATOMIC`. -/
def mr_flags : List AccessFlag :=
  [.IBV_ACCESS_LOCAL_WRITE, .IBV_ACCESS_REMOTE_READ, .IBV_ACCESS_REMOTE_WRITE,
    .IBV_ACCESS_REMOTE_ATOMIC]

/-- `mr_->lkey`; reading through a null `mr_` is undefined in C++ and gives 0
here. The statements about this value assume a registration. -/
def lkey (s : RdmaVerbs) : Nat := (s.mr.map (·.lkey)).getD 0

/-- `mr_->rkey`, with the same convention as `lkey`. -/
def rkey (s : RdmaVerbs) : Nat := (s.mr.map (·.rkey)).getD 0

/-- `qp_->qp_num`, with the same convention as `lkey`. -/
def qp_num (s : RdmaVerbs) : Nat := (s.qp.map (·.qp_num)).getD 0

/-- The expression
`hpu_->getDmabufFd() >= 0 ? hpu_->getDeviceVa() : reinterpret_cast<uintptr_t>(hpu_->getBuffer())`
of `postSend`, `postReceive` and `exchangeConnectionData`. -/
def localAddr (hpu : HpuManager) : Nat :=
  if hpu.getDmabufFd ≥ 0 then hpu.getDeviceVa else hpu.getBuffer

/-- `RdmaVerbs::initializeDevice`. -/
def initializeDevice (env : VerbsEnv) (ib_dev_name : String) (s : RdmaVerbs) :
    RdmaVerbs × Bool :=
  let s : RdmaVerbs := s.call .ibv_get_device_list
  match env.ibv_get_device_list with
  | none => (s, false)
  | some dev_list =>
    if dev_list.length = 0 then (s, false)
    else
      match dev_list.find? (fun name => ib_dev_name.isEmpty || ib_dev_name == name) with
      | none => (s.call .ibv_free_device_list, false)
      | some ib_dev =>
        let s : RdmaVerbs := { s.call (.ibv_open_device ib_dev) with ib_ctx := env.ibv_open_device }
        let s : RdmaVerbs := s.call .ibv_free_device_list
        if s.ib_ctx.isNone then (s, false) else (s, true)

/-- The end of `setupResources`, from `if (!mr_)` on: without a registration the
function returns false, otherwise the queue pair is created. -/
def setupQueuePair (env : VerbsEnv) (s : RdmaVerbs) : RdmaVerbs × Bool :=
  -- if (!mr_) return false;
  if s.mr.isNone then (s, false)
  else
  let s : RdmaVerbs := { s.call (.ibv_create_qp 1 1 1 1 1) with qp := env.ibv_create_qp }
  if s.qp.isNone then (s, false) else (s, true)

/-- `RdmaVerbs::setupResources`. -/
def setupResources (env : VerbsEnv) (hpu : HpuManager) (s : RdmaVerbs) : RdmaVerbs × Bool :=
  let s : RdmaVerbs := { s.call (.ibv_query_port 1) with port_attr := env.port_attr }
  if env.ibv_query_port ≠ 0 then (s, false)
  else
  let s : RdmaVerbs := { s.call .ibv_alloc_pd with pd := env.ibv_alloc_pd }
  if s.pd.isNone then (s, false)
  else
  let s : RdmaVerbs := { s.call (.ibv_create_cq 10) with cq := env.ibv_create_cq }
  if s.cq.isNone then (s, false)
  else
  -- if (hpu.getDmabufFd() >= 0) { mr_ = ibv_reg_dmabuf_mr(...); }
  let s : RdmaVerbs :=
    if hpu.getDmabufFd ≥ 0 then
      { s.call (.ibv_reg_dmabuf_mr 0 hpu.getBufferSize hpu.getDeviceVa hpu.getDmabufFd mr_flags)
          with mr := env.ibv_reg_dmabuf_mr }
    else s
  -- if (!mr_ && hpu.getBuffer()) { mr_ = ibv_reg_mr(...); if (!mr_) return false; }
  if s.mr.isNone ∧ hpu.getBuffer ≠ 0 then
    let s : RdmaVerbs :=
      { s.call (.ibv_reg_mr hpu.getBuffer hpu.getBufferSize mr_flags) with mr := env.ibv_reg_mr }
    if s.mr.isNone then (s, false) else setupQueuePair env s
  else setupQueuePair env s

/-- `RdmaVerbs::initialize` (the assignment `hpu_ = &hpu` is the argument `hpu`
of the later calls). -/
def initializeVerbs (env : VerbsEnv) (ib_dev_name : String) (hpu : HpuManager)
    (s : RdmaVerbs) : RdmaVerbs × Except String Unit :=
  let (s, ok) := initializeDevice env ib_dev_name s
  if !ok then (s, .error "Failed to initialize IB device")
  else
  let (s, ok) := setupResources env hpu s
  if !ok then (s, .error "Failed to setup RDMA resources")
  else (s, .ok ())

/-- `RdmaVerbs::setupSocket`. -/
def setupSocket (env : VerbsEnv) (server_name : String) (port : Int) (s : RdmaVerbs) :
    RdmaVerbs × Bool :=
  let port_str := toString port
  let s : RdmaVerbs :=
    s.call (.getaddrinfo (if server_name.isEmpty then none else some server_name) port_str)
  if env.getaddrinfo ≠ 0 then (s, false)
  else
  let s : RdmaVerbs := { s.call .socket with sock := env.socket }
  if s.sock < 0 then (s.call .freeaddrinfo, false)
  else
  if !server_name.isEmpty then
    let s : RdmaVerbs := s.call (.connect s.sock)
    if env.connect ≠ 0 then ((s.call (.close s.sock)).call .freeaddrinfo, false)
    else (s.call .freeaddrinfo, true)
  else
    let s : RdmaVerbs := s.call (.setsockopt s.sock)
    let s : RdmaVerbs := s.call (.bind s.sock)
    -- bind(...) || listen(sock_, 1): listen is called only when bind returned 0
    if env.bind ≠ 0 then ((s.call (.close s.sock)).call .freeaddrinfo, false)
    else
    let s : RdmaVerbs := s.call (.listen s.sock 1)
    if env.listen ≠ 0 then ((s.call (.close s.sock)).call .freeaddrinfo, false)
    else
    let s : RdmaVerbs := s.call (.accept s.sock)
    let client_fd := env.accept
    let s : RdmaVerbs := s.call (.close s.sock)
    let s : RdmaVerbs := { s with sock := client_fd }
    (s.call .freeaddrinfo, true)

/-- The bytes of an object after `new` has been stored at its start. -/
def storeBytes (old new : List Nat) : List Nat := new ++ old.drop new.length

/-- The local `my_gid` of `exchangeConnectionData`: `union ibv_gid my_gid = {};`
and, on an Ethernet link layer, what `ibv_query_gid(ib_ctx_, 1, 0, &my_gid)`
left in it. -/
def my_gid (env : VerbsEnv) (s : RdmaVerbs) : List Nat :=
  if s.port_attr.link_layer = IBV_LINK_LAYER_ETHERNET then env.ibv_query_gid
  else List.replicate 16 0

/-- The local values `exchangeConnectionData` advertises, before the byte-order
conversions. -/
def localValues (env : VerbsEnv) (hpu : HpuManager) (s : RdmaVerbs) : CmConData :=
  { addr := localAddr hpu, rkey := s.rkey, qp_num := s.qp_num, lid := s.port_attr.lid,
    gid := (my_gid env s).take 16 }

/-- The local record `local_con_data` that `exchangeConnectionData` fills in
before the write: `htonll`, `htonl`, `htonl`, `htons` of the local values and
`memcpy(local_con_data.gid, &my_gid, 16)`. -/
def localConData (env : VerbsEnv) (hpu : HpuManager) (s : RdmaVerbs) : CmConData :=
  CmConData.hton env.littleEndian (localValues env hpu s)

/-- The call `exchangeConnectionData` makes before the first transfer: the GID
query, on an Ethernet link layer only. -/
def gidQuery (s : RdmaVerbs) : List VerbsCall :=
  if s.port_attr.link_layer = IBV_LINK_LAYER_ETHERNET then [.ibv_query_gid 1 0] else []

/-- `RdmaVerbs::exchangeConnectionData`. The comparisons of a transfer count
with `sizeof(CmConData)` and with `1` are comparisons of integers: a negative
`ssize_t` converted to `size_t` differs from the expected count as well. -/
def exchangeConnectionData (env : VerbsEnv) (hpu : HpuManager) (s : RdmaVerbs) :
    RdmaVerbs × Bool :=
  let s : RdmaVerbs :=
    if s.port_attr.link_layer = IBV_LINK_LAYER_ETHERNET then s.call (.ibv_query_gid 1 0) else s
  let local_con_data := localConData env hpu s
  -- write(sock_, &local_con_data, sizeof(CmConData)) != sizeof(CmConData)
  let s : RdmaVerbs :=
    s.call (.write s.sock (local_con_data.toMemBytes env.littleEndian) CmConData.sizeof)
  if env.write_record ≠ CmConData.sizeof then (s, false)
  else
  -- read(sock_, &remote_props_, sizeof(CmConData)) != sizeof(CmConData)
  let s : RdmaVerbs := s.call (.read s.sock CmConData.sizeof)
  let stored : List Nat :=
    storeBytes (s.remote_props.toMemBytes env.littleEndian)
      (env.read_record_data.take CmConData.sizeof)
  let s : RdmaVerbs := { s with remote_props := CmConData.ofMemBytes env.littleEndian stored }
  if env.read_record ≠ CmConData.sizeof then (s, false)
  else
  let s : RdmaVerbs := { s with remote_props := s.remote_props.ntoh env.littleEndian }
  -- write(sock_, "Q", 1) != 1
  let s : RdmaVerbs := s.call (.write s.sock ['Q'.toNat] 1)
  if env.write_sync ≠ 1 then (s, false)
  else
  -- read(sock_, &temp_char, 1) != 1
  let s : RdmaVerbs := s.call (.read s.sock 1)
  if env.read_sync ≠ 1 then (s, false)
  else (s, true)

/-- The attributes `attr` that `modifyQpToInit` builds. -/
def initAttr : QpAttr :=
  { QpAttr.zero with
    qp_state := .IBV_QPS_INIT
    port_num := 1
    pkey_index := 0
    qp_access_flags :=
      [.IBV_ACCESS_LOCAL_WRITE, .IBV_ACCESS_REMOTE_READ, .IBV_ACCESS_REMOTE_WRITE,
        .IBV_ACCESS_REMOTE_ATOMIC] }

/-- The attribute mask `flags` of `modifyQpToInit`. -/
def initMask : List QpAttrMask :=
  [.IBV_QP_STATE, .IBV_QP_PKEY_INDEX, .IBV_QP_PORT, .IBV_QP_ACCESS_FLAGS]

/-- `RdmaVerbs::modifyQpToInit`. -/
def modifyQpToInit (env : VerbsEnv) (s : RdmaVerbs) : RdmaVerbs × Bool :=
  (s.call (.ibv_modify_qp initAttr initMask), decide (env.modify_qp_init = 0))

/-- The attributes `attr` that `modifyQpToRtr` builds from `remote_props_`. -/
def rtrAttr (remote_props : CmConData) : QpAttr :=
  let attr : QpAttr :=
    { QpAttr.zero with
      qp_state := .IBV_QPS_RTR
      path_mtu := IBV_MTU_4096
      dest_qp_num := remote_props.qp_num
      rq_psn := 0
      max_dest_rd_atomic := 1
      min_rnr_timer := 12
      ah_attr :=
        { QpAttr.zero.ah_attr with
          is_global := 0
          dlid := remote_props.lid
          sl := 0
          src_path_bits := 0
          port_num := 1 } }
  -- if (memcmp(remote_props_.gid, "\0...\0", 16)) { ... }
  if remote_props.gid.take 16 ≠ List.replicate 16 0 then
    { attr with
      ah_attr :=
        { attr.ah_attr with
          is_global := 1
          grh := { dgid := remote_props.gid.take 16, sgid_index := 0, hop_limit := 1 } } }
  else attr

/-- The attribute mask of `modifyQpToRtr`. -/
def rtrMask : List QpAttrMask :=
  [.IBV_QP_STATE, .IBV_QP_AV, .IBV_QP_PATH_MTU, .IBV_QP_DEST_QPN, .IBV_QP_RQ_PSN,
    .IBV_QP_MAX_DEST_RD_ATOMIC, .IBV_QP_MIN_RNR_TIMER]

/-- `RdmaVerbs::modifyQpToRtr`. -/
def modifyQpToRtr (env : VerbsEnv) (s : RdmaVerbs) : RdmaVerbs × Bool :=
  (s.call (.ibv_modify_qp (rtrAttr s.remote_props) rtrMask), decide (env.modify_qp_rtr = 0))

/-- The attributes `attr` that `modifyQpToRts` builds. -/
def rtsAttr : QpAttr :=
  { QpAttr.zero with
    qp_state := .IBV_QPS_RTS
    timeout := 14
    retry_cnt := 7
    rnr_retry := 7
    sq_psn := 0
    max_rd_atomic := 1 }

/-- The attribute mask of `modifyQpToRts`. -/
def rtsMask : List QpAttrMask :=
  [.IBV_QP_STATE, .IBV_QP_TIMEOUT, .IBV_QP_RETRY_CNT, .IBV_QP_RNR_RETRY, .IBV_QP_SQ_PSN,
    .IBV_QP_MAX_QP_RD_ATOMIC]

/-- `RdmaVerbs::modifyQpToRts`. -/
def modifyQpToRts (env : VerbsEnv) (s : RdmaVerbs) : RdmaVerbs × Bool :=
  (s.call (.ibv_modify_qp rtsAttr rtsMask), decide (env.modify_qp_rts = 0))

/-- `RdmaVerbs::connectQp`. -/
def connectQp (env : VerbsEnv) (hpu : HpuManager) (server_name : String) (port : Int)
    (s : RdmaVerbs) : RdmaVerbs × Except String Unit :=
  let (s, ok) := setupSocket env server_name port s
  if !ok then (s, .error "Failed to establish TCP connection")
  else
  let (s, ok) := exchangeConnectionData env hpu s
  if !ok then (s, .error "Failed to exchange connection data")
  else
  let (s, ok) := modifyQpToInit env s
  if !ok then (s, .error "Failed to modify QP to INIT")
  else
  let (s, ok) := modifyQpToRtr env s
  if !ok then (s, .error "Failed to modify QP to RTR")
  else
  let (s, ok) := modifyQpToRts env s
  if !ok then (s, .error "Failed to modify QP to RTS")
  else (s, .ok ())

/-- The scatter-gather element `sge` of `postSend` and of `postReceive`. -/
def buildSge (hpu : HpuManager) (s : RdmaVerbs) : Sge :=
  { addr := localAddr hpu, length := MSG_SIZE, lkey := s.lkey }

/-- The work request `sr` that `postSend` passes to `ibv_post_send`. -/
def buildSendWr (hpu : HpuManager) (opcode : Int) (s : RdmaVerbs) : SendWr :=
  let sr : SendWr :=
    { wr_id := 0, sg_list := buildSge hpu s, num_sge := 1, opcode := opcode,
      send_flags := IBV_SEND_SIGNALED, remote_addr := 0, rkey := 0 }
  if opcode ≠ IBV_WR_SEND then
    { sr with remote_addr := s.remote_props.addr, rkey := s.remote_props.rkey }
  else sr

/-- `RdmaVerbs::postSend`. -/
def postSend (env : VerbsEnv) (hpu : HpuManager) (opcode : Int) (s : RdmaVerbs) :
    RdmaVerbs × Except String Unit :=
  let s : RdmaVerbs := s.call (.ibv_post_send (buildSendWr hpu opcode s))
  if env.ibv_post_send ≠ 0 then (s, .error "Failed to post send") else (s, .ok ())

/-- `RdmaVerbs::postReceive`. -/
def postReceive (env : VerbsEnv) (hpu : HpuManager) (s : RdmaVerbs) :
    RdmaVerbs × Except String Unit :=
  let rr : RecvWr := { wr_id := 0, sg_list := buildSge hpu s, num_sge := 1 }
  let s : RdmaVerbs := s.call (.ibv_post_recv rr)
  if env.ibv_post_recv ≠ 0 then (s, .error "Failed to post receive") else (s, .ok ())

/-- What a call of `pollCompletion` did: its result (a return value or the
message of the exception thrown), the number of `ibv_poll_cq` queries it made
and the number of `usleep(1)` calls. -/
structure PollOutcome where
  result : Except String Bool
  queries : Nat
  sleeps : Nat
  deriving Repr

/-- The loop `while (polls++ < 1000000) { ... }` of `pollCompletion`, entered
with the counter at `polls`. `cq k` is what the `k`-th query of the completion
queue answers (counted from 0): the return value `ne` of `ibv_poll_cq` and the
`status` of the entry it retrieved; `statusStr` is `ibv_wc_status_str`. -/
def pollLoop (cq : Nat → Int × Nat) (statusStr : Nat → String)
    (polls queries sleeps : Nat) : PollOutcome :=
  if polls < 1000000 then
    let wc := cq queries
    let ne := wc.1
    if ne < 0 then
      { result := .error "Poll CQ failed", queries := queries + 1, sleeps := sleeps }
    else if ne > 0 then
      if wc.2 ≠ IBV_WC_SUCCESS then
        { result := .error ("Work completion error: " ++ statusStr wc.2),
          queries := queries + 1, sleeps := sleeps }
      else { result := .ok true, queries := queries + 1, sleeps := sleeps }
    else pollLoop cq statusStr (polls + 1) (queries + 1) (sleeps + 1)
  else { result := .error "Poll timeout", queries := queries, sleeps := sleeps }
termination_by 1000000 - polls

/-- `RdmaVerbs::pollCompletion`: `int polls = 0;` and the loop. -/
def pollCompletion (cq : Nat → Int × Nat) (statusStr : Nat → String) : PollOutcome :=
  pollLoop cq statusStr 0 0 0

/-- `RdmaVerbs::cleanup`. -/
def cleanup (s : RdmaVerbs) : RdmaVerbs :=
  let s : RdmaVerbs :=
    match s.qp with
    | some qp => { s.call (.ibv_destroy_qp qp.handle) with qp := none }
    | none => s
  let s : RdmaVerbs :=
    match s.mr with
    | some mr => { s.call (.ibv_dereg_mr mr.handle) with mr := none }
    | none => s
  let s : RdmaVerbs :=
    match s.cq with
    | some cq => { s.call (.ibv_destroy_cq cq) with cq := none }
    | none => s
  let s : RdmaVerbs :=
    match s.pd with
    | some pd => { s.call (.ibv_dealloc_pd pd) with pd := none }
    | none => s
  let s : RdmaVerbs :=
    match s.ib_ctx with
    | some ctx => { s.call (.ibv_close_device ctx) with ib_ctx := none }
    | none => s
  if s.sock ≥ 0 then { s.call (.close s.sock) with sock := -1 } else s

end RdmaVerbs

/-! ## The client and the server

`DmabufClient::run`, `DmabufServer::run` and the two `main` functions, from the
point where the object has been constructed (the constructor parses the
arguments and can end the process with `std::exit` before any core operation).
Only the calls into `HpuManager` and `RdmaVerbs`, the socket calls and the
destruction of the object are kept: the data patterns written to the buffer and
the progress output are left out. -/

/-- The phases of a run in which a core operation can throw. -/
inductive Phase where
  /-- `hpu_.initialize(buffer_size_)` -/
  | acquire
  /-- `rdma_.initialize(...)` -/
  | transport
  /-- `rdma_.connectQp(...)` -/
  | connect
  /-- `communicationLoop()` -/
  | loop
  /-- `DmabufServer::performRdmaWrite()` -/
  | rdmaWrite
  /-- `DmabufClient::performRdmaRead()` -/
  | rdmaRead
  deriving DecidableEq, Repr

/-- An exception thrown by a core operation: the phase of the run and the
message of the `std::runtime_error`. -/
structure Thrown where
  phase : Phase
  what : String
  deriving DecidableEq, Repr

/-- How a process ends: `main` returns an exit code, or the behaviour is
undefined before it returns (the object's destructor passes to `free` an
address that came from `mmap`). -/
inductive ProcessEnd where
  | exit (code : Int)
  | undefined
  deriving DecidableEq, Repr

/-- The outcomes of the external calls of a whole run: those of buffer
acquisition, those of transport setup and connection, and for the `k`-th call
(counted from 0) of `ibv_post_send`, of `ibv_post_recv` and of
`pollCompletion` the return code, respectively the behaviour of the completion
queue during that call. -/
structure AppEnv where
  hpu : HpuEnv
  verbs : VerbsEnv
  post_send : Nat → Int
  post_recv : Nat → Int
  poll_cq : Nat → Nat → Int × Nat
  ibv_wc_status_str : Nat → String

/-- The members `hpu_` and `rdma_` of a client or server object, with the number
of posts and polls made so far and the log of the exceptions the core
operations have thrown. -/
structure Session where
  hpu : HpuManager
  rdma : RdmaVerbs
  sends : Nat
  recvs : Nat
  polls : Nat
  thrown : List Thrown
  deriving DecidableEq, Repr

namespace Session

/-- The members of a newly constructed client or server. -/
def fresh : Session :=
  { hpu := HpuManager.fresh, rdma := RdmaVerbs.fresh, sends := 0, recvs := 0, polls := 0,
    thrown := [] }

/-- Log the exception of a result, if it is one. -/
def raise {α : Type} (phase : Phase) (x : Session) : Except String α → Session
  | .ok _ => x
  | .error e => { x with thrown := x.thrown ++ [{ phase := phase, what := e }] }

/-- A statement sequence `f; g`: an exception thrown by `f` leaves the
sequence, so that `g` does not run. -/
def andThen (f g : Session → Session × Except String Unit) (x : Session) :
    Session × Except String Unit :=
  match f x with
  | (x, .ok ()) => g x
  | (x, .error e) => (x, .error e)

/-- `n` iterations of a loop body that can throw. -/
def iterate (body : Session → Session × Except String Unit) :
    Nat → Session → Session × Except String Unit
  | 0 => fun x => (x, .ok ())
  | n + 1 => andThen body (iterate body n)

/-- The call `hpu_.initialize(buffer_size_)`. -/
def hpuInitialize (env : AppEnv) (buffer_size : Nat) (x : Session) :
    Session × Except String Unit :=
  let r := HpuManager.initializeHpu env.hpu buffer_size x.hpu
  (raise .acquire { x with hpu := r.1 } r.2, r.2)

/-- The call `rdma_.initialize(ib_dev_name_.value_or(""), hpu_)`. -/
def rdmaInitialize (env : AppEnv) (ib_dev_name : Option String) (x : Session) :
    Session × Except String Unit :=
  let r := RdmaVerbs.initializeVerbs env.verbs (ib_dev_name.getD "") x.hpu x.rdma
  (raise .transport { x with rdma := r.1 } r.2, r.2)

/-- The call `rdma_.connectQp(server_name, port_)`. -/
def connectQp (env : AppEnv) (server_name : String) (port : Int) (x : Session) :
    Session × Except String Unit :=
  let r := RdmaVerbs.connectQp env.verbs x.hpu server_name port x.rdma
  (raise .connect { x with rdma := r.1 } r.2, r.2)

/-- A call `rdma_.postSend(opcode)`, the `x.sends`-th post of a send request. -/
def postSend (env : AppEnv) (phase : Phase) (opcode : Int) (x : Session) :
    Session × Except String Unit :=
  let r := RdmaVerbs.postSend { env.verbs with ibv_post_send := env.post_send x.sends }
    x.hpu opcode x.rdma
  (raise phase { x with rdma := r.1, sends := x.sends + 1 } r.2, r.2)

/-- A call `rdma_.postReceive()`, the `x.recvs`-th post of a receive request. -/
def postReceive (env : AppEnv) (phase : Phase) (x : Session) :
    Session × Except String Unit :=
  let r := RdmaVerbs.postReceive { env.verbs with ibv_post_recv := env.post_recv x.recvs }
    x.hpu x.rdma
  (raise phase { x with rdma := r.1, recvs := x.recvs + 1 } r.2, r.2)

/-- A call `rdma_.pollCompletion();`, the `x.polls`-th one; the callers do not
use the value it returns. -/
def pollCompletion (env : AppEnv) (phase : Phase) (x : Session) :
    Session × Except String Unit :=
  let r : Except String Unit :=
    match (RdmaVerbs.pollCompletion (env.poll_cq x.polls) env.ibv_wc_status_str).result with
    | .ok _ => .ok ()
    | .error e => .error e
  (raise phase { x with polls := x.polls + 1 } r, r)

/-- The destruction of a client or server object: its members are destroyed in
the reverse order of their declaration, `rdma_` first (`~RdmaVerbs` runs
`RdmaVerbs::cleanup`), then `hpu_` (`~HpuManager` runs `HpuManager::cleanup`). -/
def destroy (x : Session) : Session :=
  { x with rdma := x.rdma.cleanup, hpu := x.hpu.cleanup }

/-- A step propagates its exceptions: on every state it either returns normally
and logs nothing, or ends with an exception, which it logs once under a phase
other than the RDMA read. -/
def Propagates (f : Session → Session × Except String Unit) : Prop :=
  ∀ x, ((f x).2 = .ok () ∧ (f x).1.thrown = x.thrown) ∨
    ∃ p msg, p ≠ Phase.rdmaRead ∧ (f x).2 = .error msg ∧
      (f x).1.thrown = x.thrown ++ [{ phase := p, what := msg }]

/-- A step returns normally exactly when `cond` holds of the numbers of sends,
receives and polls made before it, and then it has made `ds` sends, `dr`
receives and `dp` polls. -/
def OkWhen (f : Session → Session × Except String Unit) (cond : Nat → Nat → Nat → Prop)
    (ds dr dp : Nat) : Prop :=
  ∀ x, ((f x).2 = .ok () ↔ cond x.sends x.recvs x.polls) ∧
    ((f x).2 = .ok () →
      (f x).1.sends = x.sends + ds ∧ (f x).1.recvs = x.recvs + dr ∧
        (f x).1.polls = x.polls + dp)

end Session

/-- The data members of `class DmabufClient` set by the constructor. -/
structure DmabufClient where
  server_name : String
  port : Int
  ib_dev_name : Option String
  buffer_size : Nat
  deriving DecidableEq, Repr

namespace DmabufClient

/-- One iteration of `DmabufClient::communicationLoop`:
`try { postSend(IBV_WR_SEND); pollCompletion(); postReceive(); pollCompletion(); }
catch (const std::exception& e) { ...; throw; }`. -/
def iteration (env : AppEnv) : Session → Session × Except String Unit :=
  Session.andThen (Session.postSend env .loop IBV_WR_SEND)
    (Session.andThen (Session.pollCompletion env .loop)
      (Session.andThen (Session.postReceive env .loop) (Session.pollCompletion env .loop)))

/-- `DmabufClient::communicationLoop`: `for (int i = 0; i < 3; ++i) { ... }`. -/
def communicationLoop (env : AppEnv) : Session → Session × Except String Unit :=
  Session.iterate (iteration env) 3

/-- `DmabufClient::performRdmaRead`:
`try { rdma_.postSend(IBV_WR_RDMA_READ); rdma_.pollCompletion(); ... }
catch (const std::exception& e) { std::cout << ...; }`: the handler does not
rethrow. -/
def performRdmaRead (env : AppEnv) (x : Session) : Session × Except String Unit :=
  let r := Session.andThen (Session.postSend env .rdmaRead IBV_WR_RDMA_READ)
    (Session.pollCompletion env .rdmaRead) x
  (r.1, .ok ())

/-- `DmabufClient::signalServerDone`: `write(rdma_.getSock(), &sync_byte, 1)`
with `sync_byte = 'D'`; the return value is not looked at. -/
def signalServerDone (x : Session) : Session × Except String Unit :=
  ({ x with rdma := x.rdma.call (.write x.rdma.getSock ['D'.toNat] 1) }, .ok ())

/-- `DmabufClient::run`; its handler `catch (...) { std::cerr << ...; throw; }`
passes the exception on. -/
def run (env : AppEnv) (c : DmabufClient) : Session → Session × Except String Unit :=
  Session.andThen (Session.hpuInitialize env c.buffer_size)
    (Session.andThen (Session.rdmaInitialize env c.ib_dev_name)
      (Session.andThen (Session.connectQp env c.server_name c.port)
        (Session.andThen (communicationLoop env)
          (Session.andThen (performRdmaRead env) signalServerDone))))

/-- The `main` of the client:
`try { DmabufClient client(argc, argv); client.run(); return 0; }
catch (const std::exception& e) { ...; return 1; }`. The local object `client`
is destroyed before either `return` takes effect: at the end of the `try` block
when `run` returned, during stack unwinding when it threw. -/
def main (env : AppEnv) (c : DmabufClient) : ProcessEnd :=
  let r := run env c Session.fresh
  let x := r.1.destroy
  if HpuCall.freesMapping false x.hpu.trace then .undefined
  else
    match r.2 with
    | .ok _ => .exit 0
    | .error _ => .exit 1

end DmabufClient

/-- The data members of `class DmabufServer` set by the constructor. -/
structure DmabufServer where
  port : Int
  ib_dev_name : Option String
  buffer_size : Nat
  deriving DecidableEq, Repr

namespace DmabufServer

/-- One iteration of `DmabufServer::communicationLoop`:
`try { postReceive(); pollCompletion(); postSend(IBV_WR_SEND); pollCompletion(); }
catch (const std::exception& e) { ...; throw; }`. -/
def iteration (env : AppEnv) : Session → Session × Except String Unit :=
  Session.andThen (Session.postReceive env .loop)
    (Session.andThen (Session.pollCompletion env .loop)
      (Session.andThen (Session.postSend env .loop IBV_WR_SEND)
        (Session.pollCompletion env .loop)))

/-- `DmabufServer::communicationLoop`: `for (int i = 0; i < 3; ++i) { ... }`. -/
def communicationLoop (env : AppEnv) : Session → Session × Except String Unit :=
  Session.iterate (iteration env) 3

/-- `DmabufServer::performRdmaWrite`:
`try { rdma_.postSend(IBV_WR_RDMA_WRITE); rdma_.pollCompletion(); }
catch (const std::exception& e) { ...; throw; }`. -/
def performRdmaWrite (env : AppEnv) : Session → Session × Except String Unit :=
  Session.andThen (Session.postSend env .rdmaWrite IBV_WR_RDMA_WRITE)
    (Session.pollCompletion env .rdmaWrite)

/-- `DmabufServer::waitForClientFinish`: one `read(rdma_.getSock(), &sync_byte, 1)`;
nothing is thrown whatever it returns. -/
def waitForClientFinish (x : Session) : Session × Except String Unit :=
  ({ x with rdma := x.rdma.call (.read x.rdma.getSock 1) }, .ok ())

/-- `DmabufServer::run`; its handler passes the exception on. -/
def run (env : AppEnv) (c : DmabufServer) : Session → Session × Except String Unit :=
  Session.andThen (Session.hpuInitialize env c.buffer_size)
    (Session.andThen (Session.rdmaInitialize env c.ib_dev_name)
      (Session.andThen (Session.connectQp env "" c.port)
        (Session.andThen (communicationLoop env)
          (Session.andThen (performRdmaWrite env) waitForClientFinish))))

/-- The `main` of the server:
`try { DmabufServer server(argc, argv); server.run(); return 0; }
catch (const std::exception& e) { ...; return 1; }`. The local object `server`
is destroyed before either `return` takes effect. -/
def main (env : AppEnv) (c : DmabufServer) : ProcessEnd :=
  let r := run env c Session.fresh
  let x := r.1.destroy
  if HpuCall.freesMapping false x.hpu.trace then .undefined
  else
    match r.2 with
    | .ok _ => .exit 0
    | .error _ => .exit 1

end DmabufServer

/-! ## Concrete inputs -/

/-- The record of the round-trip scenario: address `0x1000`, rkey `0xAABBCCDD`,
queue pair 7, lid 3, an all-zero gid. -/
def scenarioRecord : CmConData :=
  { addr := 0x1000, rkey := 0xAABBCCDD, qp_num := 7, lid := 3, gid := List.replicate 16 0 }

/-- A handle on the pure device-memory path: descriptor 5, device VA `0x2000`,
CPU mapping at `0x7000`, the default buffer size. -/
def deviceHandle : HpuManager :=
  { gaudi_fd := 3, dmabuf_fd := 5, gaudi_handle := 7, device_va := 0x2000,
    host_device_va := 0, buffer := 0x7000, buffer_size := RDMA_BUFFER_SIZE, trace := [] }

/-- A handle on the host-only path: a host buffer at `0x1000` of the default
size. -/
def hostHandle : HpuManager :=
  { HpuManager.fresh with buffer := 0x1000, buffer_size := RDMA_BUFFER_SIZE }

/-- An environment of a little-endian host in which every call succeeds; the
peer sends the scenario record. -/
def goodEnv : VerbsEnv :=
  { littleEndian := true
    ibv_get_device_list := some ["hbl_0"]
    ibv_open_device := some 1
    ibv_query_port := 0
    port_attr := { lid := 3, link_layer := 1 }
    ibv_alloc_pd := some 2
    ibv_create_cq := some 3
    ibv_reg_dmabuf_mr := some { handle := 4, lkey := 0x11, rkey := 0xAABBCCDD }
    ibv_reg_mr := some { handle := 5, lkey := 0x12, rkey := 0xAABBCCDD }
    ibv_create_qp := some { handle := 6, qp_num := 7 }
    getaddrinfo := 0
    socket := 8
    connect := 0
    bind := 0
    listen := 0
    accept := 9
    ibv_query_gid := List.replicate 16 0
    write_record := 34
    read_record := 34
    read_record_data := (scenarioRecord.hton false).toMemBytes false
    write_sync := 1
    read_sync := 1
    modify_qp_init := 0
    modify_qp_rtr := 0
    modify_qp_rts := 0
    ibv_post_send := 0
    ibv_post_recv := 0 }

/-- The environment `goodEnv`, except that the registration through the
shareable descriptor fails. -/
def dmabufRegFailsEnv : VerbsEnv := { goodEnv with ibv_reg_dmabuf_mr := none }

/-- A device-only handle: a descriptor and a device VA, but no CPU mapping. -/
def deviceOnlyHandle : HpuManager := { deviceHandle with buffer := 0 }

/-- The environment `goodEnv`, except that the read of the remote record
delivers only 10 bytes. -/
def shortReadEnv : VerbsEnv :=
  { goodEnv with read_record := 10, read_record_data := List.replicate 10 0 }

/-- A transport object after a successful `initialize` on `goodEnv` with the
host-only handle. -/
def readyVerbs : RdmaVerbs :=
  (RdmaVerbs.initializeVerbs goodEnv "" hostHandle RdmaVerbs.fresh).1

/-- An accelerator on which the device opens at the first variant, reports its
capabilities and allocates device memory, but the mapping of that memory into
the device address space fails; the host allocation would succeed. -/
def mapFailsEnv : HpuEnv :=
  { hlthunk_open := fun _ => 3
    hlthunk_get_hw_ip_info := 0
    hlthunk_device_memory_alloc := 7
    hlthunk_device_memory_map := 0
    hlthunk_export_dmabuf_fd := 5
    aligned_alloc := 0x1000
    mmap := 0x7000
    hlthunk_host_memory_map := 0x3000 }

/-- An accelerator on which everything succeeds except the export of the
descriptor and the mapping of the host buffer into the device. -/
def exportFailsEnv : HpuEnv :=
  { mapFailsEnv with
    hlthunk_device_memory_map := 0x2000
    hlthunk_export_dmabuf_fd := -1
    hlthunk_host_memory_map := 0 }

/-- An accelerator on which everything succeeds except the CPU mapping of the
exported descriptor. -/
def mmapFailsEnv : HpuEnv :=
  { mapFailsEnv with
    hlthunk_device_memory_map := 0x2000
    mmap := MAP_FAILED }

/-- An accelerator on which every call succeeds: device descriptor 3, memory
handle 7, device VA `0x2000`, shareable descriptor 5, CPU mapping at `0x7000`. -/
def deviceEnv : HpuEnv :=
  { mapFailsEnv with hlthunk_device_memory_map := 0x2000 }

/-- A host without an accelerator: no device variant opens, the host
allocation succeeds. -/
def noDeviceEnv : HpuEnv :=
  { mapFailsEnv with hlthunk_open := fun _ => -1 }

/-- An accelerator that opens and reports its capabilities but has no device
memory to allocate; the host allocation succeeds. -/
def allocFailsEnv : HpuEnv :=
  { mapFailsEnv with hlthunk_device_memory_alloc := 0 }

/-- An accelerator on which only the export of the descriptor fails: the host
buffer is allocated and mapped into the device at `0x3000`. -/
def hostMappedEnv : HpuEnv :=
  { mapFailsEnv with
    hlthunk_device_memory_map := 0x2000
    hlthunk_export_dmabuf_fd := -1 }

/-- The environment `goodEnv`, except that `connect` fails. -/
def connectFailsEnv : VerbsEnv := { goodEnv with connect := -1 }

/-- A client with the default port and buffer size. -/
def someClient : DmabufClient :=
  { server_name := "srv", port := 20000, ib_dev_name := none, buffer_size := RDMA_BUFFER_SIZE }

/-- A run on a host without an accelerator in which every call succeeds and
every poll finds a successful completion at its first query. -/
def goodRun : AppEnv :=
  { hpu := noDeviceEnv
    verbs := goodEnv
    post_send := fun _ => 0
    post_recv := fun _ => 0
    poll_cq := fun _ _ => (1, IBV_WC_SUCCESS)
    ibv_wc_status_str := fun _ => "status" }

/-- The run `goodRun`, except that the second poll finds no completion at all:
for the client that is the wait for the server's first response. -/
def pollTimeoutRun : AppEnv :=
  { goodRun with poll_cq := fun k _ => if k = 1 then (0, 0) else (1, IBV_WC_SUCCESS) }

/-- The run `goodRun` on an accelerator on which every call succeeds, so that
the handle has a descriptor and a CPU mapping of it. -/
def mappedDeviceRun : AppEnv := { goodRun with hpu := deviceEnv }

/-- A completion queue that is empty for two queries and then delivers an entry
with status 5. -/
def failedCompletionCq : Nat → Int × Nat :=
  fun i => if i < 2 then (0, 0) else (1, 5)

/-- A remote record with a non-zero gid. -/
def routedRecord : CmConData :=
  { scenarioRecord with gid := [0xfe, 0x80, 0, 0, 0, 0, 0, 0, 0, 0, 0, 0, 0, 0, 0, 1] }

/-- The environment `goodEnv`, except that the peer sends `routedRecord`. -/
def routedEnv : VerbsEnv :=
  { goodEnv with read_record_data := (routedRecord.hton false).toMemBytes false }

/-! ## Byte-order lemmas -/

theorem leBytes_length (n v : Nat) : (leBytes n v).length = n := by
  induction n generalizing v with
  | zero => rfl
  | succ n ih => simp [leBytes, ih]

theorem leBytes_lt (n v : Nat) : ∀ b ∈ leBytes n v, b < 256 := by
  induction n generalizing v with
  | zero => simp [leBytes]
  | succ n ih =>
    intro b hb
    simp only [leBytes, List.mem_cons] at hb
    rcases hb with rfl | hb
    · exact Nat.mod_lt _ (by norm_num)
    · exact ih _ b hb

theorem ofLeBytes_leBytes (n v : Nat) : ofLeBytes (leBytes n v) = v % 256 ^ n := by
  induction n generalizing v with
  | zero => simp [leBytes, ofLeBytes, Nat.mod_one]
  | succ n ih =>
    simp only [leBytes, ofLeBytes, ih]
    rw [pow_succ, mul_comm (256 ^ n) 256, Nat.mod_mul]

theorem leBytes_ofLeBytes (bs : List Nat) (h : ∀ b ∈ bs, b < 256) :
    leBytes bs.length (ofLeBytes bs) = bs := by
  induction bs with
  | nil => rfl
  | cons b bs ih =>
    have hb : b < 256 := h b (List.mem_cons_self _ _)
    have ih := ih (fun x hx => h x (List.mem_cons_of_mem _ hx))
    simp only [List.length_cons, leBytes, ofLeBytes]
    have h1 : (b + 256 * ofLeBytes bs) % 256 = b := by omega
    have h2 : (b + 256 * ofLeBytes bs) / 256 = ofLeBytes bs := by omega
    rw [h1, h2, ih]

theorem ofLeBytes_lt (bs : List Nat) (h : ∀ b ∈ bs, b < 256) :
    ofLeBytes bs < 256 ^ bs.length := by
  induction bs with
  | nil => simp [ofLeBytes]
  | cons b bs ih =>
    have hb : b < 256 := h b (List.mem_cons_self _ _)
    have ih := ih (fun x hx => h x (List.mem_cons_of_mem _ hx))
    simp only [List.length_cons, ofLeBytes, pow_succ]
    omega

theorem bswap_lt (w v : Nat) : bswap w v < 256 ^ w := by
  have hb : ∀ b ∈ (leBytes w v).reverse, b < 256 := fun b hb =>
    leBytes_lt w v b (List.mem_reverse.mp hb)
  have := ofLeBytes_lt _ hb
  simpa [bswap, leBytes_length] using this

theorem leBytes_bswap (w v : Nat) : leBytes w (bswap w v) = (leBytes w v).reverse := by
  have hb : ∀ b ∈ (leBytes w v).reverse, b < 256 := fun b hb =>
    leBytes_lt w v b (List.mem_reverse.mp hb)
  have := leBytes_ofLeBytes _ hb
  simpa [bswap, leBytes_length] using this

theorem bswap_bswap (w v : Nat) (h : v < 256 ^ w) : bswap w (bswap w v) = v := by
  rw [bswap, leBytes_bswap, List.reverse_reverse, ofLeBytes_leBytes, Nat.mod_eq_of_lt h]

theorem toMem_length (le : Bool) (w v : Nat) : (toMem le w v).length = w := by
  cases le <;> simp [toMem, leBytes_length]

theorem ofMem_toMem (le : Bool) (w v : Nat) (h : v < 256 ^ w) :
    ofMem le (toMem le w v) = v := by
  cases le <;> simp [toMem, ofMem, ofLeBytes_leBytes, Nat.mod_eq_of_lt h]

/-- Whatever the byte order of the host, a value converted to network order
lies in memory most significant byte first. -/
theorem toMem_hton (le : Bool) (w v : Nat) :
    toMem le w (if le then bswap w v else v) = (leBytes w v).reverse := by
  cases le <;> simp [toMem, leBytes_bswap]

theorem hton_lt (le : Bool) (w v : Nat) (h : v < 256 ^ w) :
    (if le then bswap w v else v) < 256 ^ w := by
  cases le
  · simpa using h
  · simpa using bswap_lt w v

theorem ntoh_hton (le : Bool) (w v : Nat) (h : v < 256 ^ w) :
    (if le then bswap w (if le then bswap w v else v) else (if le then bswap w v else v)) = v := by
  cases le
  · simp
  · simpa using bswap_bswap w v h

theorem take_drop_fields (a b c e g : List Nat) (ha : a.length = 8) (hb : b.length = 4)
    (hc : c.length = 4) (he : e.length = 2) :
    (a ++ b ++ c ++ e ++ g).take 8 = a ∧
    ((a ++ b ++ c ++ e ++ g).drop 8).take 4 = b ∧
    ((a ++ b ++ c ++ e ++ g).drop 12).take 4 = c ∧
    ((a ++ b ++ c ++ e ++ g).drop 16).take 2 = e ∧
    (a ++ b ++ c ++ e ++ g).drop 18 = g := by
  have h8 : (a ++ b ++ c ++ e ++ g).drop 8 = b ++ (c ++ (e ++ g)) := by
    simp only [List.append_assoc]
    exact List.drop_left' ha
  have h12 : (a ++ b ++ c ++ e ++ g).drop 12 = c ++ (e ++ g) := by
    have : (a ++ b ++ c ++ e ++ g).drop 12 = ((a ++ b ++ c ++ e ++ g).drop 8).drop 4 := by
      rw [List.drop_drop]
    rw [this, h8]
    exact List.drop_left' hb
  have h16 : (a ++ b ++ c ++ e ++ g).drop 16 = e ++ g := by
    have : (a ++ b ++ c ++ e ++ g).drop 16 = ((a ++ b ++ c ++ e ++ g).drop 12).drop 4 := by
      rw [List.drop_drop]
    rw [this, h12]
    exact List.drop_left' hc
  have h18 : (a ++ b ++ c ++ e ++ g).drop 18 = g := by
    have : (a ++ b ++ c ++ e ++ g).drop 18 = ((a ++ b ++ c ++ e ++ g).drop 16).drop 2 := by
      rw [List.drop_drop]
    rw [this, h16]
    exact List.drop_left' he
  refine ⟨?_, ?_, ?_, ?_, h18⟩
  · simp only [List.append_assoc]
    exact List.take_left' ha
  · rw [h8]; exact List.take_left' hb
  · rw [h12]; exact List.take_left' hc
  · rw [h16]; exact List.take_left' he

theorem ofMemBytes_toMemBytes (le : Bool) (d : CmConData) (h : d.wf) :
    CmConData.ofMemBytes le (d.toMemBytes le) = d := by
  obtain ⟨h1, h2, h3, h4, h5, _⟩ := h
  obtain ⟨t1, t2, t3, t4, t5⟩ := take_drop_fields (toMem le 8 d.addr) (toMem le 4 d.rkey)
    (toMem le 4 d.qp_num) (toMem le 2 d.lid) d.gid (toMem_length _ _ _) (toMem_length _ _ _)
    (toMem_length _ _ _) (toMem_length _ _ _)
  unfold CmConData.ofMemBytes CmConData.toMemBytes
  rw [t1, t2, t3, t4, t5, ofMem_toMem _ _ _ (by norm_num; exact h1),
    ofMem_toMem _ _ _ (by norm_num; exact h2), ofMem_toMem _ _ _ (by norm_num; exact h3),
    ofMem_toMem _ _ _ (by norm_num; exact h4), List.take_of_length_le (by omega)]

theorem hton_wf (le : Bool) (d : CmConData) (h : d.wf) : (d.hton le).wf := by
  obtain ⟨h1, h2, h3, h4, h5, h6⟩ := h
  refine ⟨?_, ?_, ?_, ?_, h5, h6⟩
  · have := hton_lt le 8 d.addr (by norm_num; exact h1)
    simpa [CmConData.hton, htonll, htobe64] using this
  · have := hton_lt le 4 d.rkey (by norm_num; exact h2)
    simpa [CmConData.hton, htonl] using this
  · have := hton_lt le 4 d.qp_num (by norm_num; exact h3)
    simpa [CmConData.hton, htonl] using this
  · have := hton_lt le 2 d.lid (by norm_num; exact h4)
    simpa [CmConData.hton, htons] using this

theorem ntoh_hton_record (le : Bool) (d : CmConData) (h : d.wf) :
    (d.hton le).ntoh le = d := by
  obtain ⟨h1, h2, h3, h4, _, _⟩ := h
  have e1 := ntoh_hton le 8 d.addr (by norm_num; exact h1)
  have e2 := ntoh_hton le 4 d.rkey (by norm_num; exact h2)
  have e3 := ntoh_hton le 4 d.qp_num (by norm_num; exact h3)
  have e4 := ntoh_hton le 2 d.lid (by norm_num; exact h4)
  cases d
  simp only [CmConData.hton, CmConData.ntoh, htonll, ntohll, htobe64, be64toh, htonl, ntohl,
    htons, ntohs] at *
  rw [e1, e2, e3, e4]

/-! ## The wire record: C1, C2, C3 -/

theorem rev_leBytes_8 (v : Nat) : (leBytes 8 v).reverse = beBytes 8 v := by
  simp [leBytes, beBytes, beByte, List.range_succ, Nat.div_div_eq_div_mul]

theorem rev_leBytes_4 (v : Nat) : (leBytes 4 v).reverse = beBytes 4 v := by
  simp [leBytes, beBytes, beByte, List.range_succ, Nat.div_div_eq_div_mul]

theorem rev_leBytes_2 (v : Nat) : (leBytes 2 v).reverse = beBytes 2 v := by
  simp [leBytes, beBytes, beByte, List.range_succ, Nat.div_div_eq_div_mul]

/-- The memory image of a record whose fields went through `hton` is the same
on both kinds of host: every integer field most significant byte first. -/
theorem toMemBytes_hton (le : Bool) (d : CmConData) :
    (d.hton le).toMemBytes le =
      beBytes 8 d.addr ++ beBytes 4 d.rkey ++ beBytes 4 d.qp_num ++ beBytes 2 d.lid ++ d.gid := by
  simp only [CmConData.toMemBytes, CmConData.hton, htonll, htobe64, htonl, htons, toMem_hton,
    rev_leBytes_8, rev_leBytes_4, rev_leBytes_2]

theorem beBytes_length (w v : Nat) : (beBytes w v).length = w := by
  simp [beBytes]

/-- C1. A connection record converted with `htonll`/`htonl`/`htonl`/`htons`
(gid copied) and converted back with `ntohll`/`ntohl`/`ntohl`/`ntohs` (gid
untouched) is the record one started from, on a little-endian and on a
big-endian host; this also holds when the converted record is written to
memory by a host of one byte order and read from memory and converted back by
a host of either byte order. -/
theorem C1_descriptor_roundtrip (le : Bool) (d : CmConData) (h : d.wf) :
    (d.hton le).ntoh le = d ∧
      ∀ le' : Bool, (CmConData.ofMemBytes le' ((d.hton le).toMemBytes le)).ntoh le' = d := by
  refine ⟨ntoh_hton_record le d h, fun le' => ?_⟩
  have e : (d.hton le).toMemBytes le = (d.hton le').toMemBytes le' := by
    rw [toMemBytes_hton, toMemBytes_hton]
  rw [e, ofMemBytes_toMemBytes le' _ (hton_wf le' d h), ntoh_hton_record le' d h]

/-- C1, at the record of the scenario (address 0x1000, rkey 0xAABBCCDD, queue
pair 7, lid 3, zero gid), on a little-endian and on a big-endian host. -/
theorem C1_descriptor_roundtrip_witness :
    scenarioRecord.wf ∧
      ((scenarioRecord.hton true).ntoh true = scenarioRecord ∧
        ∀ le' : Bool,
          (CmConData.ofMemBytes le' ((scenarioRecord.hton true).toMemBytes true)).ntoh le' =
            scenarioRecord) ∧
      ((scenarioRecord.hton false).ntoh false = scenarioRecord ∧
        ∀ le' : Bool,
          (CmConData.ofMemBytes le' ((scenarioRecord.hton false).toMemBytes false)).ntoh le' =
            scenarioRecord) :=
  ⟨by decide, C1_descriptor_roundtrip true scenarioRecord (by decide),
    C1_descriptor_roundtrip false scenarioRecord (by decide)⟩

theorem exchange_trace (env : VerbsEnv) (hpu : HpuManager) (s : RdmaVerbs) :
    (RdmaVerbs.exchangeConnectionData env hpu s).1.trace =
      s.trace ++ RdmaVerbs.gidQuery s ++
        (VerbsCall.write s.sock ((RdmaVerbs.localConData env hpu s).toMemBytes env.littleEndian)
            CmConData.sizeof ::
          if env.write_record ≠ CmConData.sizeof then []
          else VerbsCall.read s.sock CmConData.sizeof ::
            if env.read_record ≠ CmConData.sizeof then []
            else VerbsCall.write s.sock ['Q'.toNat] 1 ::
              if env.write_sync ≠ 1 then [] else [VerbsCall.read s.sock 1]) := by
  unfold RdmaVerbs.exchangeConnectionData RdmaVerbs.gidQuery
  by_cases hl : s.port_attr.link_layer = IBV_LINK_LAYER_ETHERNET <;>
  by_cases h1 : env.write_record = CmConData.sizeof <;>
  by_cases h2 : env.read_record = CmConData.sizeof <;>
  by_cases h3 : env.write_sync = 1 <;>
  by_cases h4 : env.read_sync = 1 <;>
  simp [hl, h1, h2, h3, h4, RdmaVerbs.call, RdmaVerbs.localConData, RdmaVerbs.localValues,
    RdmaVerbs.my_gid, RdmaVerbs.rkey, RdmaVerbs.qp_num]

theorem exchange_result (env : VerbsEnv) (hpu : HpuManager) (s : RdmaVerbs) :
    (RdmaVerbs.exchangeConnectionData env hpu s).2 = true ↔
      env.write_record = CmConData.sizeof ∧ env.read_record = CmConData.sizeof ∧
        env.write_sync = 1 ∧ env.read_sync = 1 := by
  unfold RdmaVerbs.exchangeConnectionData
  by_cases h1 : env.write_record = CmConData.sizeof <;>
  by_cases h2 : env.read_record = CmConData.sizeof <;>
  by_cases h3 : env.write_sync = 1 <;>
  by_cases h4 : env.read_sync = 1 <;>
  simp [h1, h2, h3, h4]

theorem my_gid_length (env : VerbsEnv) (s : RdmaVerbs) (hg : env.ibv_query_gid.length = 16) :
    (RdmaVerbs.my_gid env s).length = 16 := by
  unfold RdmaVerbs.my_gid
  split
  · exact hg
  · simp

/-- The bytes of the local record, as `exchangeConnectionData` passes them to
`write`. -/
theorem localConData_bytes (env : VerbsEnv) (hpu : HpuManager) (s : RdmaVerbs)
    (hg : env.ibv_query_gid.length = 16) :
    (RdmaVerbs.localConData env hpu s).toMemBytes env.littleEndian =
      beBytes 8 (RdmaVerbs.localAddr hpu) ++ beBytes 4 s.rkey ++ beBytes 4 s.qp_num ++
        beBytes 2 s.port_attr.lid ++ RdmaVerbs.my_gid env s := by
  rw [RdmaVerbs.localConData, toMemBytes_hton]
  simp only [RdmaVerbs.localValues]
  rw [List.take_of_length_le (by rw [my_gid_length env s hg])]

/-- C2 as stated fails: the packed size of `CmConData` is not 32, and on a run
in which every call succeeds the byte counts of the four transfers of
`exchangeConnectionData` are 34, 34, 1 and 1. -/
theorem C2_record_is_not_32_bytes :
    ¬ (CmConData.sizeof = 32) ∧
      ((RdmaVerbs.exchangeConnectionData goodEnv hostHandle readyVerbs).1.trace.drop
          readyVerbs.trace.length).filterMap VerbsCall.count? = [34, 34, 1, 1] := by
  constructor
  · decide
  · rfl

/-- C2, amended. The packed size of `CmConData` is the sum of its field widths
8 + 4 + 4 + 2 + 16, which is 34: the first transfer of `exchangeConnectionData`
is a write of a 34-byte record with a requested count of 34, and when that
write moved 34 bytes the next call is a read with a requested count of 34; the
exchange succeeds only if both calls returned 34. -/
theorem C2_record_size (env : VerbsEnv) (hpu : HpuManager) (s : RdmaVerbs)
    (hg : env.ibv_query_gid.length = 16) :
    CmConData.sizeof = 8 + 4 + 4 + 2 + 16 ∧ CmConData.sizeof = 34 ∧
      ∃ data rest,
        (RdmaVerbs.exchangeConnectionData env hpu s).1.trace =
            s.trace ++ RdmaVerbs.gidQuery s ++ VerbsCall.write s.sock data 34 :: rest ∧
          data.length = 34 ∧
          (env.write_record = 34 → ∃ rest', rest = VerbsCall.read s.sock 34 :: rest') ∧
          ((RdmaVerbs.exchangeConnectionData env hpu s).2 = true →
            env.write_record = 34 ∧ env.read_record = 34) := by
  refine ⟨rfl, rfl, _, _, exchange_trace env hpu s, ?_, ?_, ?_⟩
  · rw [localConData_bytes env hpu s hg]
    simp [beBytes_length, my_gid_length env s hg]
  · intro hw
    have : env.write_record = (CmConData.sizeof : Int) := hw
    rw [if_neg (by simpa using this)]
    exact ⟨_, rfl⟩
  · intro hok
    obtain ⟨h1, h2, _, _⟩ := (exchange_result env hpu s).mp hok
    exact ⟨h1, h2⟩

/-- C2 amended, on the run in which every call succeeds. -/
theorem C2_record_size_witness :
    goodEnv.ibv_query_gid.length = 16 ∧
      (CmConData.sizeof = 8 + 4 + 4 + 2 + 16 ∧ CmConData.sizeof = 34 ∧
        ∃ data rest,
          (RdmaVerbs.exchangeConnectionData goodEnv hostHandle readyVerbs).1.trace =
              readyVerbs.trace ++ RdmaVerbs.gidQuery readyVerbs ++
                VerbsCall.write readyVerbs.sock data 34 :: rest ∧
            data.length = 34 ∧
            (goodEnv.write_record = 34 →
              ∃ rest', rest = VerbsCall.read readyVerbs.sock 34 :: rest') ∧
            ((RdmaVerbs.exchangeConnectionData goodEnv hostHandle readyVerbs).2 = true →
              goodEnv.write_record = 34 ∧ goodEnv.read_record = 34)) :=
  ⟨by decide, C2_record_size goodEnv hostHandle readyVerbs (by decide)⟩

/-- C3. On a host of either byte order, the first transfer of
`exchangeConnectionData` writes a byte sequence that holds the buffer address
as a big-endian 64-bit integer at offsets 0 to 7, the remote key as a
big-endian 32-bit integer at offsets 8 to 11, the queue-pair number as a
big-endian 32-bit integer at offsets 12 to 15, the local transport id as a
big-endian 16-bit integer at offsets 16 and 17, and from offset 18 on the 16
bytes of the global id, unchanged and in order, with nothing in between. -/
theorem C3_wire_layout (env : VerbsEnv) (hpu : HpuManager) (s : RdmaVerbs)
    (hg : env.ibv_query_gid.length = 16) :
    ∃ data rest,
      (RdmaVerbs.exchangeConnectionData env hpu s).1.trace =
          s.trace ++ RdmaVerbs.gidQuery s ++ VerbsCall.write s.sock data CmConData.sizeof :: rest ∧
        data.take 8 = beBytes 8 (RdmaVerbs.localAddr hpu) ∧
        (data.drop 8).take 4 = beBytes 4 s.rkey ∧
        (data.drop 12).take 4 = beBytes 4 s.qp_num ∧
        (data.drop 16).take 2 = beBytes 2 s.port_attr.lid ∧
        data.drop 18 = RdmaVerbs.my_gid env s := by
  refine ⟨_, _, exchange_trace env hpu s, ?_⟩
  rw [localConData_bytes env hpu s hg]
  obtain ⟨t1, t2, t3, t4, t5⟩ := take_drop_fields (beBytes 8 (RdmaVerbs.localAddr hpu))
    (beBytes 4 s.rkey) (beBytes 4 s.qp_num) (beBytes 2 s.port_attr.lid) (RdmaVerbs.my_gid env s)
    (beBytes_length _ _) (beBytes_length _ _) (beBytes_length _ _) (beBytes_length _ _)
  exact ⟨t1, t2, t3, t4, t5⟩

/-- C3, on the run in which every call succeeds. -/
theorem C3_wire_layout_witness :
    goodEnv.ibv_query_gid.length = 16 ∧
      ∃ data rest,
        (RdmaVerbs.exchangeConnectionData goodEnv hostHandle readyVerbs).1.trace =
            readyVerbs.trace ++ RdmaVerbs.gidQuery readyVerbs ++
              VerbsCall.write readyVerbs.sock data CmConData.sizeof :: rest ∧
          data.take 8 = beBytes 8 (RdmaVerbs.localAddr hostHandle) ∧
          (data.drop 8).take 4 = beBytes 4 readyVerbs.rkey ∧
          (data.drop 12).take 4 = beBytes 4 readyVerbs.qp_num ∧
          (data.drop 16).take 2 = beBytes 2 readyVerbs.port_attr.lid ∧
          data.drop 18 = RdmaVerbs.my_gid goodEnv readyVerbs :=
  ⟨by decide, C3_wire_layout goodEnv hostHandle readyVerbs (by decide)⟩

/-! ## Buffer acquisition: C4, C5 -/

theorem tryOpenLoop_spec (env : HpuEnv) (ds : List DeviceName) (h : HpuManager) :
    ∃ fd opens,
      (HpuManager.tryOpenLoop env ds h).1 = { h with gaudi_fd := fd, trace := h.trace ++ opens } ∧
        (∀ c ∈ opens, c.isOpen = true) ∧
        ((HpuManager.tryOpenLoop env ds h).2 = true → fd ≥ 0) ∧
        ((HpuManager.tryOpenLoop env ds h).2 = true ↔ ∃ d ∈ ds, env.hlthunk_open d ≥ 0) := by
  induction ds generalizing h with
  | nil =>
    exact ⟨h.gaudi_fd, [], by simp [HpuManager.tryOpenLoop], by simp,
      by simp [HpuManager.tryOpenLoop], by simp [HpuManager.tryOpenLoop]⟩
  | cons d ds ih =>
    by_cases hd : env.hlthunk_open d ≥ 0
    · refine ⟨env.hlthunk_open d, [.hlthunk_open d], ?_, ?_, ?_, ?_⟩
      · simp [HpuManager.tryOpenLoop, HpuManager.call, hd]
      · simp [HpuCall.isOpen]
      · intro _; exact hd
      · simp [HpuManager.tryOpenLoop, HpuManager.call, hd]
    · obtain ⟨fd, opens, h1, h2, h3, h4⟩ := ih
        ({ h.call (.hlthunk_open d) with gaudi_fd := env.hlthunk_open d })
      have e : HpuManager.tryOpenLoop env (d :: ds) h =
          HpuManager.tryOpenLoop env ds
            ({ h.call (.hlthunk_open d) with gaudi_fd := env.hlthunk_open d }) := by
        simp [HpuManager.tryOpenLoop, HpuManager.call, hd]
      refine ⟨fd, .hlthunk_open d :: opens, ?_, ?_, ?_, ?_⟩
      · rw [e, h1]; simp [HpuManager.call]
      · intro c hc
        rcases List.mem_cons.mp hc with rfl | hc
        · rfl
        · exact h2 c hc
      · rw [e]; exact h3
      · rw [e, h4]; simp [hd]

/-- When some device variant opens, `tryOpenGaudiDevice` returns true and
leaves a non-negative descriptor in `gaudi_fd_`; it changes nothing else and
makes only `hlthunk_open` calls. -/
theorem tryOpenGaudiDevice_opened (env : HpuEnv) (h : HpuManager)
    (hopen : ∃ d, env.hlthunk_open d ≥ 0) :
    ∃ fd opens, fd ≥ 0 ∧ (∀ c ∈ opens, c.isOpen = true) ∧
      HpuManager.tryOpenGaudiDevice env h =
        ({ h with gaudi_fd := fd, trace := h.trace ++ opens }, true) := by
  obtain ⟨fd, opens, h1, h2, h3, h4⟩ := tryOpenLoop_spec env
    [.HLTHUNK_DEVICE_GAUDI3, .HLTHUNK_DEVICE_GAUDI2, .HLTHUNK_DEVICE_GAUDI,
      .HLTHUNK_DEVICE_DONT_CARE] h
  have ht : (HpuManager.tryOpenLoop env
      [.HLTHUNK_DEVICE_GAUDI3, .HLTHUNK_DEVICE_GAUDI2, .HLTHUNK_DEVICE_GAUDI,
        .HLTHUNK_DEVICE_DONT_CARE] h).2 = true := by
    rw [h4]
    obtain ⟨d, hd⟩ := hopen
    exact ⟨d, by cases d <;> simp, hd⟩
  refine ⟨fd, opens, h3 ht, h2, ?_⟩
  unfold HpuManager.tryOpenGaudiDevice
  exact Prod.ext h1 ht

theorem opens_filter_isRelease (opens : List HpuCall) (ho : ∀ c ∈ opens, c.isOpen = true) :
    opens.filter HpuCall.isRelease = [] := by
  rw [List.filter_eq_nil_iff]
  intro c hc
  have := ho c hc
  cases c <;> simp_all [HpuCall.isOpen, HpuCall.isRelease]

theorem opens_filter_isHostAlloc (opens : List HpuCall) (ho : ∀ c ∈ opens, c.isOpen = true) :
    opens.filter HpuCall.isHostAlloc = [] := by
  rw [List.filter_eq_nil_iff]
  intro c hc
  have := ho c hc
  cases c <;> simp_all [HpuCall.isOpen, HpuCall.isHostAlloc]

theorem opens_filter_isExport (opens : List HpuCall) (ho : ∀ c ∈ opens, c.isOpen = true) :
    opens.filter HpuCall.isExport = [] := by
  rw [List.filter_eq_nil_iff]
  intro c hc
  have := ho c hc
  cases c <;> simp_all [HpuCall.isOpen, HpuCall.isExport]

/-- C4, amended. When a device opens, reports its capabilities and device
memory is allocated but cannot be mapped into the device address space, the
device-memory path is abandoned (no export is attempted) and the partial
allocation is discarded (the device memory is freed and the device closed, the
handle is back to its initial values), but acquisition does not fall through to
host memory: `initialize` throws "Failed to map device memory" without
attempting the host allocation. -/
theorem C4_map_failure_is_fatal (env : HpuEnv) (size : Nat)
    (hopen : ∃ d, env.hlthunk_open d ≥ 0)
    (hinfo : env.hlthunk_get_hw_ip_info = 0)
    (halloc : env.hlthunk_device_memory_alloc ≠ 0)
    (hmap : env.hlthunk_device_memory_map = 0) :
    (HpuManager.initializeHpu env size HpuManager.fresh).2 =
        .error "Failed to map device memory" ∧
      (HpuManager.initializeHpu env size HpuManager.fresh).1.trace.filter HpuCall.isHostAlloc = [] ∧
      (HpuManager.initializeHpu env size HpuManager.fresh).1.trace.filter HpuCall.isExport = [] ∧
      (∃ fd, fd ≥ 0 ∧
        (HpuManager.initializeHpu env size HpuManager.fresh).1.trace.filter HpuCall.isRelease =
          [.hlthunk_device_memory_free fd env.hlthunk_device_memory_alloc, .hlthunk_close fd]) ∧
      (HpuManager.initializeHpu env size HpuManager.fresh).1 =
        { HpuManager.fresh with
          buffer_size := size
          trace := (HpuManager.initializeHpu env size HpuManager.fresh).1.trace } := by
  obtain ⟨fd, opens, hfd, ho, he⟩ := tryOpenGaudiDevice_opened env
    { HpuManager.fresh with buffer_size := size } hopen
  have e : HpuManager.initializeHpu env size HpuManager.fresh =
      ({ HpuManager.fresh with
          buffer_size := size
          trace := opens ++ [.hlthunk_get_hw_ip_info fd, .hlthunk_device_memory_alloc fd size,
            .hlthunk_device_memory_map fd env.hlthunk_device_memory_alloc,
            .hlthunk_device_memory_free fd env.hlthunk_device_memory_alloc, .hlthunk_close fd] },
        .error "Failed to map device memory") := by
    simp only [HpuManager.fresh, List.nil_append] at he
    unfold HpuManager.initializeHpu
    simp [he, hinfo, halloc, hmap, hfd, HpuManager.allocateDeviceMemory, HpuManager.mapDeviceMemory,
      HpuManager.cleanup, HpuManager.call, HpuManager.fresh]
  rw [e]
  refine ⟨rfl, ?_, ?_, ⟨fd, hfd, ?_⟩, rfl⟩
  · simp only [List.filter_append, opens_filter_isHostAlloc opens ho, List.nil_append]
    rfl
  · simp only [List.filter_append, opens_filter_isExport opens ho, List.nil_append]
    rfl
  · simp only [List.filter_append, opens_filter_isRelease opens ho, List.nil_append]
    rfl

/-- C4 amended, on an accelerator whose device-memory mapping fails. -/
theorem C4_map_failure_is_fatal_witness :
    (∃ d, mapFailsEnv.hlthunk_open d ≥ 0) ∧ mapFailsEnv.hlthunk_get_hw_ip_info = 0 ∧
      mapFailsEnv.hlthunk_device_memory_alloc ≠ 0 ∧ mapFailsEnv.hlthunk_device_memory_map = 0 ∧
      ((HpuManager.initializeHpu mapFailsEnv 4096 HpuManager.fresh).2 =
          .error "Failed to map device memory" ∧
        (HpuManager.initializeHpu mapFailsEnv 4096 HpuManager.fresh).1.trace.filter
            HpuCall.isHostAlloc = [] ∧
        (HpuManager.initializeHpu mapFailsEnv 4096 HpuManager.fresh).1.trace.filter
            HpuCall.isExport = [] ∧
        (∃ fd, fd ≥ 0 ∧
          (HpuManager.initializeHpu mapFailsEnv 4096 HpuManager.fresh).1.trace.filter
              HpuCall.isRelease =
            [.hlthunk_device_memory_free fd mapFailsEnv.hlthunk_device_memory_alloc,
              .hlthunk_close fd]) ∧
        (HpuManager.initializeHpu mapFailsEnv 4096 HpuManager.fresh).1 =
          { HpuManager.fresh with
            buffer_size := 4096
            trace := (HpuManager.initializeHpu mapFailsEnv 4096 HpuManager.fresh).1.trace }) :=
  ⟨⟨.HLTHUNK_DEVICE_GAUDI3, by decide⟩, rfl, by decide, rfl,
    C4_map_failure_is_fatal mapFailsEnv 4096 ⟨.HLTHUNK_DEVICE_GAUDI3, by decide⟩ rfl
      (by decide) rfl⟩

/-- C4 as stated fails: on an accelerator that opens, reports its capabilities
and allocates device memory, but cannot map it, `initialize` throws although
the page-aligned host allocation would succeed; the host allocation is not
attempted and the handle has no buffer. -/
theorem C4_no_host_fallback_after_map_failure :
    ¬ (∀ (env : HpuEnv) (size : Nat), (∃ d, env.hlthunk_open d ≥ 0) →
        env.hlthunk_get_hw_ip_info = 0 → env.hlthunk_device_memory_alloc ≠ 0 →
        env.hlthunk_device_memory_map = 0 → env.aligned_alloc ≠ 0 →
        (HpuManager.initializeHpu env size HpuManager.fresh).2 = .ok ()) := by
  intro h
  have := h mapFailsEnv 4096 ⟨.HLTHUNK_DEVICE_GAUDI3, by decide⟩ rfl (by decide) rfl (by decide)
  have e : (HpuManager.initializeHpu mapFailsEnv 4096 HpuManager.fresh).2 =
      .error "Failed to map device memory" := rfl
  rw [e] at this
  cases this

/-- C5. Once device memory is allocated and mapped, `initialize` returns
normally and keeps the device mapping (device open, device memory allocated,
non-zero device VA, no release call made): (a) when the export fails and the
host allocation succeeds, whatever the host-to-device mapping returns, the
handle has no descriptor (fd < 0) and a non-null host pointer; (b) when the
export succeeds, whatever the CPU mapping of the descriptor returns, the handle
has a descriptor (fd >= 0), and its pointer is null when that mapping failed. -/
theorem C5_degradations_are_not_fatal (env : HpuEnv) (size : Nat)
    (hopen : ∃ d, env.hlthunk_open d ≥ 0)
    (hinfo : env.hlthunk_get_hw_ip_info = 0)
    (halloc : env.hlthunk_device_memory_alloc ≠ 0)
    (hmap : env.hlthunk_device_memory_map ≠ 0)
    (hhost : env.hlthunk_export_dmabuf_fd < 0 → env.aligned_alloc ≠ 0) :
    (HpuManager.initializeHpu env size HpuManager.fresh).2 = .ok () ∧
      (HpuManager.initializeHpu env size HpuManager.fresh).1.gaudi_fd ≥ 0 ∧
      (HpuManager.initializeHpu env size HpuManager.fresh).1.gaudi_handle ≠ 0 ∧
      (HpuManager.initializeHpu env size HpuManager.fresh).1.getDeviceVa ≠ 0 ∧
      (HpuManager.initializeHpu env size HpuManager.fresh).1.trace.filter HpuCall.isRelease = [] ∧
      (if env.hlthunk_export_dmabuf_fd < 0 then
        (HpuManager.initializeHpu env size HpuManager.fresh).1.getDmabufFd < 0 ∧
          (HpuManager.initializeHpu env size HpuManager.fresh).1.getBuffer ≠ 0 ∧
          (HpuManager.initializeHpu env size HpuManager.fresh).1.host_device_va =
            env.hlthunk_host_memory_map
      else
        (HpuManager.initializeHpu env size HpuManager.fresh).1.getDmabufFd ≥ 0 ∧
          (HpuManager.initializeHpu env size HpuManager.fresh).1.getBuffer =
            if env.mmap = MAP_FAILED then 0 else env.mmap) := by
  obtain ⟨fd, opens, hfd, ho, he⟩ := tryOpenGaudiDevice_opened env
    { HpuManager.fresh with buffer_size := size } hopen
  simp only [HpuManager.fresh, List.nil_append] at he
  by_cases hx : env.hlthunk_export_dmabuf_fd < 0
  · have hb := hhost hx
    have e : HpuManager.initializeHpu env size HpuManager.fresh =
        ({ gaudi_fd := fd, dmabuf_fd := env.hlthunk_export_dmabuf_fd,
           gaudi_handle := env.hlthunk_device_memory_alloc,
           device_va := env.hlthunk_device_memory_map,
           host_device_va := env.hlthunk_host_memory_map,
           buffer := env.aligned_alloc, buffer_size := size,
           trace := opens ++ [.hlthunk_get_hw_ip_info fd, .hlthunk_device_memory_alloc fd size,
             .hlthunk_device_memory_map fd env.hlthunk_device_memory_alloc,
             .hlthunk_export_dmabuf_fd fd env.hlthunk_device_memory_map size,
             .aligned_alloc 4096 size, .memset env.aligned_alloc size,
             .hlthunk_host_memory_map fd env.aligned_alloc size] }, .ok ()) := by
      unfold HpuManager.initializeHpu
      simp [he, hinfo, halloc, hmap, hx, hb, HpuManager.allocateDeviceMemory,
        HpuManager.mapDeviceMemory, HpuManager.exportDmabuf, HpuManager.allocateHostMemory,
        HpuManager.mapHostMemoryToGaudi, HpuManager.call, HpuManager.fresh]
    rw [e]
    refine ⟨rfl, hfd, halloc, hmap, ?_, ?_⟩
    · simp only [List.filter_append, opens_filter_isRelease opens ho, List.nil_append]
      rfl
    · rw [if_pos hx]
      exact ⟨hx, hb, rfl⟩
  · have hx' : env.hlthunk_export_dmabuf_fd ≥ 0 := not_lt.mp hx
    have e : HpuManager.initializeHpu env size HpuManager.fresh =
        ({ gaudi_fd := fd, dmabuf_fd := env.hlthunk_export_dmabuf_fd,
           gaudi_handle := env.hlthunk_device_memory_alloc,
           device_va := env.hlthunk_device_memory_map,
           host_device_va := 0,
           buffer := if env.mmap = MAP_FAILED then 0 else env.mmap, buffer_size := size,
           trace := opens ++ [.hlthunk_get_hw_ip_info fd, .hlthunk_device_memory_alloc fd size,
             .hlthunk_device_memory_map fd env.hlthunk_device_memory_alloc,
             .hlthunk_export_dmabuf_fd fd env.hlthunk_device_memory_map size,
             .mmap size env.hlthunk_export_dmabuf_fd] }, .ok ()) := by
      unfold HpuManager.initializeHpu
      by_cases hm : env.mmap = MAP_FAILED <;>
      simp [he, hinfo, halloc, hmap, hx', hm, HpuManager.allocateDeviceMemory,
        HpuManager.mapDeviceMemory, HpuManager.exportDmabuf, HpuManager.call, HpuManager.fresh]
    rw [e]
    refine ⟨rfl, hfd, halloc, hmap, ?_, ?_⟩
    · simp only [List.filter_append, opens_filter_isRelease opens ho, List.nil_append]
      rfl
    · rw [if_neg hx]
      exact ⟨hx', rfl⟩

/-- C5, on an accelerator whose export and host-to-device mapping fail, and on
one whose CPU mapping of the exported descriptor fails. -/
theorem C5_degradations_are_not_fatal_witness :
    ((HpuManager.initializeHpu exportFailsEnv 4096 HpuManager.fresh).2 = .ok () ∧
      (HpuManager.initializeHpu exportFailsEnv 4096 HpuManager.fresh).1.gaudi_fd ≥ 0 ∧
      (HpuManager.initializeHpu exportFailsEnv 4096 HpuManager.fresh).1.gaudi_handle ≠ 0 ∧
      (HpuManager.initializeHpu exportFailsEnv 4096 HpuManager.fresh).1.getDeviceVa ≠ 0 ∧
      (HpuManager.initializeHpu exportFailsEnv 4096 HpuManager.fresh).1.trace.filter
          HpuCall.isRelease = [] ∧
      ((HpuManager.initializeHpu exportFailsEnv 4096 HpuManager.fresh).1.getDmabufFd < 0 ∧
        (HpuManager.initializeHpu exportFailsEnv 4096 HpuManager.fresh).1.getBuffer ≠ 0 ∧
        (HpuManager.initializeHpu exportFailsEnv 4096 HpuManager.fresh).1.host_device_va = 0)) ∧
    ((HpuManager.initializeHpu mmapFailsEnv 4096 HpuManager.fresh).2 = .ok () ∧
      (HpuManager.initializeHpu mmapFailsEnv 4096 HpuManager.fresh).1.gaudi_fd ≥ 0 ∧
      (HpuManager.initializeHpu mmapFailsEnv 4096 HpuManager.fresh).1.gaudi_handle ≠ 0 ∧
      (HpuManager.initializeHpu mmapFailsEnv 4096 HpuManager.fresh).1.getDeviceVa ≠ 0 ∧
      (HpuManager.initializeHpu mmapFailsEnv 4096 HpuManager.fresh).1.trace.filter
          HpuCall.isRelease = [] ∧
      ((HpuManager.initializeHpu mmapFailsEnv 4096 HpuManager.fresh).1.getDmabufFd ≥ 0 ∧
        (HpuManager.initializeHpu mmapFailsEnv 4096 HpuManager.fresh).1.getBuffer = 0)) :=
  ⟨C5_degradations_are_not_fatal exportFailsEnv 4096 ⟨.HLTHUNK_DEVICE_GAUDI3, by decide⟩ rfl
      (by decide) (by decide) (by decide),
    C5_degradations_are_not_fatal mmapFailsEnv 4096 ⟨.HLTHUNK_DEVICE_GAUDI3, by decide⟩ rfl
      (by decide) (by decide) (by decide)⟩

/-! ## Memory registration: C6 -/

theorem initializeDevice_mr (env : VerbsEnv) (name : String) (s : RdmaVerbs) :
    (RdmaVerbs.initializeDevice env name s).1.mr = s.mr := by
  unfold RdmaVerbs.initializeDevice
  cases env.ibv_get_device_list with
  | none => rfl
  | some l =>
    simp only []
    split
    · rfl
    · split
      · rfl
      · split <;> rfl

/-- What `setupResources` does once the port query and the creation of the
protection domain and of the completion queue have succeeded, on an object
without a registration. -/
theorem setupResources_spec (env : VerbsEnv) (hpu : HpuManager) (s : RdmaVerbs)
    (hq : env.ibv_query_port = 0) (hpd : env.ibv_alloc_pd.isSome = true)
    (hcq : env.ibv_create_cq.isSome = true) (hmr : s.mr = none) :
    ((RdmaVerbs.setupResources env hpu s).1.mr.isSome = true ↔
        (hpu.getDmabufFd ≥ 0 ∧ env.ibv_reg_dmabuf_mr.isSome = true) ∨
          (hpu.getBuffer ≠ 0 ∧ env.ibv_reg_mr.isSome = true)) ∧
      (RdmaVerbs.setupResources env hpu s).1.trace =
        s.trace ++ [.ibv_query_port 1, .ibv_alloc_pd, .ibv_create_cq 10] ++
          (if hpu.getDmabufFd ≥ 0 then
            [.ibv_reg_dmabuf_mr 0 hpu.getBufferSize hpu.getDeviceVa hpu.getDmabufFd
              RdmaVerbs.mr_flags]
          else []) ++
          (if ¬ (hpu.getDmabufFd ≥ 0 ∧ env.ibv_reg_dmabuf_mr.isSome = true) ∧ hpu.getBuffer ≠ 0
            then [.ibv_reg_mr hpu.getBuffer hpu.getBufferSize RdmaVerbs.mr_flags]
          else []) ++
          (if (hpu.getDmabufFd ≥ 0 ∧ env.ibv_reg_dmabuf_mr.isSome = true) ∨
              (hpu.getBuffer ≠ 0 ∧ env.ibv_reg_mr.isSome = true)
            then [.ibv_create_qp 1 1 1 1 1]
          else []) ∧
      ((RdmaVerbs.setupResources env hpu s).1.mr.isSome = false →
        (RdmaVerbs.setupResources env hpu s).2 = false ∧
          (RdmaVerbs.setupResources env hpu s).1.qp = s.qp) := by
  cases hpd' : env.ibv_alloc_pd with
  | none => simp [hpd'] at hpd
  | some pd =>
  cases hcq' : env.ibv_create_cq with
  | none => simp [hcq'] at hcq
  | some cq =>
  unfold RdmaVerbs.setupResources RdmaVerbs.setupQueuePair
  by_cases hfd : hpu.getDmabufFd ≥ 0 <;> by_cases hb : hpu.getBuffer = 0 <;>
  cases hd : env.ibv_reg_dmabuf_mr <;> cases hr : env.ibv_reg_mr <;>
  cases hqp : env.ibv_create_qp <;>
  simp [hq, hpd', hcq', hmr, hfd, hb, hd, hr, hqp, RdmaVerbs.call]

theorem initializeDevice_qp (env : VerbsEnv) (name : String) (s : RdmaVerbs) :
    (RdmaVerbs.initializeDevice env name s).1.qp = s.qp := by
  unfold RdmaVerbs.initializeDevice
  cases env.ibv_get_device_list with
  | none => rfl
  | some l =>
    simp only []
    split
    · rfl
    · split
      · rfl
      · split <;> rfl

theorem initializeVerbs_eq (env : VerbsEnv) (name : String) (hpu : HpuManager) (s0 : RdmaVerbs)
    (hdev : (RdmaVerbs.initializeDevice env name s0).2 = true) :
    RdmaVerbs.initializeVerbs env name hpu s0 =
      ((RdmaVerbs.setupResources env hpu (RdmaVerbs.initializeDevice env name s0).1).1,
        if (RdmaVerbs.setupResources env hpu (RdmaVerbs.initializeDevice env name s0).1).2 = true
        then .ok () else .error "Failed to setup RDMA resources") := by
  unfold RdmaVerbs.initializeVerbs
  rcases hp : RdmaVerbs.initializeDevice env name s0 with ⟨s1, ok⟩
  rw [hp] at hdev
  simp only at hdev
  subst hdev
  rcases hr : RdmaVerbs.setupResources env hpu s1 with ⟨s2, ok2⟩
  cases ok2 <;> simp [hr]

/-- C6. In `RdmaVerbs::initialize`, once the device is open and the port query
and the creation of the protection domain and completion queue have succeeded,
`setupResources` ends with a memory registration if and only if the handle has
a descriptor (fd >= 0) and the descriptor registration succeeds, or the host
pointer is non-null and the pointer registration succeeds. The descriptor
registration is called first, and only when fd >= 0; the pointer registration
is called exactly when no descriptor registration was obtained and the host
pointer is non-null; both calls pass the access rights local-write |
remote-read | remote-write | remote-atomic; the queue pair is created only
when a registration was obtained, and without one `setupResources` returns
false, the queue pair stays as it was and `initialize` throws. -/
theorem C6_registration_policy (env : VerbsEnv) (hpu : HpuManager) (name : String)
    (s0 : RdmaVerbs) (hmr : s0.mr = none)
    (hdev : (RdmaVerbs.initializeDevice env name s0).2 = true)
    (hq : env.ibv_query_port = 0) (hpd : env.ibv_alloc_pd.isSome = true)
    (hcq : env.ibv_create_cq.isSome = true) :
    ((RdmaVerbs.setupResources env hpu (RdmaVerbs.initializeDevice env name s0).1).1.mr.isSome
          = true ↔
        (hpu.getDmabufFd ≥ 0 ∧ env.ibv_reg_dmabuf_mr.isSome = true) ∨
          (hpu.getBuffer ≠ 0 ∧ env.ibv_reg_mr.isSome = true)) ∧
      (RdmaVerbs.setupResources env hpu (RdmaVerbs.initializeDevice env name s0).1).1.trace =
        (RdmaVerbs.initializeDevice env name s0).1.trace ++
          [.ibv_query_port 1, .ibv_alloc_pd, .ibv_create_cq 10] ++
          (if hpu.getDmabufFd ≥ 0 then
            [.ibv_reg_dmabuf_mr 0 hpu.getBufferSize hpu.getDeviceVa hpu.getDmabufFd
              RdmaVerbs.mr_flags]
          else []) ++
          (if ¬ (hpu.getDmabufFd ≥ 0 ∧ env.ibv_reg_dmabuf_mr.isSome = true) ∧ hpu.getBuffer ≠ 0
            then [.ibv_reg_mr hpu.getBuffer hpu.getBufferSize RdmaVerbs.mr_flags]
          else []) ++
          (if (hpu.getDmabufFd ≥ 0 ∧ env.ibv_reg_dmabuf_mr.isSome = true) ∨
              (hpu.getBuffer ≠ 0 ∧ env.ibv_reg_mr.isSome = true)
            then [.ibv_create_qp 1 1 1 1 1]
          else []) ∧
      RdmaVerbs.mr_flags =
        [.IBV_ACCESS_LOCAL_WRITE, .IBV_ACCESS_REMOTE_READ, .IBV_ACCESS_REMOTE_WRITE,
          .IBV_ACCESS_REMOTE_ATOMIC] ∧
      ((RdmaVerbs.setupResources env hpu (RdmaVerbs.initializeDevice env name s0).1).1.mr.isSome
          = false →
        (RdmaVerbs.setupResources env hpu (RdmaVerbs.initializeDevice env name s0).1).2 = false ∧
          (RdmaVerbs.initializeVerbs env name hpu s0).2 =
            .error "Failed to setup RDMA resources" ∧
          (RdmaVerbs.initializeVerbs env name hpu s0).1.qp = s0.qp) := by
  have hmr1 : (RdmaVerbs.initializeDevice env name s0).1.mr = none := by
    rw [initializeDevice_mr, hmr]
  obtain ⟨hA, hB, hD⟩ := setupResources_spec env hpu (RdmaVerbs.initializeDevice env name s0).1
    hq hpd hcq hmr1
  refine ⟨hA, hB, rfl, fun hno => ?_⟩
  obtain ⟨h1, h2⟩ := hD hno
  refine ⟨h1, ?_, ?_⟩
  · rw [initializeVerbs_eq env name hpu s0 hdev, h1]
    simp
  · rw [initializeVerbs_eq env name hpu s0 hdev]
    simp only []
    rw [h2, initializeDevice_qp]

/-- C6, on a handle with a descriptor and a CPU mapping whose descriptor
registration fails and whose pointer registration succeeds. -/
theorem C6_registration_policy_witness :
    RdmaVerbs.fresh.mr = none ∧
      (RdmaVerbs.initializeDevice dmabufRegFailsEnv "" RdmaVerbs.fresh).2 = true ∧
      dmabufRegFailsEnv.ibv_query_port = 0 ∧ dmabufRegFailsEnv.ibv_alloc_pd.isSome = true ∧
      dmabufRegFailsEnv.ibv_create_cq.isSome = true ∧
      (RdmaVerbs.setupResources dmabufRegFailsEnv deviceHandle
          (RdmaVerbs.initializeDevice dmabufRegFailsEnv "" RdmaVerbs.fresh).1).1.mr =
        some { handle := 5, lkey := 0x12, rkey := 0xAABBCCDD } ∧
      (RdmaVerbs.setupResources dmabufRegFailsEnv deviceHandle
          (RdmaVerbs.initializeDevice dmabufRegFailsEnv "" RdmaVerbs.fresh).1).1.trace =
        [.ibv_get_device_list, .ibv_open_device "hbl_0", .ibv_free_device_list,
          .ibv_query_port 1, .ibv_alloc_pd, .ibv_create_cq 10,
          .ibv_reg_dmabuf_mr 0 RDMA_BUFFER_SIZE 0x2000 5 RdmaVerbs.mr_flags,
          .ibv_reg_mr 0x7000 RDMA_BUFFER_SIZE RdmaVerbs.mr_flags,
          .ibv_create_qp 1 1 1 1 1] :=
  ⟨rfl, rfl, rfl, rfl, rfl, rfl,
    (C6_registration_policy dmabufRegFailsEnv deviceHandle "" RdmaVerbs.fresh rfl rfl rfl rfl
      rfl).2.1⟩

/-! ## Completion polling and posting: C7, C8 -/

/-- As long as the queries answer 0, the loop entered with the counter at
`polls` and `k` iterations to go makes `k` more queries and `k` more sleeps and
then throws the timeout. -/
theorem pollLoop_all_empty (cq : Nat → Int × Nat) (statusStr : Nat → String) (k : Nat) :
    ∀ polls queries sleeps, polls + k = 1000000 →
      (∀ i, queries ≤ i → i < queries + k → (cq i).1 = 0) →
      RdmaVerbs.pollLoop cq statusStr polls queries sleeps =
        { result := .error "Poll timeout", queries := queries + k, sleeps := sleeps + k } := by
  induction k with
  | zero =>
    intro polls queries sleeps hp _
    rw [RdmaVerbs.pollLoop, if_neg (by omega)]
    rfl
  | succ k ih =>
    intro polls queries sleeps hp hz
    have h0 : (cq queries).1 = 0 := hz queries (le_refl _) (by omega)
    rw [RdmaVerbs.pollLoop, if_pos (by omega)]
    simp only [h0, lt_irrefl, if_false, gt_iff_lt]
    rw [ih (polls + 1) (queries + 1) (sleeps + 1) (by omega)
      (fun i h1 h2 => hz i (by omega) (by omega))]
    simp [Nat.add_assoc, Nat.add_comm 1 k]

/-- C7. When each of the first 1,000,000 queries of the completion queue
answers 0 entries, `pollCompletion` terminates after exactly 1,000,000
queries with the exception "Poll timeout": it does not return a value and
throws no other error. -/
theorem C7_poll_timeout (cq : Nat → Int × Nat) (statusStr : Nat → String)
    (h : ∀ i, i < 1000000 → (cq i).1 = 0) :
    (RdmaVerbs.pollCompletion cq statusStr).result = .error "Poll timeout" ∧
      (RdmaVerbs.pollCompletion cq statusStr).queries = 1000000 ∧
      (RdmaVerbs.pollCompletion cq statusStr).sleeps = 1000000 := by
  have e := pollLoop_all_empty cq statusStr 1000000 0 0 0 rfl
    (fun i _ h2 => h i (by omega))
  unfold RdmaVerbs.pollCompletion
  rw [e]
  exact ⟨rfl, rfl, rfl⟩

/-- C7, on a completion queue that never has an entry. -/
theorem C7_poll_timeout_witness :
    (∀ i, i < 1000000 → ((fun _ => ((0 : Int), 0)) i : Int × Nat).1 = 0) ∧
      (RdmaVerbs.pollCompletion (fun _ => (0, 0)) (fun _ => "")).result =
        .error "Poll timeout" ∧
      (RdmaVerbs.pollCompletion (fun _ => (0, 0)) (fun _ => "")).queries = 1000000 ∧
      (RdmaVerbs.pollCompletion (fun _ => (0, 0)) (fun _ => "")).sleeps = 1000000 :=
  ⟨fun _ _ => rfl, C7_poll_timeout (fun _ => (0, 0)) (fun _ => "") (fun _ _ => rfl)⟩

/-- C8 as stated fails: with the default buffer size of 4 MiB the
scatter-gather element of a send covers 1024 bytes, not the registered
buffer. -/
theorem C8_sge_is_not_the_whole_buffer :
    hostHandle.getBufferSize = 4194304 ∧
      (RdmaVerbs.postSend goodEnv hostHandle IBV_WR_SEND readyVerbs).1.trace.getLast? =
        some (.ibv_post_send
          { wr_id := 0, sg_list := { addr := 0x1000, length := 1024, lkey := 0x12 },
            num_sge := 1, opcode := IBV_WR_SEND, send_flags := IBV_SEND_SIGNALED,
            remote_addr := 0, rkey := 0 }) ∧
      (RdmaVerbs.buildSge hostHandle readyVerbs).length ≠ hostHandle.getBufferSize := by
  refine ⟨rfl, rfl, by decide⟩

/-- The calls of `initializeDevice` register nothing. -/
theorem initializeDevice_registrations (env : VerbsEnv) (name : String) (s : RdmaVerbs) :
    (RdmaVerbs.initializeDevice env name s).1.trace.filter (fun c => c.registeredBase?.isSome) =
        s.trace.filter (fun c => c.registeredBase?.isSome) ∧
      (RdmaVerbs.initializeDevice env name s).1.trace.filterMap VerbsCall.registeredBase? =
        s.trace.filterMap VerbsCall.registeredBase? := by
  unfold RdmaVerbs.initializeDevice
  cases env.ibv_get_device_list with
  | none => simp [RdmaVerbs.call, VerbsCall.registeredBase?]
  | some l =>
    simp only []
    split
    · simp [RdmaVerbs.call, VerbsCall.registeredBase?]
    · split
      · simp [RdmaVerbs.call, VerbsCall.registeredBase?]
      · split <;> simp [RdmaVerbs.call, VerbsCall.registeredBase?]

/-- When `setupResources` succeeds on an object without a registration and the
first registration it attempts is not a failed descriptor registration, that
registration is the only one it makes and the one it keeps. -/
theorem setupResources_first_registration (env : VerbsEnv) (hpu : HpuManager) (s : RdmaVerbs)
    (hmr : s.mr = none) (hok : (RdmaVerbs.setupResources env hpu s).2 = true)
    (hfirst : hpu.getDmabufFd < 0 ∨ env.ibv_reg_dmabuf_mr.isSome = true) :
    (RdmaVerbs.setupResources env hpu s).1.mr =
        (if hpu.getDmabufFd ≥ 0 then env.ibv_reg_dmabuf_mr else env.ibv_reg_mr) ∧
      (RdmaVerbs.setupResources env hpu s).1.mr.isSome = true ∧
      (RdmaVerbs.setupResources env hpu s).1.trace =
        s.trace ++ [.ibv_query_port 1, .ibv_alloc_pd, .ibv_create_cq 10,
          (if hpu.getDmabufFd ≥ 0 then
            .ibv_reg_dmabuf_mr 0 hpu.getBufferSize hpu.getDeviceVa hpu.getDmabufFd
              RdmaVerbs.mr_flags
          else .ibv_reg_mr hpu.getBuffer hpu.getBufferSize RdmaVerbs.mr_flags),
          .ibv_create_qp 1 1 1 1 1] := by
  revert hok
  unfold RdmaVerbs.setupResources RdmaVerbs.setupQueuePair
  by_cases hq : env.ibv_query_port = 0 <;>
  cases hpd : env.ibv_alloc_pd <;> cases hcq : env.ibv_create_cq <;>
  by_cases hfd : hpu.getDmabufFd ≥ 0 <;> by_cases hb : hpu.getBuffer = 0 <;>
  cases hd : env.ibv_reg_dmabuf_mr <;> cases hr : env.ibv_reg_mr <;>
  cases hqp : env.ibv_create_qp <;>
  first
  | (simp [hq, hpd, hcq, hmr, hfd, hb, hd, hr, hqp, RdmaVerbs.call]; done)
  | (exfalso
     rcases hfirst with h | h
     · exact absurd h (by omega)
     · simp [hd] at h)

/-- C8, amended. For every opcode and every buffer size, `postSend` and
`postReceive` each make one post whose work request has a single
scatter-gather element; its length is `MSG_SIZE`, 1024 bytes, whatever the
registered buffer size is (so it covers the whole buffer only when that size
is 1024). When `initialize` succeeds on an object without a registration and
the registration it keeps is the first one it attempts (through the descriptor
when the handle has one, through the host pointer otherwise), that is the only
registration it makes, and the start address of the element is the base
address under which it was made. -/
theorem C8_sge_covers_msg_size (env : VerbsEnv) (name : String) (hpu : HpuManager)
    (s0 : RdmaVerbs) (hmr : s0.mr = none)
    (hok : (RdmaVerbs.initializeVerbs env name hpu s0).2 = .ok ())
    (hfirst : hpu.getDmabufFd < 0 ∨ env.ibv_reg_dmabuf_mr.isSome = true) :
    (∀ (env1 : VerbsEnv) (hpu1 : HpuManager) (opcode : Int) (s : RdmaVerbs),
        (RdmaVerbs.postSend env1 hpu1 opcode s).1.trace =
            s.trace ++ [.ibv_post_send (RdmaVerbs.buildSendWr hpu1 opcode s)] ∧
          (RdmaVerbs.postReceive env1 hpu1 s).1.trace =
            s.trace ++ [.ibv_post_recv
              { wr_id := 0, sg_list := RdmaVerbs.buildSge hpu1 s, num_sge := 1 }] ∧
          (RdmaVerbs.buildSendWr hpu1 opcode s).sg_list = RdmaVerbs.buildSge hpu1 s ∧
          (RdmaVerbs.buildSendWr hpu1 opcode s).num_sge = 1 ∧
          (RdmaVerbs.buildSge hpu1 s).length = 1024 ∧
          ((RdmaVerbs.buildSge hpu1 s).length = hpu1.getBufferSize ↔
            hpu1.getBufferSize = 1024)) ∧
      (RdmaVerbs.initializeVerbs env name hpu s0).1.mr =
        (if hpu.getDmabufFd ≥ 0 then env.ibv_reg_dmabuf_mr else env.ibv_reg_mr) ∧
      (RdmaVerbs.initializeVerbs env name hpu s0).1.mr.isSome = true ∧
      (RdmaVerbs.initializeVerbs env name hpu s0).1.trace.filter
          (fun c => c.registeredBase?.isSome) =
        s0.trace.filter (fun c => c.registeredBase?.isSome) ++
          [if hpu.getDmabufFd ≥ 0 then
            .ibv_reg_dmabuf_mr 0 hpu.getBufferSize hpu.getDeviceVa hpu.getDmabufFd
              RdmaVerbs.mr_flags
          else .ibv_reg_mr hpu.getBuffer hpu.getBufferSize RdmaVerbs.mr_flags] ∧
      (∀ (opcode : Int) (s : RdmaVerbs),
        ((RdmaVerbs.initializeVerbs env name hpu s0).1.trace.filterMap
            VerbsCall.registeredBase?).getLast? =
          some (RdmaVerbs.buildSendWr hpu opcode s).sg_list.addr ∧
        ((RdmaVerbs.initializeVerbs env name hpu s0).1.trace.filterMap
            VerbsCall.registeredBase?).getLast? =
          some (RdmaVerbs.buildSge hpu s).addr) := by
  have hdev : (RdmaVerbs.initializeDevice env name s0).2 = true := by
    revert hok
    unfold RdmaVerbs.initializeVerbs
    rcases RdmaVerbs.initializeDevice env name s0 with ⟨s1, ok⟩
    cases ok
    · intro h
      cases h
    · intro _
      rfl
  have hset : (RdmaVerbs.setupResources env hpu
      (RdmaVerbs.initializeDevice env name s0).1).2 = true := by
    rw [initializeVerbs_eq env name hpu s0 hdev] at hok
    by_contra hn
    rw [if_neg hn] at hok
    cases hok
  have h1 := setupResources_first_registration env hpu
    (RdmaVerbs.initializeDevice env name s0).1
    ((initializeDevice_mr env name s0).trans hmr) hset hfirst
  have hs : (RdmaVerbs.initializeVerbs env name hpu s0).1 =
      (RdmaVerbs.setupResources env hpu (RdmaVerbs.initializeDevice env name s0).1).1 := by
    rw [initializeVerbs_eq env name hpu s0 hdev]
  have hr := initializeDevice_registrations env name s0
  rw [hs]
  refine ⟨?_, h1.1, h1.2.1, ?_, ?_⟩
  · intro env1 hpu1 opcode s
    refine ⟨?_, ?_, ?_, ?_, rfl, ?_⟩
    · unfold RdmaVerbs.postSend
      split <;> rfl
    · unfold RdmaVerbs.postReceive
      split <;> rfl
    · unfold RdmaVerbs.buildSendWr
      split <;> rfl
    · unfold RdmaVerbs.buildSendWr
      split <;> rfl
    · simp only [RdmaVerbs.buildSge, MSG_SIZE]
      exact eq_comm
  · rw [h1.2.2, List.filter_append, hr.1]
    by_cases hfd : hpu.getDmabufFd ≥ 0 <;> simp [hfd, VerbsCall.registeredBase?]
  · intro opcode s
    have ha : (RdmaVerbs.buildSendWr hpu opcode s).sg_list.addr = RdmaVerbs.localAddr hpu := by
      unfold RdmaVerbs.buildSendWr
      split <;> rfl
    have hb : (RdmaVerbs.buildSge hpu s).addr = RdmaVerbs.localAddr hpu := rfl
    rw [ha, hb, h1.2.2, List.filterMap_append, hr.2]
    by_cases hfd : hpu.getDmabufFd ≥ 0 <;>
      simp [hfd, VerbsCall.registeredBase?, RdmaVerbs.localAddr]

/-- C8 amended, on a host buffer of 4 MiB at `0x1000` without a descriptor:
`initialize` registers it once, through the pointer, and the element of a post
is 1024 bytes long and starts at `0x1000`. -/
theorem C8_sge_covers_msg_size_witness :
    RdmaVerbs.fresh.mr = none ∧
      (RdmaVerbs.initializeVerbs goodEnv "" hostHandle RdmaVerbs.fresh).2 = .ok () ∧
      (hostHandle.getDmabufFd < 0 ∨ goodEnv.ibv_reg_dmabuf_mr.isSome = true) ∧
      (RdmaVerbs.initializeVerbs goodEnv "" hostHandle RdmaVerbs.fresh).1.trace.filter
          (fun c => c.registeredBase?.isSome) =
        [.ibv_reg_mr 0x1000 4194304 RdmaVerbs.mr_flags] ∧
      (RdmaVerbs.buildSge hostHandle readyVerbs).length = 1024 ∧
      ((RdmaVerbs.initializeVerbs goodEnv "" hostHandle RdmaVerbs.fresh).1.trace.filterMap
          VerbsCall.registeredBase?).getLast? = some 0x1000 ∧
      (RdmaVerbs.buildSge hostHandle readyVerbs).addr = 0x1000 :=
  ⟨rfl, rfl, Or.inl (by decide),
    (C8_sge_covers_msg_size goodEnv "" hostHandle RdmaVerbs.fresh rfl rfl
      (Or.inl (by decide))).2.2.2.1,
    ((C8_sge_covers_msg_size goodEnv "" hostHandle RdmaVerbs.fresh rfl rfl
      (Or.inl (by decide))).1 goodEnv hostHandle IBV_WR_SEND readyVerbs).2.2.2.2.1,
    ((C8_sge_covers_msg_size goodEnv "" hostHandle RdmaVerbs.fresh rfl rfl
      (Or.inl (by decide))).2.2.2.2 IBV_WR_SEND readyVerbs).2,
    rfl⟩

/-! ## Connection setup: C9, C10 -/

/-- The result and the trace of `connectQp`, by the outcome of its steps. -/
theorem connectQp_spec (env : VerbsEnv) (hpu : HpuManager) (name : String) (port : Int)
    (s : RdmaVerbs) :
    RdmaVerbs.connectQp env hpu name port s =
      if (RdmaVerbs.setupSocket env name port s).2 = false then
        ((RdmaVerbs.setupSocket env name port s).1, .error "Failed to establish TCP connection")
      else if (RdmaVerbs.exchangeConnectionData env hpu
          (RdmaVerbs.setupSocket env name port s).1).2 = false then
        ((RdmaVerbs.exchangeConnectionData env hpu (RdmaVerbs.setupSocket env name port s).1).1,
          .error "Failed to exchange connection data")
      else if env.modify_qp_init ≠ 0 then
        ((RdmaVerbs.modifyQpToInit env (RdmaVerbs.exchangeConnectionData env hpu
            (RdmaVerbs.setupSocket env name port s).1).1).1,
          .error "Failed to modify QP to INIT")
      else if env.modify_qp_rtr ≠ 0 then
        ((RdmaVerbs.modifyQpToRtr env (RdmaVerbs.modifyQpToInit env
            (RdmaVerbs.exchangeConnectionData env hpu
              (RdmaVerbs.setupSocket env name port s).1).1).1).1,
          .error "Failed to modify QP to RTR")
      else if env.modify_qp_rts ≠ 0 then
        ((RdmaVerbs.modifyQpToRts env (RdmaVerbs.modifyQpToRtr env (RdmaVerbs.modifyQpToInit env
            (RdmaVerbs.exchangeConnectionData env hpu
              (RdmaVerbs.setupSocket env name port s).1).1).1).1).1,
          .error "Failed to modify QP to RTS")
      else
        ((RdmaVerbs.modifyQpToRts env (RdmaVerbs.modifyQpToRtr env (RdmaVerbs.modifyQpToInit env
            (RdmaVerbs.exchangeConnectionData env hpu
              (RdmaVerbs.setupSocket env name port s).1).1).1).1).1,
          .ok ()) := by
  unfold RdmaVerbs.connectQp
  rcases h1 : RdmaVerbs.setupSocket env name port s with ⟨s1, ok1⟩
  cases ok1
  · simp
  rcases h2 : RdmaVerbs.exchangeConnectionData env hpu s1 with ⟨s2, ok2⟩
  cases ok2
  · simp [h2]
  by_cases hi : env.modify_qp_init = 0 <;> by_cases hr : env.modify_qp_rtr = 0 <;>
  by_cases ht : env.modify_qp_rts = 0 <;>
  simp [h2, hi, hr, ht, RdmaVerbs.modifyQpToInit, RdmaVerbs.modifyQpToRtr, RdmaVerbs.modifyQpToRts]

theorem rtrAttr_qp_state (remote_props : CmConData) :
    (RdmaVerbs.rtrAttr remote_props).qp_state = .IBV_QPS_RTR := by
  unfold RdmaVerbs.rtrAttr
  split <;> rfl

/-- C9. `connectQp` runs socket setup, descriptor exchange, modify-to-INIT,
modify-to-RTR and modify-to-RTS in this order, each once: its calls are those
of the socket setup, then those of the exchange, then one `ibv_modify_qp` per
transition with target states INIT, RTR, RTS. The first step that fails ends
it with an exception (for a transition, one whose message names the target
state), no call of a later step is made, and it returns normally if and only if
all five steps succeed. -/
theorem C9_connect_sequence (env : VerbsEnv) (hpu : HpuManager) (name : String) (port : Int)
    (s : RdmaVerbs) :
    (RdmaVerbs.connectQp env hpu name port s).2 =
        (if (RdmaVerbs.setupSocket env name port s).2 = false then
          .error "Failed to establish TCP connection"
        else if (RdmaVerbs.exchangeConnectionData env hpu
            (RdmaVerbs.setupSocket env name port s).1).2 = false then
          .error "Failed to exchange connection data"
        else if env.modify_qp_init ≠ 0 then .error "Failed to modify QP to INIT"
        else if env.modify_qp_rtr ≠ 0 then .error "Failed to modify QP to RTR"
        else if env.modify_qp_rts ≠ 0 then .error "Failed to modify QP to RTS"
        else .ok ()) ∧
      (RdmaVerbs.connectQp env hpu name port s).1.trace =
        (if (RdmaVerbs.setupSocket env name port s).2 = false then
          (RdmaVerbs.setupSocket env name port s).1.trace
        else
          (RdmaVerbs.exchangeConnectionData env hpu
              (RdmaVerbs.setupSocket env name port s).1).1.trace ++
            if (RdmaVerbs.exchangeConnectionData env hpu
                (RdmaVerbs.setupSocket env name port s).1).2 = false then []
            else
              VerbsCall.ibv_modify_qp RdmaVerbs.initAttr RdmaVerbs.initMask ::
                if env.modify_qp_init ≠ 0 then []
                else
                  VerbsCall.ibv_modify_qp
                      (RdmaVerbs.rtrAttr (RdmaVerbs.exchangeConnectionData env hpu
                        (RdmaVerbs.setupSocket env name port s).1).1.remote_props)
                      RdmaVerbs.rtrMask ::
                    if env.modify_qp_rtr ≠ 0 then []
                    else [VerbsCall.ibv_modify_qp RdmaVerbs.rtsAttr RdmaVerbs.rtsMask]) ∧
      (∃ calls,
        (RdmaVerbs.exchangeConnectionData env hpu
            (RdmaVerbs.setupSocket env name port s).1).1.trace =
          (RdmaVerbs.setupSocket env name port s).1.trace ++ calls) ∧
      RdmaVerbs.initAttr.qp_state = .IBV_QPS_INIT ∧
      (∀ remote_props, (RdmaVerbs.rtrAttr remote_props).qp_state = .IBV_QPS_RTR) ∧
      RdmaVerbs.rtsAttr.qp_state = .IBV_QPS_RTS ∧
      ((RdmaVerbs.connectQp env hpu name port s).2 = .ok () ↔
        (RdmaVerbs.setupSocket env name port s).2 = true ∧
          (RdmaVerbs.exchangeConnectionData env hpu
            (RdmaVerbs.setupSocket env name port s).1).2 = true ∧
          env.modify_qp_init = 0 ∧ env.modify_qp_rtr = 0 ∧ env.modify_qp_rts = 0) := by
  rw [connectQp_spec]
  refine ⟨?_, ?_, ⟨_, by rw [exchange_trace, List.append_assoc]⟩, rfl, rtrAttr_qp_state, rfl, ?_⟩
  · by_cases h1 : (RdmaVerbs.setupSocket env name port s).2 = false
    · simp [h1]
    by_cases h2 : (RdmaVerbs.exchangeConnectionData env hpu
        (RdmaVerbs.setupSocket env name port s).1).2 = false
    · simp [h1, h2]
    by_cases hi : env.modify_qp_init = 0 <;> by_cases hr : env.modify_qp_rtr = 0 <;>
    by_cases ht : env.modify_qp_rts = 0 <;> simp [h1, h2, hi, hr, ht]
  · by_cases h1 : (RdmaVerbs.setupSocket env name port s).2 = false
    · simp [h1]
    by_cases h2 : (RdmaVerbs.exchangeConnectionData env hpu
        (RdmaVerbs.setupSocket env name port s).1).2 = false
    · simp [h1, h2]
    by_cases hi : env.modify_qp_init = 0 <;> by_cases hr : env.modify_qp_rtr = 0 <;>
    by_cases ht : env.modify_qp_rts = 0 <;>
    simp [h1, h2, hi, hr, ht, RdmaVerbs.modifyQpToInit, RdmaVerbs.modifyQpToRtr,
      RdmaVerbs.modifyQpToRts, RdmaVerbs.call]
  · by_cases h1 : (RdmaVerbs.setupSocket env name port s).2 = false
    · simp [h1]
    by_cases h2 : (RdmaVerbs.exchangeConnectionData env hpu
        (RdmaVerbs.setupSocket env name port s).1).2 = false
    · simp [h1, h2]
    by_cases hi : env.modify_qp_init = 0 <;> by_cases hr : env.modify_qp_rtr = 0 <;>
    by_cases ht : env.modify_qp_rts = 0 <;> simp [h1, h2, hi, hr, ht]

/-- C10. After a successful socket setup, `exchangeConnectionData` makes, in
this order, a write of the local record, a read of the remote record, a write
of the single byte 'Q' and a read of one byte, each asking for the size of the
record or for one byte; it stops at the first transfer whose return value is
not the count asked for, making none of the later transfers, and returns true
if and only if all four return values are the counts asked for. When it
returns false, `connectQp` throws "Failed to exchange connection data" and
makes no call after those of the exchange, so no queue-pair transition. -/
theorem C10_exchange_sequence (env : VerbsEnv) (hpu : HpuManager) (name : String) (port : Int)
    (s : RdmaVerbs) (hs : (RdmaVerbs.setupSocket env name port s).2 = true) :
    (RdmaVerbs.exchangeConnectionData env hpu (RdmaVerbs.setupSocket env name port s).1).1.trace =
        (RdmaVerbs.setupSocket env name port s).1.trace ++
          RdmaVerbs.gidQuery (RdmaVerbs.setupSocket env name port s).1 ++
          (VerbsCall.write (RdmaVerbs.setupSocket env name port s).1.sock
              ((RdmaVerbs.localConData env hpu
                (RdmaVerbs.setupSocket env name port s).1).toMemBytes env.littleEndian)
              CmConData.sizeof ::
            if env.write_record ≠ CmConData.sizeof then []
            else VerbsCall.read (RdmaVerbs.setupSocket env name port s).1.sock CmConData.sizeof ::
              if env.read_record ≠ CmConData.sizeof then []
              else VerbsCall.write (RdmaVerbs.setupSocket env name port s).1.sock ['Q'.toNat] 1 ::
                if env.write_sync ≠ 1 then []
                else [VerbsCall.read (RdmaVerbs.setupSocket env name port s).1.sock 1]) ∧
      ((RdmaVerbs.exchangeConnectionData env hpu
            (RdmaVerbs.setupSocket env name port s).1).2 = true ↔
        env.write_record = CmConData.sizeof ∧ env.read_record = CmConData.sizeof ∧
          env.write_sync = 1 ∧ env.read_sync = 1) ∧
      ((RdmaVerbs.exchangeConnectionData env hpu
            (RdmaVerbs.setupSocket env name port s).1).2 = false →
        (RdmaVerbs.connectQp env hpu name port s).2 =
            .error "Failed to exchange connection data" ∧
          (RdmaVerbs.connectQp env hpu name port s).1.trace =
            (RdmaVerbs.exchangeConnectionData env hpu
              (RdmaVerbs.setupSocket env name port s).1).1.trace) := by
  refine ⟨exchange_trace _ _ _, exchange_result _ _ _, fun hx => ?_⟩
  rw [connectQp_spec]
  simp [hs, hx]

/-- C10, on a run whose read of the remote record is short: the exchange stops
after the read and `connectQp` throws without a queue-pair transition. -/
theorem C10_exchange_sequence_witness :
    (RdmaVerbs.setupSocket shortReadEnv "srv" 20000 readyVerbs).2 = true ∧
      (RdmaVerbs.connectQp shortReadEnv hostHandle "srv" 20000 readyVerbs).2 =
        .error "Failed to exchange connection data" ∧
      (RdmaVerbs.connectQp shortReadEnv hostHandle "srv" 20000 readyVerbs).1.trace =
        (RdmaVerbs.exchangeConnectionData shortReadEnv hostHandle
          (RdmaVerbs.setupSocket shortReadEnv "srv" 20000 readyVerbs).1).1.trace ∧
      (RdmaVerbs.exchangeConnectionData shortReadEnv hostHandle
          (RdmaVerbs.setupSocket shortReadEnv "srv" 20000 readyVerbs).1).1.trace =
        readyVerbs.trace ++
          [.getaddrinfo (some "srv") "20000", .socket, .connect 8, .freeaddrinfo,
            .write 8 [0, 0, 0, 0, 0, 0, 16, 0, 170, 187, 204, 221, 0, 0, 0, 7, 0, 3,
              0, 0, 0, 0, 0, 0, 0, 0, 0, 0, 0, 0, 0, 0, 0, 0] 34,
            .read 8 34] :=
  ⟨rfl,
    ((C10_exchange_sequence shortReadEnv hostHandle "srv" 20000 readyVerbs rfl).2.2 rfl).1,
    ((C10_exchange_sequence shortReadEnv hostHandle "srv" 20000 readyVerbs rfl).2.2 rfl).2,
    (C10_exchange_sequence shortReadEnv hostHandle "srv" 20000 readyVerbs rfl).1⟩

/-! ## Completion outcomes: C15 -/

/-- The loop entered with `k` empty queries ahead of a query with a non-zero
result, all within the bound: it makes `k + 1` more queries and `k` more
sleeps, and the result is decided by that query. -/
theorem pollLoop_first_nonzero (cq : Nat → Int × Nat) (statusStr : Nat → String) (k : Nat) :
    ∀ polls queries sleeps, polls + k < 1000000 →
      (∀ i, queries ≤ i → i < queries + k → (cq i).1 = 0) →
      (cq (queries + k)).1 ≠ 0 →
      RdmaVerbs.pollLoop cq statusStr polls queries sleeps =
        { result :=
            if (cq (queries + k)).1 < 0 then .error "Poll CQ failed"
            else if (cq (queries + k)).2 ≠ IBV_WC_SUCCESS then
              .error ("Work completion error: " ++ statusStr (cq (queries + k)).2)
            else .ok true,
          queries := queries + k + 1, sleeps := sleeps + k } := by
  induction k with
  | zero =>
    intro polls queries sleeps hp _ hnz
    rw [RdmaVerbs.pollLoop, if_pos (by omega)]
    simp only [Nat.add_zero] at hnz ⊢
    by_cases hneg : (cq queries).1 < 0
    · simp [hneg]
    · have hpos : (cq queries).1 > 0 := by omega
      by_cases hst : (cq queries).2 = IBV_WC_SUCCESS <;> simp [hneg, hpos, hst]
  | succ k ih =>
    intro polls queries sleeps hp hz hnz
    have h0 : (cq queries).1 = 0 := hz queries (le_refl _) (by omega)
    rw [RdmaVerbs.pollLoop, if_pos (by omega)]
    simp only [h0, lt_irrefl, if_false, gt_iff_lt]
    have e : queries + 1 + k = queries + (k + 1) := by omega
    rw [ih (polls + 1) (queries + 1) (sleeps + 1) (by omega)
      (fun i h1 h2 => hz i (by omega) (by omega)) (by rw [e]; exact hnz)]
    simp only [e]
    congr 1
    omega

/-- Whatever the completion queue answers, the loop does not return false. -/
theorem pollLoop_not_false (cq : Nat → Int × Nat) (statusStr : Nat → String) (n : Nat) :
    ∀ polls queries sleeps, polls + n = 1000000 →
      (RdmaVerbs.pollLoop cq statusStr polls queries sleeps).result ≠ .ok false := by
  induction n with
  | zero =>
    intro polls queries sleeps hp
    rw [RdmaVerbs.pollLoop, if_neg (by omega)]
    simp
  | succ n ih =>
    intro polls queries sleeps hp
    rw [RdmaVerbs.pollLoop, if_pos (by omega)]
    by_cases hneg : (cq queries).1 < 0
    · simp [hneg]
    · by_cases hpos : (cq queries).1 > 0
      · by_cases hst : (cq queries).2 = IBV_WC_SUCCESS <;> simp [hneg, hpos, hst]
      · simp only [hneg, hpos, if_false]
        exact ih (polls + 1) (queries + 1) (sleeps + 1) (by omega)

/-- C15. When query number `k` (counted from 0, `k < 1,000,000`) is the first
query of the completion queue that returns a non-zero count, `pollCompletion`
makes exactly `k + 1` queries and its outcome is decided by that query: the
exception "Poll CQ failed" when the count is negative, the exception "Work
completion error: " followed by the device's text for the status when the
count is positive and the status of the entry is not success, and the value
true when the count is positive and the status is success. Whatever the
completion queue answers, `pollCompletion` does not return false. -/
theorem C15_poll_outcome (cq : Nat → Int × Nat) (statusStr : Nat → String) (k : Nat)
    (hk : k < 1000000) (hzero : ∀ i, i < k → (cq i).1 = 0) (hnz : (cq k).1 ≠ 0) :
    (RdmaVerbs.pollCompletion cq statusStr).result =
        (if (cq k).1 < 0 then .error "Poll CQ failed"
        else if (cq k).2 ≠ IBV_WC_SUCCESS then
          .error ("Work completion error: " ++ statusStr (cq k).2)
        else .ok true) ∧
      (RdmaVerbs.pollCompletion cq statusStr).queries = k + 1 ∧
      (RdmaVerbs.pollCompletion cq statusStr).sleeps = k ∧
      (∀ (cq' : Nat → Int × Nat) (statusStr' : Nat → String),
        (RdmaVerbs.pollCompletion cq' statusStr').result ≠ .ok false) := by
  have e := pollLoop_first_nonzero cq statusStr k 0 0 0 (by omega)
    (fun i _ h2 => hzero i (by omega)) (by simpa using hnz)
  simp only [Nat.zero_add] at e
  unfold RdmaVerbs.pollCompletion
  rw [e]
  exact ⟨rfl, rfl, rfl, fun cq' s' => pollLoop_not_false cq' s' 1000000 0 0 0 rfl⟩

/-- C15, on a completion queue that is empty twice and then delivers an entry
with status 5: three queries, and the completion-status error with the text of
status 5. -/
theorem C15_poll_outcome_witness :
    (2 < 1000000 ∧ (∀ i, i < 2 → (failedCompletionCq i).1 = 0) ∧
      (failedCompletionCq 2).1 ≠ 0) ∧
      (RdmaVerbs.pollCompletion failedCompletionCq (fun st => toString st)).result =
        .error "Work completion error: 5" ∧
      (RdmaVerbs.pollCompletion failedCompletionCq (fun st => toString st)).queries = 3 :=
  ⟨⟨by decide, by decide, by decide⟩,
    (C15_poll_outcome failedCompletionCq (fun st => toString st) 2 (by decide) (by decide)
      (by decide)).1,
    (C15_poll_outcome failedCompletionCq (fun st => toString st) 2 (by decide) (by decide)
      (by decide)).2.1⟩

/-! ## The ready-to-receive attributes: C16 -/

/-- Reading a record from memory looks at its first 34 bytes only. -/
theorem ofMemBytes_toMemBytes_append (le : Bool) (d : CmConData) (h : d.wf) (rest : List Nat) :
    CmConData.ofMemBytes le (d.toMemBytes le ++ rest) = d := by
  obtain ⟨h1, h2, h3, h4, h5, _⟩ := h
  obtain ⟨t1, t2, t3, t4, t5⟩ := take_drop_fields (toMem le 8 d.addr) (toMem le 4 d.rkey)
    (toMem le 4 d.qp_num) (toMem le 2 d.lid) (d.gid ++ rest) (toMem_length _ _ _)
    (toMem_length _ _ _) (toMem_length _ _ _) (toMem_length _ _ _)
  have e : d.toMemBytes le ++ rest =
      toMem le 8 d.addr ++ toMem le 4 d.rkey ++ toMem le 4 d.qp_num ++ toMem le 2 d.lid ++
        (d.gid ++ rest) := by
    simp only [CmConData.toMemBytes, List.append_assoc]
  rw [e]
  unfold CmConData.ofMemBytes
  rw [t1, t2, t3, t4, t5, ofMem_toMem _ _ _ (by norm_num; exact h1),
    ofMem_toMem _ _ _ (by norm_num; exact h2), ofMem_toMem _ _ _ (by norm_num; exact h3),
    ofMem_toMem _ _ _ (by norm_num; exact h4), List.take_left' h5]

theorem toMemBytes_length (le : Bool) (d : CmConData) (h : d.wf) :
    (d.toMemBytes le).length = 34 := by
  obtain ⟨_, _, _, _, h5, _⟩ := h
  simp [CmConData.toMemBytes, toMem_length, h5]

/-- When the write and the read of the records both move 34 bytes and the peer,
a host of either byte order, sent the record `d` the way
`exchangeConnectionData` sends it, `remote_props_` holds `d` afterwards. -/
theorem exchange_remote_props (env : VerbsEnv) (hpu : HpuManager) (s : RdmaVerbs)
    (d : CmConData) (peerLittleEndian : Bool) (hd : d.wf)
    (hdata : env.read_record_data = (d.hton peerLittleEndian).toMemBytes peerLittleEndian)
    (hw : env.write_record = CmConData.sizeof) (hr : env.read_record = CmConData.sizeof) :
    (RdmaVerbs.exchangeConnectionData env hpu s).1.remote_props = d := by
  have e : (d.hton peerLittleEndian).toMemBytes peerLittleEndian =
      (d.hton env.littleEndian).toMemBytes env.littleEndian := by
    rw [toMemBytes_hton, toMemBytes_hton]
  have hlen : ((d.hton env.littleEndian).toMemBytes env.littleEndian).length = 34 :=
    toMemBytes_length _ _ (hton_wf _ d hd)
  have hstore : ∀ old : List Nat,
      CmConData.ofMemBytes env.littleEndian
        (RdmaVerbs.storeBytes old (env.read_record_data.take CmConData.sizeof)) =
          d.hton env.littleEndian := by
    intro old
    have ht : env.read_record_data.take CmConData.sizeof =
        (d.hton env.littleEndian).toMemBytes env.littleEndian := by
      rw [hdata, e]
      exact List.take_of_length_le (by rw [hlen]; decide)
    rw [ht, RdmaVerbs.storeBytes]
    exact ofMemBytes_toMemBytes_append _ _ (hton_wf _ d hd) _
  unfold RdmaVerbs.exchangeConnectionData
  by_cases h3 : env.write_sync = 1 <;> by_cases h4 : env.read_sync = 1 <;>
  simp [hw, hr, h3, h4, RdmaVerbs.call, hstore, ntoh_hton_record _ d hd]

theorem gid_nonzero_iff (gid : List Nat) (hg : gid.length = 16) :
    gid.take 16 ≠ List.replicate 16 0 ↔ ∃ b ∈ gid, b ≠ 0 := by
  rw [List.take_of_length_le (by omega), Ne, List.eq_replicate_iff]
  simp [hg]

theorem rtrAttr_is_global (remote_props : CmConData) :
    (RdmaVerbs.rtrAttr remote_props).ah_attr.is_global =
      if remote_props.gid.take 16 ≠ List.replicate 16 0 then 1 else 0 := by
  unfold RdmaVerbs.rtrAttr
  by_cases hz : remote_props.gid.take 16 ≠ List.replicate 16 0
  · rw [if_pos hz, if_pos hz]
  · rw [if_neg hz, if_neg hz]

theorem rtrAttr_grh (remote_props : CmConData)
    (hz : remote_props.gid.take 16 ≠ List.replicate 16 0) :
    (RdmaVerbs.rtrAttr remote_props).ah_attr.grh.dgid = remote_props.gid.take 16 ∧
      (RdmaVerbs.rtrAttr remote_props).ah_attr.grh.hop_limit = 1 := by
  unfold RdmaVerbs.rtrAttr
  rw [if_pos hz]
  exact ⟨rfl, rfl⟩

theorem rtrAttr_dest (remote_props : CmConData) :
    (RdmaVerbs.rtrAttr remote_props).ah_attr.dlid = remote_props.lid ∧
      (RdmaVerbs.rtrAttr remote_props).dest_qp_num = remote_props.qp_num := by
  unfold RdmaVerbs.rtrAttr
  split <;> exact ⟨rfl, rfl⟩

/-- C16. When the exchange succeeds and the peer sent the record `d`, the
attributes `modifyQpToRtr` passes to `ibv_modify_qp` are built from `d` as
decoded: `is_global` is 1 if and only if one of the 16 gid bytes of `d` is
non-zero, and then the destination GID is the gid of `d` byte for byte and the
hop limit is 1; otherwise `is_global` is 0. In both cases the destination LID
is the lid of `d` and the destination queue-pair number is the queue-pair
number of `d`. -/
theorem C16_rtr_addressing (env : VerbsEnv) (hpu : HpuManager) (s : RdmaVerbs)
    (d : CmConData) (peerLittleEndian : Bool) (hd : d.wf)
    (hdata : env.read_record_data = (d.hton peerLittleEndian).toMemBytes peerLittleEndian)
    (hok : (RdmaVerbs.exchangeConnectionData env hpu s).2 = true) :
    (RdmaVerbs.exchangeConnectionData env hpu s).1.remote_props = d ∧
      (RdmaVerbs.modifyQpToRtr env (RdmaVerbs.exchangeConnectionData env hpu s).1).1.trace =
        (RdmaVerbs.exchangeConnectionData env hpu s).1.trace ++
          [.ibv_modify_qp (RdmaVerbs.rtrAttr d) RdmaVerbs.rtrMask] ∧
      ((RdmaVerbs.rtrAttr d).ah_attr.is_global = 1 ↔ ∃ b ∈ d.gid, b ≠ 0) ∧
      ((RdmaVerbs.rtrAttr d).ah_attr.is_global = 0 ↔ ∀ b ∈ d.gid, b = 0) ∧
      ((RdmaVerbs.rtrAttr d).ah_attr.is_global = 1 →
        (RdmaVerbs.rtrAttr d).ah_attr.grh.dgid = d.gid ∧
          (RdmaVerbs.rtrAttr d).ah_attr.grh.hop_limit = 1) ∧
      (RdmaVerbs.rtrAttr d).ah_attr.dlid = d.lid ∧
      (RdmaVerbs.rtrAttr d).dest_qp_num = d.qp_num := by
  obtain ⟨hw, hr, _, _⟩ := (exchange_result env hpu s).mp hok
  have hrp := exchange_remote_props env hpu s d peerLittleEndian hd hdata hw hr
  have hg : d.gid.length = 16 := hd.2.2.2.2.1
  have hnz := gid_nonzero_iff d.gid hg
  have hall : (∀ b ∈ d.gid, b = 0) ↔ ¬ ∃ b ∈ d.gid, b ≠ 0 := by
    constructor
    · rintro h ⟨b, hb, hne⟩
      exact hne (h b hb)
    · intro h b hb
      by_contra hne
      exact h ⟨b, hb, hne⟩
  refine ⟨hrp, ?_, ?_, ?_, ?_, (rtrAttr_dest d).1, (rtrAttr_dest d).2⟩
  · simp [RdmaVerbs.modifyQpToRtr, RdmaVerbs.call, hrp]
  · rw [rtrAttr_is_global, ← hnz]
    by_cases hz : d.gid.take 16 ≠ List.replicate 16 0
    · rw [if_pos hz]
      exact ⟨fun _ => hz, fun _ => rfl⟩
    · rw [if_neg hz]
      exact ⟨fun h => absurd h (by decide), fun h => absurd h hz⟩
  · rw [rtrAttr_is_global, hall, ← hnz]
    by_cases hz : d.gid.take 16 ≠ List.replicate 16 0
    · rw [if_pos hz]
      exact ⟨fun h => absurd h (by decide), fun h => absurd hz h⟩
    · rw [if_neg hz]
      exact ⟨fun _ => hz, fun _ => rfl⟩
  · intro hglob
    rw [rtrAttr_is_global] at hglob
    by_cases hz : d.gid.take 16 ≠ List.replicate 16 0
    · obtain ⟨h1, h2⟩ := rtrAttr_grh d hz
      rw [h1]
      exact ⟨List.take_of_length_le (by omega), h2⟩
    · rw [if_neg hz] at hglob
      exact absurd hglob (by decide)

/-- C16, on the exchange in which the peer sends a record with a non-zero gid:
global routing with that gid and hop limit 1, destination lid 3 and
destination queue pair 7. -/
theorem C16_rtr_addressing_witness :
    routedRecord.wf ∧
      routedEnv.read_record_data = (routedRecord.hton false).toMemBytes false ∧
      (RdmaVerbs.exchangeConnectionData routedEnv hostHandle readyVerbs).2 = true ∧
      (RdmaVerbs.exchangeConnectionData routedEnv hostHandle readyVerbs).1.remote_props =
        routedRecord ∧
      (RdmaVerbs.rtrAttr routedRecord).ah_attr.is_global = 1 ∧
      (RdmaVerbs.rtrAttr routedRecord).ah_attr.grh.dgid =
        [0xfe, 0x80, 0, 0, 0, 0, 0, 0, 0, 0, 0, 0, 0, 0, 0, 1] ∧
      (RdmaVerbs.rtrAttr routedRecord).ah_attr.grh.hop_limit = 1 ∧
      (RdmaVerbs.rtrAttr routedRecord).ah_attr.dlid = 3 ∧
      (RdmaVerbs.rtrAttr routedRecord).dest_qp_num = 7 :=
  ⟨by decide, rfl, rfl,
    (C16_rtr_addressing routedEnv hostHandle readyVerbs routedRecord false (by decide) rfl
      rfl).1,
    by decide, rfl, rfl, rfl, rfl⟩

/-! ## Release of the buffer handle: C13, C14, C18 -/

theorem tryOpenLoop_failed (env : HpuEnv) (ds : List DeviceName) (h : HpuManager)
    (hneg : h.gaudi_fd < 0 ∨ ds ≠ []) (hf : (HpuManager.tryOpenLoop env ds h).2 = false) :
    (HpuManager.tryOpenLoop env ds h).1.gaudi_fd < 0 := by
  induction ds generalizing h with
  | nil =>
    rcases hneg with hneg | hneg
    · simpa [HpuManager.tryOpenLoop] using hneg
    · exact absurd rfl hneg
  | cons d ds ih =>
    by_cases hd : env.hlthunk_open d ≥ 0
    · simp [HpuManager.tryOpenLoop, HpuManager.call, hd] at hf
    · have e : HpuManager.tryOpenLoop env (d :: ds) h =
          HpuManager.tryOpenLoop env ds
            ({ h.call (.hlthunk_open d) with gaudi_fd := env.hlthunk_open d }) := by
        simp [HpuManager.tryOpenLoop, HpuManager.call, hd]
      rw [e] at hf ⊢
      exact ih _ (Or.inl (by simpa using hd)) hf

/-- The two ways `tryOpenGaudiDevice` ends: with a non-negative descriptor and
the value true, or with a negative one and the value false; it changes nothing
else and makes only `hlthunk_open` calls. -/
theorem tryOpenGaudiDevice_cases (env : HpuEnv) (h : HpuManager) :
    ∃ fd opens, (∀ c ∈ opens, c.isOpen = true) ∧
      ((fd ≥ 0 ∧ HpuManager.tryOpenGaudiDevice env h =
          ({ h with gaudi_fd := fd, trace := h.trace ++ opens }, true)) ∨
        (fd < 0 ∧ HpuManager.tryOpenGaudiDevice env h =
          ({ h with gaudi_fd := fd, trace := h.trace ++ opens }, false))) := by
  obtain ⟨fd, opens, h1, h2, h3, _⟩ := tryOpenLoop_spec env
    [.HLTHUNK_DEVICE_GAUDI3, .HLTHUNK_DEVICE_GAUDI2, .HLTHUNK_DEVICE_GAUDI,
      .HLTHUNK_DEVICE_DONT_CARE] h
  refine ⟨fd, opens, h2, ?_⟩
  unfold HpuManager.tryOpenGaudiDevice
  cases hr : (HpuManager.tryOpenLoop env
      [.HLTHUNK_DEVICE_GAUDI3, .HLTHUNK_DEVICE_GAUDI2, .HLTHUNK_DEVICE_GAUDI,
        .HLTHUNK_DEVICE_DONT_CARE] h).2
  · right
    have hlt := tryOpenLoop_failed env _ h (Or.inr (by simp)) hr
    rw [h1] at hlt
    exact ⟨hlt, Prod.ext h1 hr⟩
  · left
    exact ⟨h3 hr, Prod.ext h1 hr⟩

theorem tryOpenLoop_congr (env env' : HpuEnv) (ho : env'.hlthunk_open = env.hlthunk_open)
    (ds : List DeviceName) (h : HpuManager) :
    HpuManager.tryOpenLoop env' ds h = HpuManager.tryOpenLoop env ds h := by
  induction ds generalizing h with
  | nil => rfl
  | cons d ds ih => simp only [HpuManager.tryOpenLoop, ho, ih]

/-- What `HpuManager::cleanup` does, in closed form: the calls are
`cleanupCalls`, the descriptor fields end negative, the buffer pointer and the
memory handle end null. -/
theorem hpu_cleanup_eq (h : HpuManager) :
    HpuManager.cleanup h =
      { gaudi_fd := if h.gaudi_fd ≥ 0 then -1 else h.gaudi_fd
        dmabuf_fd := if h.dmabuf_fd ≥ 0 then -1 else h.dmabuf_fd
        gaudi_handle := 0
        device_va := if h.gaudi_handle ≠ 0 then 0 else h.device_va
        host_device_va := h.host_device_va
        buffer := 0
        buffer_size := h.buffer_size
        trace := h.trace ++ h.cleanupCalls } := by
  unfold HpuManager.cleanup HpuManager.cleanupCalls
  by_cases h1 : h.dmabuf_fd ≥ 0 <;> by_cases h2 : h.buffer = 0 <;>
  by_cases h3 : h.host_device_va = 0 <;> by_cases h4 : h.gaudi_fd ≥ 0 <;>
  by_cases h5 : h.gaudi_handle = 0 <;> by_cases h6 : h.device_va = 0 <;>
  simp [h1, h2, h3, h4, h5, h6, HpuManager.call, not_le.mp, lt_of_not_ge]

/-- The state a `cleanup` left has nothing to release. -/
theorem cleanupCalls_cleanup (h : HpuManager) : (HpuManager.cleanup h).cleanupCalls = [] := by
  rw [hpu_cleanup_eq]
  unfold HpuManager.cleanupCalls
  by_cases h1 : h.dmabuf_fd ≥ 0 <;> by_cases h4 : h.gaudi_fd ≥ 0 <;> simp [h1, h4]

/-- `HpuManager::cleanup` run on the state a `cleanup` left makes no call and
changes nothing. -/
theorem hpu_cleanup_idempotent (h : HpuManager) :
    HpuManager.cleanup (HpuManager.cleanup h) = HpuManager.cleanup h := by
  have e := hpu_cleanup_eq (HpuManager.cleanup h)
  rw [cleanupCalls_cleanup] at e
  rw [e, hpu_cleanup_eq h]
  by_cases h1 : h.dmabuf_fd ≥ 0 <;> by_cases h4 : h.gaudi_fd ≥ 0 <;> simp [h1, h4]

/-- `HpuManager::cleanup` never calls `munmap`: when it tests
`buffer_ && dmabuf_fd_ < 0` the descriptor field is negative already. -/
theorem hpu_cleanup_no_munmap (h : HpuManager) :
    ((HpuManager.cleanup h).trace.drop h.trace.length).filter HpuCall.isMunmap = [] := by
  rw [hpu_cleanup_eq]
  simp only [List.drop_left]
  unfold HpuManager.cleanupCalls
  by_cases h1 : h.dmabuf_fd ≥ 0 <;> by_cases h2 : h.buffer = 0 <;>
  by_cases h3 : h.host_device_va ≠ 0 ∧ h.gaudi_fd ≥ 0 <;> by_cases h4 : h.gaudi_fd ≥ 0 <;>
  by_cases h5 : h.gaudi_handle = 0 <;> by_cases h6 : h.device_va = 0 <;>
  simp [h1, h2, h3, h4, h5, h6, HpuCall.isMunmap]

theorem opens_filter_isBufferRelease (opens : List HpuCall)
    (ho : ∀ c ∈ opens, c.isOpen = true) : opens.filter HpuCall.isBufferRelease = [] := by
  rw [List.filter_eq_nil_iff]
  intro c hc
  have := ho c hc
  cases c <;> simp_all [HpuCall.isOpen, HpuCall.isBufferRelease]

/-- The release calls of a whole life of the handle, `initialize` on a new
object followed by the `cleanup` of the destructor: no release call occurs
twice, and at most one call releases the buffer. -/
theorem lifetime_releases (env : HpuEnv) (size : Nat)
    (hva : env.hlthunk_host_memory_map = env.hlthunk_device_memory_map →
      env.hlthunk_host_memory_map = 0) :
    ((HpuManager.cleanup (HpuManager.initializeHpu env size HpuManager.fresh).1).trace.filter
        HpuCall.isRelease).Nodup ∧
      ((HpuManager.cleanup (HpuManager.initializeHpu env size HpuManager.fresh).1).trace.filter
        HpuCall.isBufferRelease).length ≤ 1 := by
  obtain ⟨fd, opens, ho, hc⟩ := tryOpenGaudiDevice_cases env
    { HpuManager.fresh with buffer_size := size }
  simp only [HpuManager.fresh, List.nil_append] at hc
  rw [hpu_cleanup_eq]
  -- every branch below is closed by the same `simp` call; the names it uses are bound
  -- here and replaced by the outcome of a call where the branch decides it
  have hinfo : True := trivial
  have halloc : True := trivial
  have hmap : True := trivial
  have hexp : True := trivial
  have hal : True := trivial
  have hmm : True := trivial
  have hhm : True := trivial
  rcases hc with ⟨hfd, he⟩ | ⟨hfd, he⟩
  · clear hinfo
    by_cases hinfo : env.hlthunk_get_hw_ip_info = 0
    · clear halloc
      by_cases halloc : env.hlthunk_device_memory_alloc = 0
      · clear hal
        by_cases hal : env.aligned_alloc = 0 <;>
        simp [HpuManager.initializeHpu, he, hinfo, halloc, hmap, hexp, hal, hmm, hhm, hfd, hpu_cleanup_eq,
      HpuManager.allocateDeviceMemory, HpuManager.mapDeviceMemory, HpuManager.exportDmabuf,
      HpuManager.allocateHostMemory, HpuManager.mapHostMemoryToGaudi,
      HpuManager.cleanupCalls, HpuManager.call, HpuManager.fresh, List.filter_append,
      opens_filter_isRelease opens ho, opens_filter_isBufferRelease opens ho,
      HpuCall.isRelease, HpuCall.isBufferRelease]
      · clear hmap
        by_cases hmap : env.hlthunk_device_memory_map = 0
        · simp [HpuManager.initializeHpu, he, hinfo, halloc, hmap, hexp, hal, hmm, hhm, hfd, hpu_cleanup_eq,
      HpuManager.allocateDeviceMemory, HpuManager.mapDeviceMemory, HpuManager.exportDmabuf,
      HpuManager.allocateHostMemory, HpuManager.mapHostMemoryToGaudi,
      HpuManager.cleanupCalls, HpuManager.call, HpuManager.fresh, List.filter_append,
      opens_filter_isRelease opens ho, opens_filter_isBufferRelease opens ho,
      HpuCall.isRelease, HpuCall.isBufferRelease]
        · clear hexp
          by_cases hexp : env.hlthunk_export_dmabuf_fd ≥ 0
          · clear hmm
            by_cases hmm : env.mmap = MAP_FAILED
            · simp [HpuManager.initializeHpu, he, hinfo, halloc, hmap, hexp, hal, hmm, hhm, hfd, hpu_cleanup_eq,
      HpuManager.allocateDeviceMemory, HpuManager.mapDeviceMemory, HpuManager.exportDmabuf,
      HpuManager.allocateHostMemory, HpuManager.mapHostMemoryToGaudi,
      HpuManager.cleanupCalls, HpuManager.call, HpuManager.fresh, List.filter_append,
      opens_filter_isRelease opens ho, opens_filter_isBufferRelease opens ho,
      HpuCall.isRelease, HpuCall.isBufferRelease]
            · clear hal
              by_cases hal : env.mmap = 0 <;>
              simp [HpuManager.initializeHpu, he, hinfo, halloc, hmap, hexp, hal, hmm, hhm, hfd, hpu_cleanup_eq,
      HpuManager.allocateDeviceMemory, HpuManager.mapDeviceMemory, HpuManager.exportDmabuf,
      HpuManager.allocateHostMemory, HpuManager.mapHostMemoryToGaudi,
      HpuManager.cleanupCalls, HpuManager.call, HpuManager.fresh, List.filter_append,
      opens_filter_isRelease opens ho, opens_filter_isBufferRelease opens ho,
      HpuCall.isRelease, HpuCall.isBufferRelease]
          · clear hal
            by_cases hal : env.aligned_alloc = 0
            · simp [HpuManager.initializeHpu, he, hinfo, halloc, hmap, hexp, hal, hmm, hhm, hfd, hpu_cleanup_eq,
      HpuManager.allocateDeviceMemory, HpuManager.mapDeviceMemory, HpuManager.exportDmabuf,
      HpuManager.allocateHostMemory, HpuManager.mapHostMemoryToGaudi,
      HpuManager.cleanupCalls, HpuManager.call, HpuManager.fresh, List.filter_append,
      opens_filter_isRelease opens ho, opens_filter_isBufferRelease opens ho,
      HpuCall.isRelease, HpuCall.isBufferRelease]
            · clear hhm
              by_cases hhm : env.hlthunk_host_memory_map = 0
              · simp [HpuManager.initializeHpu, he, hinfo, halloc, hmap, hexp, hal, hmm, hhm, hfd, hpu_cleanup_eq,
      HpuManager.allocateDeviceMemory, HpuManager.mapDeviceMemory, HpuManager.exportDmabuf,
      HpuManager.allocateHostMemory, HpuManager.mapHostMemoryToGaudi,
      HpuManager.cleanupCalls, HpuManager.call, HpuManager.fresh, List.filter_append,
      opens_filter_isRelease opens ho, opens_filter_isBufferRelease opens ho,
      HpuCall.isRelease, HpuCall.isBufferRelease]
              · have hne : ¬ env.hlthunk_host_memory_map = env.hlthunk_device_memory_map :=
                  fun h => hhm (hva h)
                simp [HpuManager.initializeHpu, he, hinfo, halloc, hmap, hexp, hal, hmm, hhm, hne, hfd, hpu_cleanup_eq,
      HpuManager.allocateDeviceMemory, HpuManager.mapDeviceMemory, HpuManager.exportDmabuf,
      HpuManager.allocateHostMemory, HpuManager.mapHostMemoryToGaudi,
      HpuManager.cleanupCalls, HpuManager.call, HpuManager.fresh, List.filter_append,
      opens_filter_isRelease opens ho, opens_filter_isBufferRelease opens ho,
      HpuCall.isRelease, HpuCall.isBufferRelease]
    · simp [HpuManager.initializeHpu, he, hinfo, halloc, hmap, hexp, hal, hmm, hhm, hfd, hpu_cleanup_eq,
      HpuManager.allocateDeviceMemory, HpuManager.mapDeviceMemory, HpuManager.exportDmabuf,
      HpuManager.allocateHostMemory, HpuManager.mapHostMemoryToGaudi,
      HpuManager.cleanupCalls, HpuManager.call, HpuManager.fresh, List.filter_append,
      opens_filter_isRelease opens ho, opens_filter_isBufferRelease opens ho,
      HpuCall.isRelease, HpuCall.isBufferRelease]
  · have hfd' : ¬ fd ≥ 0 := not_le.mpr hfd
    clear hal
    by_cases hal : env.aligned_alloc = 0 <;>
    simp [HpuManager.initializeHpu, he, hinfo, halloc, hmap, hexp, hal, hmm, hhm, hfd, hfd', hpu_cleanup_eq,
      HpuManager.allocateDeviceMemory, HpuManager.mapDeviceMemory, HpuManager.exportDmabuf,
      HpuManager.allocateHostMemory, HpuManager.mapHostMemoryToGaudi,
      HpuManager.cleanupCalls, HpuManager.call, HpuManager.fresh, List.filter_append,
      opens_filter_isRelease opens ho, opens_filter_isBufferRelease opens ho,
      HpuCall.isRelease, HpuCall.isBufferRelease]

/-- C13. Over the whole life of a handle, that is `initialize` on a new object
(with any `cleanup` it runs on a failure path) followed by the `cleanup` of
the destructor, for every buffer size and every combination of outcomes of the
external calls, no release call is made twice (the descriptor and the device
are closed at most once, no buffer, mapping or device allocation is freed or
unmapped twice) and at most one call releases the buffer; and `cleanup` is
idempotent: on the state a `cleanup` left it has nothing to release, makes no
call and changes nothing. The two device mappings of a handle are assumed to
have different addresses. -/
theorem C13_release_once (env : HpuEnv) (size : Nat)
    (hva : env.hlthunk_host_memory_map = env.hlthunk_device_memory_map →
      env.hlthunk_host_memory_map = 0) :
    ((HpuManager.cleanup (HpuManager.initializeHpu env size HpuManager.fresh).1).trace.filter
        HpuCall.isRelease).Nodup ∧
      ((HpuManager.cleanup (HpuManager.initializeHpu env size HpuManager.fresh).1).trace.filter
        HpuCall.isBufferRelease).length ≤ 1 ∧
      (∀ h : HpuManager, (HpuManager.cleanup h).cleanupCalls = []) ∧
      (∀ h : HpuManager, HpuManager.cleanup (HpuManager.cleanup h) = HpuManager.cleanup h) :=
  ⟨(lifetime_releases env size hva).1, (lifetime_releases env size hva).2,
    cleanupCalls_cleanup, hpu_cleanup_idempotent⟩

/-- C13, on an accelerator whose export fails, so that the handle ends with a
host buffer mapped into the device next to the device memory: the destructor
releases both mappings, the buffer, the device memory and the device, each
once. -/
theorem C13_release_once_witness :
    (hostMappedEnv.hlthunk_host_memory_map = hostMappedEnv.hlthunk_device_memory_map →
        hostMappedEnv.hlthunk_host_memory_map = 0) ∧
      (HpuManager.cleanup (HpuManager.initializeHpu hostMappedEnv 4096
          HpuManager.fresh).1).trace.filter HpuCall.isRelease =
        [.hlthunk_memory_unmap 3 0x3000, .free 0x1000, .hlthunk_memory_unmap 3 0x2000,
          .hlthunk_device_memory_free 3 7, .hlthunk_close 3] ∧
      ((HpuManager.cleanup (HpuManager.initializeHpu hostMappedEnv 4096
          HpuManager.fresh).1).trace.filter HpuCall.isRelease).Nodup :=
  ⟨by decide, rfl, (C13_release_once hostMappedEnv 4096 (by decide)).1⟩

/-- What `initialize` does when the device opens and reports its capabilities
but has no device memory to allocate. -/
theorem initializeHpu_alloc_fails (env : HpuEnv) (size : Nat) (fd : Int)
    (opens : List HpuCall) (hfd : fd ≥ 0)
    (he : HpuManager.tryOpenGaudiDevice env { HpuManager.fresh with buffer_size := size } =
      ({ HpuManager.fresh with buffer_size := size, gaudi_fd := fd, trace := opens }, true))
    (hinfo : env.hlthunk_get_hw_ip_info = 0) (halloc : env.hlthunk_device_memory_alloc = 0) :
    HpuManager.initializeHpu env size HpuManager.fresh =
      ({ HpuManager.fresh with
          buffer_size := size
          buffer := env.aligned_alloc
          trace := opens ++
            [.hlthunk_get_hw_ip_info fd, .hlthunk_device_memory_alloc fd size,
              .hlthunk_close fd, .aligned_alloc 4096 size] ++
            if env.aligned_alloc = 0 then [] else [.memset env.aligned_alloc size] },
        if env.aligned_alloc = 0 then .error "Failed to allocate host memory" else .ok ()) := by
  simp only [HpuManager.fresh] at he
  by_cases hal : env.aligned_alloc = 0 <;>
  simp [HpuManager.initializeHpu, he, hinfo, halloc, hal, hfd, hpu_cleanup_eq,
    HpuManager.allocateDeviceMemory, HpuManager.allocateHostMemory,
    HpuManager.cleanupCalls, HpuManager.call, HpuManager.fresh]

theorem opens_filter_isDeviceMap (opens : List HpuCall) (ho : ∀ c ∈ opens, c.isOpen = true) :
    opens.filter HpuCall.isDeviceMap = [] := by
  rw [List.filter_eq_nil_iff]
  intro c hc
  have := ho c hc
  cases c <;> simp_all [HpuCall.isOpen, HpuCall.isDeviceMap]

/-- C14. When a device opens and reports its capabilities but the allocation of
device memory fails, `initialize` closes the device and goes to the
page-aligned host allocation; it makes no call to map device memory and none
to export a descriptor. It returns normally exactly when the host allocation
succeeds, and then the handle has no descriptor (fd < 0), a zero device VA and
a non-null host pointer; otherwise it throws "Failed to allocate host memory".
What it does depends on the outcomes of the opens, of the capability query and
of the two allocations only: on any environment with the same such outcomes
the result, the handle and the sequence of calls are the same. -/
theorem C14_alloc_failure_routes_to_host (env : HpuEnv) (size : Nat)
    (hopen : ∃ d, env.hlthunk_open d ≥ 0)
    (hinfo : env.hlthunk_get_hw_ip_info = 0)
    (halloc : env.hlthunk_device_memory_alloc = 0) :
    (HpuManager.initializeHpu env size HpuManager.fresh).1.trace.filter HpuCall.isDeviceMap = [] ∧
      (HpuManager.initializeHpu env size HpuManager.fresh).1.trace.filter HpuCall.isExport = [] ∧
      (HpuManager.initializeHpu env size HpuManager.fresh).1.trace.filter HpuCall.isHostAlloc =
        [.aligned_alloc 4096 size] ∧
      ((HpuManager.initializeHpu env size HpuManager.fresh).2 = .ok () ↔
        env.aligned_alloc ≠ 0) ∧
      (HpuManager.initializeHpu env size HpuManager.fresh).2 =
        (if env.aligned_alloc = 0 then .error "Failed to allocate host memory" else .ok ()) ∧
      (HpuManager.initializeHpu env size HpuManager.fresh).1.getDmabufFd < 0 ∧
      (HpuManager.initializeHpu env size HpuManager.fresh).1.getDeviceVa = 0 ∧
      (HpuManager.initializeHpu env size HpuManager.fresh).1.getBuffer = env.aligned_alloc ∧
      (∀ env' : HpuEnv, env'.hlthunk_open = env.hlthunk_open →
        env'.hlthunk_get_hw_ip_info = env.hlthunk_get_hw_ip_info →
        env'.hlthunk_device_memory_alloc = env.hlthunk_device_memory_alloc →
        env'.aligned_alloc = env.aligned_alloc →
        HpuManager.initializeHpu env' size HpuManager.fresh =
          HpuManager.initializeHpu env size HpuManager.fresh) := by
  obtain ⟨fd, opens, hfd, ho, he⟩ := tryOpenGaudiDevice_opened env
    { HpuManager.fresh with buffer_size := size } hopen
  have he0 : HpuManager.tryOpenGaudiDevice env { HpuManager.fresh with buffer_size := size } =
      ({ HpuManager.fresh with buffer_size := size, gaudi_fd := fd, trace := opens }, true) := by
    rw [he]
    simp [HpuManager.fresh]
  have e := initializeHpu_alloc_fails env size fd opens hfd he0 hinfo halloc
  refine ⟨?_, ?_, ?_, ?_, ?_, ?_, ?_, ?_, ?_⟩
  · rw [e]
    by_cases hal : env.aligned_alloc = 0 <;>
    simp [hal, List.filter_append, opens_filter_isDeviceMap opens ho, HpuCall.isDeviceMap]
  · rw [e]
    by_cases hal : env.aligned_alloc = 0 <;>
    simp [hal, List.filter_append, opens_filter_isExport opens ho, HpuCall.isExport]
  · rw [e]
    by_cases hal : env.aligned_alloc = 0 <;>
    simp [hal, List.filter_append, opens_filter_isHostAlloc opens ho, HpuCall.isHostAlloc]
  · rw [e]
    by_cases hal : env.aligned_alloc = 0 <;> simp [hal]
  · rw [e]
  · rw [e]
    simp [HpuManager.getDmabufFd, HpuManager.fresh]
  · rw [e]
    rfl
  · rw [e]
    rfl
  · intro env' h1 h2 h3 h4
    have he' : HpuManager.tryOpenGaudiDevice env' { HpuManager.fresh with buffer_size := size } =
        ({ HpuManager.fresh with buffer_size := size, gaudi_fd := fd, trace := opens }, true) := by
      rw [← he0]
      exact tryOpenLoop_congr env env' h1 _ _
    rw [e, initializeHpu_alloc_fails env' size fd opens hfd he' (by rw [h2, hinfo])
      (by rw [h3, halloc]), h4]

/-- C14, on an accelerator without device memory to allocate: the host buffer
is allocated, nothing is mapped or exported. -/
theorem C14_alloc_failure_routes_to_host_witness :
    (∃ d, allocFailsEnv.hlthunk_open d ≥ 0) ∧ allocFailsEnv.hlthunk_get_hw_ip_info = 0 ∧
      allocFailsEnv.hlthunk_device_memory_alloc = 0 ∧
      (HpuManager.initializeHpu allocFailsEnv 4096 HpuManager.fresh).2 = .ok () ∧
      (HpuManager.initializeHpu allocFailsEnv 4096 HpuManager.fresh).1.trace =
        [.hlthunk_open .HLTHUNK_DEVICE_GAUDI3, .hlthunk_get_hw_ip_info 3,
          .hlthunk_device_memory_alloc 3 4096, .hlthunk_close 3, .aligned_alloc 4096 4096,
          .memset 0x1000 4096] ∧
      (HpuManager.initializeHpu allocFailsEnv 4096 HpuManager.fresh).1.trace.filter
          HpuCall.isExport = [] :=
  ⟨⟨.HLTHUNK_DEVICE_GAUDI3, by decide⟩, rfl, rfl, rfl, rfl,
    (C14_alloc_failure_routes_to_host allocFailsEnv 4096 ⟨.HLTHUNK_DEVICE_GAUDI3, by decide⟩
      rfl rfl).2.1⟩

/-- C18 fails on the code. On an accelerator on which every call succeeds,
`initialize` leaves a handle with descriptor 5 and the CPU mapping of that
descriptor at `0x7000`, obtained from `mmap`; the `cleanup` of the destructor
then calls close(5), free(0x7000), unmap of the device VA, free of the device
memory and close of the device: the mapped buffer is passed to `free`, not to
`munmap`. No state makes `cleanup` call `munmap`. -/
theorem C18_mapped_buffer_is_freed :
    (HpuManager.initializeHpu deviceEnv RDMA_BUFFER_SIZE HpuManager.fresh).2 = .ok () ∧
      (HpuManager.initializeHpu deviceEnv RDMA_BUFFER_SIZE HpuManager.fresh).1.trace =
        [.hlthunk_open .HLTHUNK_DEVICE_GAUDI3, .hlthunk_get_hw_ip_info 3,
          .hlthunk_device_memory_alloc 3 RDMA_BUFFER_SIZE, .hlthunk_device_memory_map 3 7,
          .hlthunk_export_dmabuf_fd 3 0x2000 RDMA_BUFFER_SIZE, .mmap RDMA_BUFFER_SIZE 5] ∧
      (HpuManager.initializeHpu deviceEnv RDMA_BUFFER_SIZE HpuManager.fresh).1.getDmabufFd = 5 ∧
      (HpuManager.initializeHpu deviceEnv RDMA_BUFFER_SIZE HpuManager.fresh).1.getBuffer =
        0x7000 ∧
      (HpuManager.cleanup
          (HpuManager.initializeHpu deviceEnv RDMA_BUFFER_SIZE HpuManager.fresh).1).trace.filter
          HpuCall.isRelease =
        [.close 5, .free 0x7000, .hlthunk_memory_unmap 3 0x2000,
          .hlthunk_device_memory_free 3 7, .hlthunk_close 3] ∧
      (∀ h : HpuManager,
        ((HpuManager.cleanup h).trace.drop h.trace.length).filter HpuCall.isMunmap = []) :=
  ⟨rfl, rfl, rfl, rfl, rfl, hpu_cleanup_no_munmap⟩

/-! ## Teardown of the transport and the advertised address: C12, C17 -/

/-- `RdmaVerbs::cleanup` run on the state a `cleanup` left makes no call and
changes nothing. -/
theorem verbs_cleanup_idempotent (s : RdmaVerbs) :
    RdmaVerbs.cleanup (RdmaVerbs.cleanup s) = RdmaVerbs.cleanup s := by
  obtain ⟨ctx, pd, mr, cq, qp, pa, rp, sock, tr⟩ := s
  cases ctx <;> cases pd <;> cases mr <;> cases cq <;> cases qp <;>
  by_cases hs : sock ≥ 0 <;> simp [RdmaVerbs.cleanup, RdmaVerbs.call, hs]

/-- C12 fails on the code. A client whose `connect` fails after the socket was
created (descriptor 8): `setupSocket` closes the descriptor and leaves it in
`sock_`, `connectQp` throws, and the `cleanup` of the destructor closes
descriptor 8 a second time; every other resource is released once. A second
`cleanup` after a first makes no call, on every state. -/
theorem C12_socket_closed_twice :
    (RdmaVerbs.connectQp connectFailsEnv hostHandle "srv" 20000 readyVerbs).2 =
        .error "Failed to establish TCP connection" ∧
      (RdmaVerbs.connectQp connectFailsEnv hostHandle "srv" 20000 readyVerbs).1.sock = 8 ∧
      (RdmaVerbs.cleanup
          (RdmaVerbs.connectQp connectFailsEnv hostHandle "srv" 20000 readyVerbs).1).trace.drop
          readyVerbs.trace.length =
        [.getaddrinfo (some "srv") "20000", .socket, .connect 8, .close 8, .freeaddrinfo,
          .ibv_destroy_qp 6, .ibv_dereg_mr 5, .ibv_destroy_cq 3, .ibv_dealloc_pd 2,
          .ibv_close_device 1, .close 8] ∧
      (RdmaVerbs.cleanup
          (RdmaVerbs.connectQp connectFailsEnv hostHandle "srv" 20000 readyVerbs).1).trace.count
          (.close 8) = 2 ∧
      (∀ s : RdmaVerbs, RdmaVerbs.cleanup (RdmaVerbs.cleanup s) = RdmaVerbs.cleanup s) :=
  ⟨rfl, rfl, rfl, by decide, verbs_cleanup_idempotent⟩

/-- C17 fails on the code. A handle with descriptor 5, device VA `0x2000` and
CPU mapping at `0x7000`; the registration through the descriptor fails and the
fallback registration of the pointer succeeds, so `initialize` succeeds with
the region registered under the base `0x7000`. `postSend` and `postReceive`
nevertheless put the device VA `0x2000` in the scatter-gather element and
`exchangeConnectionData` advertises `0x2000`: the address is chosen by
`fd >= 0` alone, whatever registration is in use. -/
theorem C17_address_ignores_the_registration_in_use :
    (RdmaVerbs.initializeVerbs dmabufRegFailsEnv "" deviceHandle RdmaVerbs.fresh).2 = .ok () ∧
      (RdmaVerbs.initializeVerbs dmabufRegFailsEnv "" deviceHandle RdmaVerbs.fresh).1.mr =
        dmabufRegFailsEnv.ibv_reg_mr ∧
      (RdmaVerbs.initializeVerbs dmabufRegFailsEnv "" deviceHandle
          RdmaVerbs.fresh).1.trace.filterMap VerbsCall.registeredBase? = [0x2000, 0x7000] ∧
      (RdmaVerbs.initializeVerbs dmabufRegFailsEnv "" deviceHandle
          RdmaVerbs.fresh).1.trace.getLast? =
        some (.ibv_create_qp 1 1 1 1 1) ∧
      (RdmaVerbs.initializeVerbs dmabufRegFailsEnv "" deviceHandle RdmaVerbs.fresh).1.trace.filter
          (fun c => c.registeredBase?.isSome) =
        [.ibv_reg_dmabuf_mr 0 RDMA_BUFFER_SIZE 0x2000 5 RdmaVerbs.mr_flags,
          .ibv_reg_mr 0x7000 RDMA_BUFFER_SIZE RdmaVerbs.mr_flags] ∧
      (RdmaVerbs.buildSge deviceHandle
          (RdmaVerbs.initializeVerbs dmabufRegFailsEnv "" deviceHandle
            RdmaVerbs.fresh).1).addr = 0x2000 ∧
      (RdmaVerbs.buildSendWr deviceHandle IBV_WR_SEND
          (RdmaVerbs.initializeVerbs dmabufRegFailsEnv "" deviceHandle
            RdmaVerbs.fresh).1).sg_list.addr = 0x2000 ∧
      (RdmaVerbs.localValues dmabufRegFailsEnv deviceHandle
          (RdmaVerbs.initializeVerbs dmabufRegFailsEnv "" deviceHandle
            RdmaVerbs.fresh).1).addr = 0x2000 ∧
      (∀ hpu : HpuManager,
        RdmaVerbs.localAddr hpu = if hpu.getDmabufFd ≥ 0 then hpu.getDeviceVa else hpu.getBuffer) :=
  ⟨rfl, rfl, rfl, rfl, rfl, rfl, rfl, rfl, fun _ => rfl⟩

/-! ## Exit codes: C11 -/

theorem raise_ok {α : Type} (phase : Phase) (x : Session) (a : α) :
    Session.raise phase x (Except.ok a : Except String α) = x := rfl

theorem raise_error {α : Type} (phase : Phase) (x : Session) (e : String) :
    (Session.raise phase x (Except.error e : Except String α)).thrown =
      x.thrown ++ [{ phase := phase, what := e }] := rfl

/-- A step that logs its own result under a phase other than the RDMA read
propagates its exceptions. -/
theorem propagates_of_raise (phase : Phase) (hp : phase ≠ Phase.rdmaRead)
    (f : Session → Session × Except String Unit)
    (step : Session → Session) (res : Session → Except String Unit)
    (hf : ∀ x, f x = (Session.raise phase (step x) (res x), res x))
    (hs : ∀ x, (step x).thrown = x.thrown) : Session.Propagates f := by
  intro x
  rw [hf x]
  cases hr : res x with
  | ok u =>
    left
    cases u
    exact ⟨rfl, by rw [raise_ok]; exact hs x⟩
  | error e =>
    right
    exact ⟨phase, e, hp, rfl, by rw [raise_error, hs x]⟩

theorem hpuInitialize_propagates (env : AppEnv) (size : Nat) :
    Session.Propagates (Session.hpuInitialize env size) :=
  propagates_of_raise .acquire (by decide) _
    (fun x => { x with hpu := (HpuManager.initializeHpu env.hpu size x.hpu).1 })
    (fun x => (HpuManager.initializeHpu env.hpu size x.hpu).2) (fun _ => rfl) (fun _ => rfl)

theorem rdmaInitialize_propagates (env : AppEnv) (name : Option String) :
    Session.Propagates (Session.rdmaInitialize env name) :=
  propagates_of_raise .transport (by decide) _
    (fun x => { x with rdma := (RdmaVerbs.initializeVerbs env.verbs (name.getD "") x.hpu
      x.rdma).1 })
    (fun x => (RdmaVerbs.initializeVerbs env.verbs (name.getD "") x.hpu x.rdma).2)
    (fun _ => rfl) (fun _ => rfl)

theorem connectQp_propagates (env : AppEnv) (name : String) (port : Int) :
    Session.Propagates (Session.connectQp env name port) :=
  propagates_of_raise .connect (by decide) _
    (fun x => { x with rdma := (RdmaVerbs.connectQp env.verbs x.hpu name port x.rdma).1 })
    (fun x => (RdmaVerbs.connectQp env.verbs x.hpu name port x.rdma).2)
    (fun _ => rfl) (fun _ => rfl)

theorem postSend_propagates (env : AppEnv) (phase : Phase) (hp : phase ≠ Phase.rdmaRead)
    (opcode : Int) : Session.Propagates (Session.postSend env phase opcode) :=
  propagates_of_raise phase hp _
    (fun x => { x with
      rdma := (RdmaVerbs.postSend { env.verbs with ibv_post_send := env.post_send x.sends }
        x.hpu opcode x.rdma).1
      sends := x.sends + 1 })
    (fun x => (RdmaVerbs.postSend { env.verbs with ibv_post_send := env.post_send x.sends }
      x.hpu opcode x.rdma).2)
    (fun _ => rfl) (fun _ => rfl)

theorem postReceive_propagates (env : AppEnv) (phase : Phase) (hp : phase ≠ Phase.rdmaRead) :
    Session.Propagates (Session.postReceive env phase) :=
  propagates_of_raise phase hp _
    (fun x => { x with
      rdma := (RdmaVerbs.postReceive { env.verbs with ibv_post_recv := env.post_recv x.recvs }
        x.hpu x.rdma).1
      recvs := x.recvs + 1 })
    (fun x => (RdmaVerbs.postReceive { env.verbs with ibv_post_recv := env.post_recv x.recvs }
      x.hpu x.rdma).2)
    (fun _ => rfl) (fun _ => rfl)

theorem pollCompletion_propagates (env : AppEnv) (phase : Phase)
    (hp : phase ≠ Phase.rdmaRead) : Session.Propagates (Session.pollCompletion env phase) :=
  propagates_of_raise phase hp _
    (fun x => { x with polls := x.polls + 1 })
    (fun x =>
      match (RdmaVerbs.pollCompletion (env.poll_cq x.polls) env.ibv_wc_status_str).result with
      | .ok _ => .ok ()
      | .error e => .error e)
    (fun _ => rfl) (fun _ => rfl)

theorem andThen_ok (f g : Session → Session × Except String Unit) (x : Session)
    (h : (f x).2 = .ok ()) : Session.andThen f g x = g (f x).1 := by
  unfold Session.andThen
  rcases hf : f x with ⟨x', r⟩
  rw [hf] at h
  simp only at h
  subst h
  rfl

theorem andThen_error (f g : Session → Session × Except String Unit) (x : Session) (e : String)
    (h : (f x).2 = .error e) : Session.andThen f g x = ((f x).1, .error e) := by
  unfold Session.andThen
  rcases hf : f x with ⟨x', r⟩
  rw [hf] at h
  simp only at h
  subst h
  rfl

/-- A sequence of two propagating steps propagates. -/
theorem andThen_propagates (f g : Session → Session × Except String Unit)
    (hf : Session.Propagates f) (hg : Session.Propagates g) :
    Session.Propagates (Session.andThen f g) := by
  intro x
  rcases hf x with ⟨h1, h2⟩ | ⟨p, msg, hp, h1, h2⟩
  · rw [andThen_ok f g x h1]
    rcases hg (f x).1 with ⟨k1, k2⟩ | ⟨p, msg, hp, k1, k2⟩
    · exact Or.inl ⟨k1, by rw [k2, h2]⟩
    · exact Or.inr ⟨p, msg, hp, k1, by rw [k2, h2]⟩
  · rw [andThen_error f g x msg h1]
    exact Or.inr ⟨p, msg, hp, rfl, h2⟩

theorem iterate_propagates (body : Session → Session × Except String Unit)
    (hb : Session.Propagates body) (n : Nat) : Session.Propagates (Session.iterate body n) := by
  induction n with
  | zero => exact fun x => Or.inl ⟨rfl, rfl⟩
  | succ n ih => exact andThen_propagates _ _ hb ih

theorem client_loop_propagates (env : AppEnv) :
    Session.Propagates (DmabufClient.communicationLoop env) :=
  iterate_propagates _
    (andThen_propagates _ _ (postSend_propagates env .loop (by decide) _)
      (andThen_propagates _ _ (pollCompletion_propagates env .loop (by decide))
        (andThen_propagates _ _ (postReceive_propagates env .loop (by decide))
          (pollCompletion_propagates env .loop (by decide))))) 3

/-- The part of `DmabufClient::run` before the RDMA read propagates its
exceptions. -/
theorem client_setup_propagates (env : AppEnv) (c : DmabufClient)
    (rest : Session → Session × Except String Unit) (hrest : Session.Propagates rest) :
    Session.Propagates
      (Session.andThen (Session.hpuInitialize env c.buffer_size)
        (Session.andThen (Session.rdmaInitialize env c.ib_dev_name)
          (Session.andThen (Session.connectQp env c.server_name c.port)
            (Session.andThen (DmabufClient.communicationLoop env) rest)))) :=
  andThen_propagates _ _ (hpuInitialize_propagates env _)
    (andThen_propagates _ _ (rdmaInitialize_propagates env _)
      (andThen_propagates _ _ (connectQp_propagates env _ _)
        (andThen_propagates _ _ (client_loop_propagates env) hrest)))

/-- The two steps of the RDMA read log their exceptions under the RDMA-read
phase. -/
theorem rdmaRead_steps (env : AppEnv) (x : Session) :
    (Session.andThen (Session.postSend env .rdmaRead IBV_WR_RDMA_READ)
        (Session.pollCompletion env .rdmaRead) x).1.thrown = x.thrown ∨
      ∃ msg,
        (Session.andThen (Session.postSend env .rdmaRead IBV_WR_RDMA_READ)
            (Session.pollCompletion env .rdmaRead) x).1.thrown =
          x.thrown ++ [{ phase := .rdmaRead, what := msg }] := by
  cases h1 : (Session.postSend env .rdmaRead IBV_WR_RDMA_READ x).2 with
  | error e =>
    rw [andThen_error _ _ x e h1]
    right
    refine ⟨e, ?_⟩
    simp only [Session.postSend] at h1 ⊢
    rw [h1]
    rfl
  | ok u =>
    cases u
    rw [andThen_ok _ _ x h1]
    have hx : (Session.postSend env .rdmaRead IBV_WR_RDMA_READ x).1.thrown = x.thrown := by
      simp only [Session.postSend] at h1 ⊢
      rw [h1]
      rfl
    generalize Session.postSend env .rdmaRead IBV_WR_RDMA_READ x = y at hx ⊢
    rw [← hx]
    cases h2 : (Session.pollCompletion env .rdmaRead y.1).2 with
    | error e =>
      right
      refine ⟨e, ?_⟩
      simp only [Session.pollCompletion] at h2 ⊢
      rw [h2]
      rfl
    | ok u =>
      left
      simp only [Session.pollCompletion] at h2 ⊢
      rw [h2]
      rfl

/-- `performRdmaRead` followed by `signalServerDone` returns normally whatever
the RDMA read did, and logs only exceptions of the RDMA-read phase. -/
theorem client_tail (env : AppEnv) (x : Session) :
    (Session.andThen (DmabufClient.performRdmaRead env) DmabufClient.signalServerDone x).2 =
        .ok () ∧
      ∃ l, (Session.andThen (DmabufClient.performRdmaRead env)
          DmabufClient.signalServerDone x).1.thrown = x.thrown ++ l ∧
        ∀ t ∈ l, t.phase = Phase.rdmaRead := by
  have hr : (DmabufClient.performRdmaRead env x).2 = .ok () := rfl
  rw [andThen_ok _ _ x hr]
  refine ⟨rfl, ?_⟩
  have ht : (DmabufClient.signalServerDone (DmabufClient.performRdmaRead env x).1).1.thrown =
      (Session.andThen (Session.postSend env .rdmaRead IBV_WR_RDMA_READ)
        (Session.pollCompletion env .rdmaRead) x).1.thrown := rfl
  rw [ht]
  rcases rdmaRead_steps env x with h | ⟨msg, h⟩
  · exact ⟨[], by rw [h, List.append_nil], by simp⟩
  · exact ⟨[{ phase := .rdmaRead, what := msg }], h, by simp⟩

theorem freesMapping_no_free (t : List HpuCall) (h : t.filter HpuCall.isFree = []) :
    ∀ mapped, HpuCall.freesMapping mapped t = false := by
  induction t with
  | nil => intro _; rfl
  | cons c t ih =>
    have hc : c.isFree = false := by
      by_contra hc
      simp only [Bool.not_eq_false] at hc
      simp [List.filter_cons, hc] at h
    have ht : t.filter HpuCall.isFree = [] := by
      simpa [List.filter_cons, hc] using h
    intro mapped
    have i1 := ih ht mapped
    have i2 := ih ht false
    have i3 := ih ht true
    cases c <;> first
      | (simp [HpuCall.freesMapping, i1, i2, i3]; done)
      | simp [HpuCall.isFree] at hc

theorem freesMapping_no_mmap (t : List HpuCall) (h : t.filter HpuCall.isMmap = []) :
    HpuCall.freesMapping false t = false := by
  induction t with
  | nil => rfl
  | cons c t ih =>
    have hc : c.isMmap = false := by
      by_contra hc
      simp only [Bool.not_eq_false] at hc
      simp [List.filter_cons, hc] at h
    have ht : t.filter HpuCall.isMmap = [] := by
      simpa [List.filter_cons, hc] using h
    have i1 := ih ht
    cases c <;> first
      | (simp [HpuCall.freesMapping, i1]; done)
      | simp [HpuCall.isMmap] at hc

theorem opens_filter_isFree (opens : List HpuCall) (ho : ∀ c ∈ opens, c.isOpen = true) :
    opens.filter HpuCall.isFree = [] := by
  rw [List.filter_eq_nil_iff]
  intro c hc
  have := ho c hc
  cases c <;> simp_all [HpuCall.isOpen, HpuCall.isFree]

theorem opens_filter_isMmap (opens : List HpuCall) (ho : ∀ c ∈ opens, c.isOpen = true) :
    opens.filter HpuCall.isMmap = [] := by
  rw [List.filter_eq_nil_iff]
  intro c hc
  have := ho c hc
  cases c <;> simp_all [HpuCall.isOpen, HpuCall.isMmap]

/-- `initialize` on a new object never calls `free`. -/
theorem initializeHpu_no_free (env : HpuEnv) (size : Nat) :
    (HpuManager.initializeHpu env size HpuManager.fresh).1.trace.filter HpuCall.isFree = [] := by
  obtain ⟨fd, opens, ho, hc⟩ := tryOpenGaudiDevice_cases env
    { HpuManager.fresh with buffer_size := size }
  simp only [HpuManager.fresh, List.nil_append] at hc
  -- every branch below is closed by the same `simp` call; the names it uses are bound
  -- here and replaced by the outcome of a call where the branch decides it
  have hinfo : True := trivial
  have halloc : True := trivial
  have hmap : True := trivial
  have hexp : True := trivial
  have hal : True := trivial
  have hmm : True := trivial
  have hhm : True := trivial
  rcases hc with ⟨hfd, he⟩ | ⟨hfd, he⟩
  · clear hinfo
    by_cases hinfo : env.hlthunk_get_hw_ip_info = 0
    · clear halloc
      by_cases halloc : env.hlthunk_device_memory_alloc = 0
      · clear hal
        by_cases hal : env.aligned_alloc = 0 <;>
        simp [HpuManager.initializeHpu, he, hinfo, halloc, hmap, hexp, hal, hmm, hhm, hfd, hpu_cleanup_eq,
      HpuManager.allocateDeviceMemory, HpuManager.mapDeviceMemory, HpuManager.exportDmabuf,
      HpuManager.allocateHostMemory, HpuManager.mapHostMemoryToGaudi,
      HpuManager.cleanupCalls, HpuManager.call, HpuManager.fresh, List.filter_append,
      opens_filter_isFree opens ho, HpuCall.isFree]
      · clear hmap
        by_cases hmap : env.hlthunk_device_memory_map = 0
        · simp [HpuManager.initializeHpu, he, hinfo, halloc, hmap, hexp, hal, hmm, hhm, hfd, hpu_cleanup_eq,
      HpuManager.allocateDeviceMemory, HpuManager.mapDeviceMemory, HpuManager.exportDmabuf,
      HpuManager.allocateHostMemory, HpuManager.mapHostMemoryToGaudi,
      HpuManager.cleanupCalls, HpuManager.call, HpuManager.fresh, List.filter_append,
      opens_filter_isFree opens ho, HpuCall.isFree]
        · clear hexp
          by_cases hexp : env.hlthunk_export_dmabuf_fd ≥ 0
          · clear hmm
            by_cases hmm : env.mmap = MAP_FAILED <;>
            simp [HpuManager.initializeHpu, he, hinfo, halloc, hmap, hexp, hal, hmm, hhm, hfd, hpu_cleanup_eq,
      HpuManager.allocateDeviceMemory, HpuManager.mapDeviceMemory, HpuManager.exportDmabuf,
      HpuManager.allocateHostMemory, HpuManager.mapHostMemoryToGaudi,
      HpuManager.cleanupCalls, HpuManager.call, HpuManager.fresh, List.filter_append,
      opens_filter_isFree opens ho, HpuCall.isFree]
          · clear hal
            by_cases hal : env.aligned_alloc = 0 <;>
            simp [HpuManager.initializeHpu, he, hinfo, halloc, hmap, hexp, hal, hmm, hhm, hfd, hpu_cleanup_eq,
      HpuManager.allocateDeviceMemory, HpuManager.mapDeviceMemory, HpuManager.exportDmabuf,
      HpuManager.allocateHostMemory, HpuManager.mapHostMemoryToGaudi,
      HpuManager.cleanupCalls, HpuManager.call, HpuManager.fresh, List.filter_append,
      opens_filter_isFree opens ho, HpuCall.isFree]
    · simp [HpuManager.initializeHpu, he, hinfo, halloc, hmap, hexp, hal, hmm, hhm, hfd, hpu_cleanup_eq,
      HpuManager.allocateDeviceMemory, HpuManager.mapDeviceMemory, HpuManager.exportDmabuf,
      HpuManager.allocateHostMemory, HpuManager.mapHostMemoryToGaudi,
      HpuManager.cleanupCalls, HpuManager.call, HpuManager.fresh, List.filter_append,
      opens_filter_isFree opens ho, HpuCall.isFree]
  · have hfd' : ¬ fd ≥ 0 := not_le.mpr hfd
    clear hal
    by_cases hal : env.aligned_alloc = 0 <;>
    simp [HpuManager.initializeHpu, he, hinfo, halloc, hmap, hexp, hal, hmm, hhm, hfd, hfd', hpu_cleanup_eq,
      HpuManager.allocateDeviceMemory, HpuManager.mapDeviceMemory, HpuManager.exportDmabuf,
      HpuManager.allocateHostMemory, HpuManager.mapHostMemoryToGaudi,
      HpuManager.cleanupCalls, HpuManager.call, HpuManager.fresh, List.filter_append,
      opens_filter_isFree opens ho, HpuCall.isFree]

/-- `initialize` on a new object calls `mmap` only on the path that leaves a
descriptor in the handle. -/
theorem initializeHpu_no_mmap (env : HpuEnv) (size : Nat) :
    (HpuManager.initializeHpu env size HpuManager.fresh).1.dmabuf_fd < 0 →
      (HpuManager.initializeHpu env size HpuManager.fresh).1.trace.filter HpuCall.isMmap = [] := by
  obtain ⟨fd, opens, ho, hc⟩ := tryOpenGaudiDevice_cases env
    { HpuManager.fresh with buffer_size := size }
  simp only [HpuManager.fresh, List.nil_append] at hc
  -- every branch below is closed by the same `simp` call; the names it uses are bound
  -- here and replaced by the outcome of a call where the branch decides it
  have hinfo : True := trivial
  have halloc : True := trivial
  have hmap : True := trivial
  have hexp : True := trivial
  have hal : True := trivial
  have hmm : True := trivial
  have hhm : True := trivial
  rcases hc with ⟨hfd, he⟩ | ⟨hfd, he⟩
  · clear hinfo
    by_cases hinfo : env.hlthunk_get_hw_ip_info = 0
    · clear halloc
      by_cases halloc : env.hlthunk_device_memory_alloc = 0
      · clear hal
        by_cases hal : env.aligned_alloc = 0 <;>
        simp [HpuManager.initializeHpu, he, hinfo, halloc, hmap, hexp, hal, hmm, hhm, hfd, hpu_cleanup_eq,
      HpuManager.allocateDeviceMemory, HpuManager.mapDeviceMemory, HpuManager.exportDmabuf,
      HpuManager.allocateHostMemory, HpuManager.mapHostMemoryToGaudi,
      HpuManager.cleanupCalls, HpuManager.call, HpuManager.fresh, List.filter_append,
      opens_filter_isMmap opens ho, HpuCall.isMmap]
      · clear hmap
        by_cases hmap : env.hlthunk_device_memory_map = 0
        · simp [HpuManager.initializeHpu, he, hinfo, halloc, hmap, hexp, hal, hmm, hhm, hfd, hpu_cleanup_eq,
      HpuManager.allocateDeviceMemory, HpuManager.mapDeviceMemory, HpuManager.exportDmabuf,
      HpuManager.allocateHostMemory, HpuManager.mapHostMemoryToGaudi,
      HpuManager.cleanupCalls, HpuManager.call, HpuManager.fresh, List.filter_append,
      opens_filter_isMmap opens ho, HpuCall.isMmap]
        · clear hexp
          by_cases hexp : env.hlthunk_export_dmabuf_fd ≥ 0
          · clear hmm
            by_cases hmm : env.mmap = MAP_FAILED <;>
            simp [HpuManager.initializeHpu, he, hinfo, halloc, hmap, hexp, hal, hmm, hhm, hfd, hpu_cleanup_eq,
      HpuManager.allocateDeviceMemory, HpuManager.mapDeviceMemory, HpuManager.exportDmabuf,
      HpuManager.allocateHostMemory, HpuManager.mapHostMemoryToGaudi,
      HpuManager.cleanupCalls, HpuManager.call, HpuManager.fresh, List.filter_append,
      opens_filter_isMmap opens ho, HpuCall.isMmap]
          · clear hal
            by_cases hal : env.aligned_alloc = 0 <;>
            simp [HpuManager.initializeHpu, he, hinfo, halloc, hmap, hexp, hal, hmm, hhm, hfd, hpu_cleanup_eq,
      HpuManager.allocateDeviceMemory, HpuManager.mapDeviceMemory, HpuManager.exportDmabuf,
      HpuManager.allocateHostMemory, HpuManager.mapHostMemoryToGaudi,
      HpuManager.cleanupCalls, HpuManager.call, HpuManager.fresh, List.filter_append,
      opens_filter_isMmap opens ho, HpuCall.isMmap]
    · simp [HpuManager.initializeHpu, he, hinfo, halloc, hmap, hexp, hal, hmm, hhm, hfd, hpu_cleanup_eq,
      HpuManager.allocateDeviceMemory, HpuManager.mapDeviceMemory, HpuManager.exportDmabuf,
      HpuManager.allocateHostMemory, HpuManager.mapHostMemoryToGaudi,
      HpuManager.cleanupCalls, HpuManager.call, HpuManager.fresh, List.filter_append,
      opens_filter_isMmap opens ho, HpuCall.isMmap]
  · have hfd' : ¬ fd ≥ 0 := not_le.mpr hfd
    clear hal
    by_cases hal : env.aligned_alloc = 0 <;>
    simp [HpuManager.initializeHpu, he, hinfo, halloc, hmap, hexp, hal, hmm, hhm, hfd, hfd', hpu_cleanup_eq,
      HpuManager.allocateDeviceMemory, HpuManager.mapDeviceMemory, HpuManager.exportDmabuf,
      HpuManager.allocateHostMemory, HpuManager.mapHostMemoryToGaudi,
      HpuManager.cleanupCalls, HpuManager.call, HpuManager.fresh, List.filter_append,
      opens_filter_isMmap opens ho, HpuCall.isMmap]

theorem cleanupCalls_no_mmap (h : HpuManager) :
    h.cleanupCalls.filter HpuCall.isMmap = [] := by
  unfold HpuManager.cleanupCalls
  by_cases h1 : h.dmabuf_fd ≥ 0 <;> by_cases h2 : h.buffer = 0 <;>
  by_cases h3 : h.host_device_va ≠ 0 ∧ h.gaudi_fd ≥ 0 <;> by_cases h4 : h.gaudi_fd ≥ 0 <;>
  by_cases h5 : h.gaudi_handle = 0 <;> by_cases h6 : h.device_va = 0 <;>
  simp [h1, h2, h3, h4, h5, h6, HpuCall.isMmap]

theorem cleanupCalls_no_free (h : HpuManager) (hb : h.buffer = 0) :
    h.cleanupCalls.filter HpuCall.isFree = [] := by
  unfold HpuManager.cleanupCalls
  by_cases h1 : h.dmabuf_fd ≥ 0 <;> by_cases h4 : h.gaudi_fd ≥ 0 <;>
  by_cases h5 : h.gaudi_handle = 0 <;> by_cases h6 : h.device_va = 0 <;>
  simp [h1, hb, h4, h5, h6, HpuCall.isFree]

/-- When the handle `initialize` leaves has no descriptor or no CPU pointer, the
`cleanup` of the destructor passes no mapped address to `free`. -/
theorem destructor_frees_no_mapping (env : HpuEnv) (size : Nat)
    (h : (HpuManager.initializeHpu env size HpuManager.fresh).1.getDmabufFd < 0 ∨
      (HpuManager.initializeHpu env size HpuManager.fresh).1.getBuffer = 0) :
    HpuCall.freesMapping false
      (HpuManager.cleanup (HpuManager.initializeHpu env size HpuManager.fresh).1).trace =
        false := by
  rw [hpu_cleanup_eq]
  rcases h with h | h
  · apply freesMapping_no_mmap
    simp only [List.filter_append, cleanupCalls_no_mmap, List.append_nil]
    exact initializeHpu_no_mmap env size h
  · apply freesMapping_no_free
    simp only [List.filter_append, cleanupCalls_no_free _ h, List.append_nil]
    exact initializeHpu_no_free env size


/-! ### What the steps of a run return -/

theorem raise_fields {α : Type} (phase : Phase) (x : Session) (r : Except String α) :
    (Session.raise phase x r).hpu = x.hpu ∧ (Session.raise phase x r).rdma = x.rdma ∧
      (Session.raise phase x r).sends = x.sends ∧ (Session.raise phase x r).recvs = x.recvs ∧
      (Session.raise phase x r).polls = x.polls := by
  cases r <;> exact ⟨rfl, rfl, rfl, rfl, rfl⟩

theorem andThen_result (f g : Session → Session × Except String Unit) (x : Session) :
    (Session.andThen f g x).2 = .ok () ↔
      (f x).2 = .ok () ∧ (g (f x).1).2 = .ok () := by
  cases hf : (f x).2 with
  | ok u =>
    cases u
    rw [andThen_ok f g x hf]
    simp
  | error e =>
    rw [andThen_error f g x e hf]
    simp

/-- A sequence of two steps returns normally exactly when both do. -/
theorem andThen_okWhen (f g : Session → Session × Except String Unit)
    (cf cg : Nat → Nat → Nat → Prop) (fs fr fp gs gr gp : Nat)
    (hf : Session.OkWhen f cf fs fr fp) (hg : Session.OkWhen g cg gs gr gp) :
    Session.OkWhen (Session.andThen f g)
      (fun s r p => cf s r p ∧ cg (s + fs) (r + fr) (p + fp)) (fs + gs) (fr + gr) (fp + gp) := by
  intro x
  obtain ⟨f1, f2⟩ := hf x
  rw [andThen_result]
  constructor
  · constructor
    · rintro ⟨h1, h2⟩
      obtain ⟨e1, e2, e3⟩ := f2 h1
      have := (hg (f x).1).1.mp h2
      rw [e1, e2, e3] at this
      exact ⟨f1.mp h1, this⟩
    · rintro ⟨h1, h2⟩
      have hfx := f1.mpr h1
      obtain ⟨e1, e2, e3⟩ := f2 hfx
      refine ⟨hfx, (hg (f x).1).1.mpr ?_⟩
      rw [e1, e2, e3]
      exact h2
  · rintro ⟨h1, h2⟩
    obtain ⟨e1, e2, e3⟩ := f2 h1
    obtain ⟨k1, k2, k3⟩ := (hg (f x).1).2 h2
    rw [andThen_ok f g x h1, k1, k2, k3, e1, e2, e3]
    exact ⟨by omega, by omega, by omega⟩

/-- A post of a send request returns normally exactly when `ibv_post_send`
returned 0. -/
theorem postSend_okWhen (env : AppEnv) (phase : Phase) (opcode : Int) :
    Session.OkWhen (Session.postSend env phase opcode) (fun s _ _ => env.post_send s = 0)
      1 0 0 := by
  intro x
  obtain ⟨_, _, h3, h4, h5⟩ := raise_fields phase
    { x with
      rdma := (RdmaVerbs.postSend { env.verbs with ibv_post_send := env.post_send x.sends }
        x.hpu opcode x.rdma).1
      sends := x.sends + 1 }
    (RdmaVerbs.postSend { env.verbs with ibv_post_send := env.post_send x.sends }
      x.hpu opcode x.rdma).2
  refine ⟨?_, fun _ => ⟨h3, h4, h5⟩⟩
  simp only [Session.postSend, RdmaVerbs.postSend]
  by_cases h : env.post_send x.sends = 0 <;> simp [h]

/-- A post of a receive request returns normally exactly when `ibv_post_recv`
returned 0. -/
theorem postReceive_okWhen (env : AppEnv) (phase : Phase) :
    Session.OkWhen (Session.postReceive env phase) (fun _ r _ => env.post_recv r = 0)
      0 1 0 := by
  intro x
  obtain ⟨_, _, h3, h4, h5⟩ := raise_fields phase
    { x with
      rdma := (RdmaVerbs.postReceive { env.verbs with ibv_post_recv := env.post_recv x.recvs }
        x.hpu x.rdma).1
      recvs := x.recvs + 1 }
    (RdmaVerbs.postReceive { env.verbs with ibv_post_recv := env.post_recv x.recvs }
      x.hpu x.rdma).2
  refine ⟨?_, fun _ => ⟨h3, h4, h5⟩⟩
  simp only [Session.postReceive, RdmaVerbs.postReceive]
  by_cases h : env.post_recv x.recvs = 0 <;> simp [h]

/-- A poll returns normally exactly when `pollCompletion` returned true, that
is when it threw neither the poll error, nor the completion-status error, nor
the timeout. -/
theorem pollCompletion_okWhen (env : AppEnv) (phase : Phase) :
    Session.OkWhen (Session.pollCompletion env phase)
      (fun _ _ p =>
        (RdmaVerbs.pollCompletion (env.poll_cq p) env.ibv_wc_status_str).result = .ok true)
      0 0 1 := by
  intro x
  have hnf := pollLoop_not_false (env.poll_cq x.polls) env.ibv_wc_status_str 1000000 0 0 0 rfl
  refine ⟨?_, fun _ => ?_⟩
  · simp only [Session.pollCompletion]
    unfold RdmaVerbs.pollCompletion at *
    cases hr : (RdmaVerbs.pollLoop (env.poll_cq x.polls) env.ibv_wc_status_str 0 0 0).result with
    | error e => simp
    | ok b =>
      cases b
      · exact absurd hr hnf
      · simp
  · simp only [Session.pollCompletion]
    obtain ⟨_, _, h3, h4, h5⟩ := raise_fields phase { x with polls := x.polls + 1 }
      (match (RdmaVerbs.pollCompletion (env.poll_cq x.polls) env.ibv_wc_status_str).result with
        | .ok _ => (.ok () : Except String Unit)
        | .error e => .error e)
    exact ⟨h3, h4, h5⟩

theorem iterate_zero_okWhen (body : Session → Session × Except String Unit) :
    Session.OkWhen (Session.iterate body 0) (fun _ _ _ => True) 0 0 0 :=
  fun _ => ⟨⟨fun _ => trivial, fun _ => rfl⟩, fun _ => ⟨rfl, rfl, rfl⟩⟩

/-- The communication loop of the client returns normally exactly when its
three posts of a send, its three posts of a receive and its six polls all
succeed. -/
theorem client_loop_result (env : AppEnv) (x : Session)
    (hs : x.sends = 0) (hr : x.recvs = 0) (hp : x.polls = 0) :
    (DmabufClient.communicationLoop env x).2 = .ok () ↔
      (∀ k, k < 3 → env.post_send k = 0) ∧ (∀ k, k < 3 → env.post_recv k = 0) ∧
        ∀ k, k < 6 →
          (RdmaVerbs.pollCompletion (env.poll_cq k) env.ibv_wc_status_str).result = .ok true := by
  have hit := andThen_okWhen _ _ _ _ _ _ _ _ _ _ (postSend_okWhen env .loop IBV_WR_SEND)
    (andThen_okWhen _ _ _ _ _ _ _ _ _ _ (pollCompletion_okWhen env .loop)
      (andThen_okWhen _ _ _ _ _ _ _ _ _ _ (postReceive_okWhen env .loop)
        (pollCompletion_okWhen env .loop)))
  have h3 := andThen_okWhen _ _ _ _ _ _ _ _ _ _ hit
    (andThen_okWhen _ _ _ _ _ _ _ _ _ _ hit
      (andThen_okWhen _ _ _ _ _ _ _ _ _ _ hit (iterate_zero_okWhen (DmabufClient.iteration env))))
  have e := (h3 x).1
  rw [hs, hr, hp] at e
  have e' : (DmabufClient.communicationLoop env x).2 = .ok () ↔ _ := e
  rw [e']
  simp only [Nat.zero_add, Nat.add_zero, Nat.reduceAdd, and_true]
  constructor
  · rintro ⟨⟨s0, p0, r0, p1⟩, ⟨s1, p2, r1, p3⟩, s2, p4, r2, p5⟩
    refine ⟨?_, ?_, ?_⟩ <;> intro k hk <;> interval_cases k <;> assumption
  · rintro ⟨hs, hr, hp⟩
    exact ⟨⟨hs 0 (by decide), hp 0 (by decide), hr 0 (by decide), hp 1 (by decide)⟩,
      ⟨hs 1 (by decide), hp 2 (by decide), hr 1 (by decide), hp 3 (by decide)⟩,
      hs 2 (by decide), hp 4 (by decide), hr 2 (by decide), hp 5 (by decide)⟩

/-- The state after the three setup steps of a run on a new object: the buffer
handle is the one `HpuManager::initialize` left, the transport object the one
`connectQp` left, and no post or poll has been made. -/
theorem setup_fields (env : AppEnv) (size : Nat) (name : Option String) (server : String)
    (port : Int) :
    (Session.rdmaInitialize env name (Session.hpuInitialize env size Session.fresh).1).2 =
        (RdmaVerbs.initializeVerbs env.verbs (name.getD "")
          (HpuManager.initializeHpu env.hpu size HpuManager.fresh).1 RdmaVerbs.fresh).2 ∧
      (Session.connectQp env server port
          (Session.rdmaInitialize env name (Session.hpuInitialize env size Session.fresh).1).1).2 =
        (RdmaVerbs.connectQp env.verbs (HpuManager.initializeHpu env.hpu size HpuManager.fresh).1
          server port
          (RdmaVerbs.initializeVerbs env.verbs (name.getD "")
            (HpuManager.initializeHpu env.hpu size HpuManager.fresh).1 RdmaVerbs.fresh).1).2 ∧
      (Session.connectQp env server port
          (Session.rdmaInitialize env name
            (Session.hpuInitialize env size Session.fresh).1).1).1.sends = 0 ∧
      (Session.connectQp env server port
          (Session.rdmaInitialize env name
            (Session.hpuInitialize env size Session.fresh).1).1).1.recvs = 0 ∧
      (Session.connectQp env server port
          (Session.rdmaInitialize env name
            (Session.hpuInitialize env size Session.fresh).1).1).1.polls = 0 := by
  obtain ⟨a1, a2, a3, a4, a5⟩ := raise_fields .acquire
    { Session.fresh with hpu := (HpuManager.initializeHpu env.hpu size Session.fresh.hpu).1 }
    (HpuManager.initializeHpu env.hpu size Session.fresh.hpu).2
  have hA : (Session.hpuInitialize env size Session.fresh).1 = Session.raise .acquire
      { Session.fresh with hpu := (HpuManager.initializeHpu env.hpu size Session.fresh.hpu).1 }
      (HpuManager.initializeHpu env.hpu size Session.fresh.hpu).2 := rfl
  rw [← hA] at a1 a2 a3 a4 a5
  generalize Session.hpuInitialize env size Session.fresh = A at *
  obtain ⟨b1, b2, b3, b4, b5⟩ := raise_fields .transport
    { A.1 with rdma := (RdmaVerbs.initializeVerbs env.verbs (name.getD "") A.1.hpu A.1.rdma).1 }
    (RdmaVerbs.initializeVerbs env.verbs (name.getD "") A.1.hpu A.1.rdma).2
  have hB : (Session.rdmaInitialize env name A.1).1 = Session.raise .transport
      { A.1 with rdma := (RdmaVerbs.initializeVerbs env.verbs (name.getD "") A.1.hpu A.1.rdma).1 }
      (RdmaVerbs.initializeVerbs env.verbs (name.getD "") A.1.hpu A.1.rdma).2 := rfl
  rw [← hB] at b1 b2 b3 b4 b5
  have hB2 : (Session.rdmaInitialize env name A.1).2 =
      (RdmaVerbs.initializeVerbs env.verbs (name.getD "") A.1.hpu A.1.rdma).2 := rfl
  generalize Session.rdmaInitialize env name A.1 = B at *
  obtain ⟨c1, c2, c3, c4, c5⟩ := raise_fields .connect
    { B.1 with rdma := (RdmaVerbs.connectQp env.verbs B.1.hpu server port B.1.rdma).1 }
    (RdmaVerbs.connectQp env.verbs B.1.hpu server port B.1.rdma).2
  have hC : (Session.connectQp env server port B.1).1 = Session.raise .connect
      { B.1 with rdma := (RdmaVerbs.connectQp env.verbs B.1.hpu server port B.1.rdma).1 }
      (RdmaVerbs.connectQp env.verbs B.1.hpu server port B.1.rdma).2 := rfl
  rw [← hC] at c1 c2 c3 c4 c5
  have hC2 : (Session.connectQp env server port B.1).2 =
      (RdmaVerbs.connectQp env.verbs B.1.hpu server port B.1.rdma).2 := rfl
  simp only at a1 a2 a3 a4 a5 b1 b2 b3 b4 b5 c1 c2 c3 c4 c5
  refine ⟨?_, ?_, ?_, ?_, ?_⟩
  · rw [hB2, a1, a2]; rfl
  · rw [hC2, b1, b2, a1, a2]; rfl
  · rw [c3, b3, a3]; rfl
  · rw [c4, b4, a4]; rfl
  · rw [c5, b5, a5]; rfl

/-! ### The buffer handle during a run -/

theorem andThen_hpu (f g : Session → Session × Except String Unit)
    (hg : ∀ y, (g y).1.hpu = y.hpu) (x : Session) :
    (Session.andThen f g x).1.hpu = (f x).1.hpu := by
  cases hf : (f x).2 with
  | ok u =>
    cases u
    rw [andThen_ok f g x hf, hg]
  | error e => rw [andThen_error f g x e hf]

theorem andThen_keeps_hpu (f g : Session → Session × Except String Unit)
    (hf : ∀ y, (f y).1.hpu = y.hpu) (hg : ∀ y, (g y).1.hpu = y.hpu) :
    ∀ y, (Session.andThen f g y).1.hpu = y.hpu :=
  fun y => by rw [andThen_hpu f g hg, hf]

theorem iterate_keeps_hpu (body : Session → Session × Except String Unit)
    (hb : ∀ y, (body y).1.hpu = y.hpu) (n : Nat) :
    ∀ y, (Session.iterate body n y).1.hpu = y.hpu := by
  induction n with
  | zero => exact fun _ => rfl
  | succ n ih => exact andThen_keeps_hpu _ _ hb ih

theorem rdmaInitialize_keeps_hpu (env : AppEnv) (name : Option String) (y : Session) :
    (Session.rdmaInitialize env name y).1.hpu = y.hpu :=
  (raise_fields .transport _ _).1

theorem connectQp_keeps_hpu (env : AppEnv) (server : String) (port : Int) (y : Session) :
    (Session.connectQp env server port y).1.hpu = y.hpu :=
  (raise_fields .connect _ _).1

theorem postSend_keeps_hpu (env : AppEnv) (phase : Phase) (opcode : Int) (y : Session) :
    (Session.postSend env phase opcode y).1.hpu = y.hpu :=
  (raise_fields phase _ _).1

theorem postReceive_keeps_hpu (env : AppEnv) (phase : Phase) (y : Session) :
    (Session.postReceive env phase y).1.hpu = y.hpu :=
  (raise_fields phase _ _).1

theorem pollCompletion_keeps_hpu (env : AppEnv) (phase : Phase) (y : Session) :
    (Session.pollCompletion env phase y).1.hpu = y.hpu :=
  (raise_fields phase _ _).1

/-- Whatever happens in a run of the client, the buffer handle the destructor
finds is the one `HpuManager::initialize` left. -/
theorem client_run_hpu (env : AppEnv) (c : DmabufClient) :
    (DmabufClient.run env c Session.fresh).1.hpu =
      (HpuManager.initializeHpu env.hpu c.buffer_size HpuManager.fresh).1 := by
  have hloop : ∀ y, (DmabufClient.communicationLoop env y).1.hpu = y.hpu :=
    iterate_keeps_hpu _
      (andThen_keeps_hpu _ _ (postSend_keeps_hpu env _ _)
        (andThen_keeps_hpu _ _ (pollCompletion_keeps_hpu env _)
          (andThen_keeps_hpu _ _ (postReceive_keeps_hpu env _)
            (pollCompletion_keeps_hpu env _)))) 3
  have hread : ∀ y, (DmabufClient.performRdmaRead env y).1.hpu = y.hpu :=
    andThen_keeps_hpu _ _ (postSend_keeps_hpu env _ _) (pollCompletion_keeps_hpu env _)
  have hrest := andThen_keeps_hpu _ _ (rdmaInitialize_keeps_hpu env c.ib_dev_name)
    (andThen_keeps_hpu _ _ (connectQp_keeps_hpu env c.server_name c.port)
      (andThen_keeps_hpu _ _ hloop
        (andThen_keeps_hpu _ _ hread
          (show ∀ y, (DmabufClient.signalServerDone y).1.hpu = y.hpu from fun _ => rfl))))
  unfold DmabufClient.run
  rw [andThen_hpu _ _ hrest]
  exact (raise_fields .acquire _ _).1

/-- The run of the client returns normally exactly when buffer acquisition,
transport setup and connection return normally and the three posts of a send,
the three posts of a receive and the six polls of the communication loop
succeed; the post and the poll of the RDMA read have no part in it. -/
theorem client_run_result (env : AppEnv) (c : DmabufClient) :
    (DmabufClient.run env c Session.fresh).2 = .ok () ↔
      (HpuManager.initializeHpu env.hpu c.buffer_size HpuManager.fresh).2 = .ok () ∧
        (RdmaVerbs.initializeVerbs env.verbs (c.ib_dev_name.getD "")
          (HpuManager.initializeHpu env.hpu c.buffer_size HpuManager.fresh).1
          RdmaVerbs.fresh).2 = .ok () ∧
        (RdmaVerbs.connectQp env.verbs
          (HpuManager.initializeHpu env.hpu c.buffer_size HpuManager.fresh).1
          c.server_name c.port
          (RdmaVerbs.initializeVerbs env.verbs (c.ib_dev_name.getD "")
            (HpuManager.initializeHpu env.hpu c.buffer_size HpuManager.fresh).1
            RdmaVerbs.fresh).1).2 = .ok () ∧
        (∀ k, k < 3 → env.post_send k = 0) ∧ (∀ k, k < 3 → env.post_recv k = 0) ∧
        ∀ k, k < 6 →
          (RdmaVerbs.pollCompletion (env.poll_cq k) env.ibv_wc_status_str).result = .ok true := by
  obtain ⟨hB, hC, hs, hr, hp⟩ := setup_fields env c.buffer_size c.ib_dev_name c.server_name c.port
  unfold DmabufClient.run
  rw [andThen_result, andThen_result, andThen_result, andThen_result, hB, hC,
    client_loop_result env _ hs hr hp]
  have ht : ∀ y, (Session.andThen (DmabufClient.performRdmaRead env)
      DmabufClient.signalServerDone y).2 = .ok () := fun y => (client_tail env y).1
  rw [ht]
  have hA : (Session.hpuInitialize env c.buffer_size Session.fresh).2 =
      (HpuManager.initializeHpu env.hpu c.buffer_size HpuManager.fresh).2 := rfl
  rw [hA]
  simp only [and_true]

/-- When the destructor passes no mapped address to `free`, the exit code of
the client is 0 if `run` returned and 1 if it threw. -/
theorem client_main_eq (env : AppEnv) (c : DmabufClient)
    (h : (HpuManager.initializeHpu env.hpu c.buffer_size HpuManager.fresh).1.getDmabufFd < 0 ∨
      (HpuManager.initializeHpu env.hpu c.buffer_size HpuManager.fresh).1.getBuffer = 0) :
    DmabufClient.main env c =
      match (DmabufClient.run env c Session.fresh).2 with
      | .ok _ => .exit 0
      | .error _ => .exit 1 := by
  have hd : HpuCall.freesMapping false
      (DmabufClient.run env c Session.fresh).1.destroy.hpu.trace = false := by
    have : (DmabufClient.run env c Session.fresh).1.destroy.hpu =
        (DmabufClient.run env c Session.fresh).1.hpu.cleanup := rfl
    rw [this, client_run_hpu]
    exact destructor_frees_no_mapping env.hpu c.buffer_size h
  unfold DmabufClient.main
  simp only [hd, Bool.false_eq_true, if_false]

/-- On an accelerator on which every call succeeds the handle has a descriptor
and a CPU mapping of it, and the destructor of the client passes the mapped
address to `free`: the behaviour of the process is undefined, whatever the run
did. -/
theorem client_main_undefined_of_mapping :
    DmabufClient.main mappedDeviceRun someClient = .undefined := by
  have hd : HpuCall.freesMapping false
      (DmabufClient.run mappedDeviceRun someClient Session.fresh).1.destroy.hpu.trace = true := by
    have : (DmabufClient.run mappedDeviceRun someClient Session.fresh).1.destroy.hpu =
        (DmabufClient.run mappedDeviceRun someClient Session.fresh).1.hpu.cleanup := rfl
    rw [this, client_run_hpu]
    rfl
  unfold DmabufClient.main
  simp only [hd, if_true]

/-- A poll timeout in the communication loop of the client (its second poll
finds no completion in 1,000,000 queries) gives exit code 1. -/
theorem client_poll_timeout_exits_with_1 :
    DmabufClient.main pollTimeoutRun someClient = .exit 1 := by
  have hto : (RdmaVerbs.pollCompletion (pollTimeoutRun.poll_cq 1)
      pollTimeoutRun.ibv_wc_status_str).result = .error "Poll timeout" := by
    unfold RdmaVerbs.pollCompletion
    rw [pollLoop_all_empty _ _ 1000000 0 0 0 rfl (fun _ _ _ => rfl)]
  have hne : ¬ (DmabufClient.run pollTimeoutRun someClient Session.fresh).2 = .ok () := by
    rw [client_run_result]
    rintro ⟨_, _, _, _, _, h⟩
    have := h 1 (by decide)
    rw [hto] at this
    cases this
  rw [client_main_eq pollTimeoutRun someClient (Or.inl (by decide))]
  cases h : (DmabufClient.run pollTimeoutRun someClient Session.fresh).2 with
  | ok u => exact absurd (by cases u; exact h) hne
  | error e => rfl

end GaudiVerbs
